import Mathlib

/-!
# AMB82 smart-detection firmware: persistent store and motherboard counter

A shallow embedding of `amb82_flash.cpp`, `motherboard_counter.cpp` and the
records of `config.h`.

Conventions of the embedding
* `uint8_t` / `uint16_t` / `uint32_t` values are natural numbers; every
  operation that can leave the range carries its `% 2^w` explicitly.
* `float` fields are carried as their 32-bit IEEE-754 bit patterns: the
  embedded functions only copy them.
* A record is laid out as on the 32-bit little-endian ARM target: natural
  alignment, padding bytes kept as explicit `pad` fields so that the word
  and byte views of a record (`(uint32_t*)&cfg`, `(uint8_t*)&cfg`) are
  functions of the record.
* `FlashMemory` is a word store indexed by byte offset that returns the last
  word written at an offset.
* A structure assignment (`system_config = temp_config`) copies the whole
  object, padding included.
* `config_save_to_flash`, `config_load_from_flash` and
  `config_reset_to_defaults` call each other; they take a `fuel` argument that
  bounds the depth of the calls and return `none` when it runs out.
* `millis()` is an argument `now` of the functions that read the clock.
* Serial output (`INFO_PRINT`, `DEBUG_PRINT`, `ERROR_PRINT`) is not modelled.
-/

namespace AMB82

/-! ## config.h -/

def CONFIG_VERSION : Nat := 2
def FAN_CYCLE_INTERVAL : Nat := 3 * 60 * 1000
def LORA_DEFAULT_INTERVAL : Nat := 30 * 1000
def LASER_BLINK_INTERVAL : Nat := 500
/-- Bit pattern of the `float` literal `0.7f`. -/
def DEFAULT_DETECTION_THRESHOLD : Nat := 0x3F333333
/-- Bit pattern of the `float` literal `0.6f`. -/
def DEFAULT_MOTHERBOARD_THRESHOLD : Nat := 0x3F19999A
def DEFAULT_MOTHERBOARD_COUNT_THRESHOLD : Nat := 50
def DEFAULT_MOTHERBOARD_COUNT_WINDOW : Nat := 10000
def DEFAULT_MOTHERBOARD_COUNT_ENABLED : Nat := 1
def MOTHERBOARD_DETECTION_BUFFER_SIZE : Nat := 100
def LORA_RETRY_COUNT : Nat := 3
def LORA_TIMEOUT : Nat := 5000
def FLASH_CONFIG_OFFSET : Nat := 0x1E00
def FLASH_LOG_OFFSET : Nat := 0x1F00
def FLASH_SIZE : Nat := 0x1000
def CLASS_LED_ON : Nat := 0
def CLASS_MOTHERBOARD : Nat := 1

/-- The record `motherboard_counter_t`. `detection_timestamps` is the
100-slot array; `buffer_index` and `buffer_count` are `uint8_t`. -/
structure motherboard_counter_t where
  detection_timestamps : List Nat
  buffer_index : Nat
  buffer_count : Nat
  total_motherboard_detections : Nat
  lora_triggers_sent : Nat
  last_lora_trigger_time : Nat
  enabled : Bool
  count_threshold : Nat
  time_window_ms : Nat
deriving DecidableEq, Repr

/-- The record `system_config_t`, 80 bytes on the target. The fields named
`pad…` are the alignment padding the compiler inserts; the comment gives
the byte offset and the width of each field. -/
structure system_config_t where
  config_version : Nat                    -- 0, uint16_t
  pad0 : Nat                              -- 2, 2 bytes
  system_id : Nat                         -- 4, uint32_t
  lora_send_interval : Nat                -- 8, uint32_t
  lora_retry_count : Nat                  -- 12, uint8_t
  pad1 : Nat                              -- 13, 3 bytes
  lora_timeout : Nat                      -- 16, uint32_t
  lora_enabled : Nat                      -- 20, uint8_t
  pad2 : Nat                              -- 21, 3 bytes
  detection_threshold : Nat               -- 24, float
  motherboard_threshold : Nat             -- 28, float
  detection_enabled : Nat                 -- 32, uint8_t
  crosshair_enabled : Nat                 -- 33, uint8_t
  motherboard_count_enabled : Nat         -- 34, uint8_t
  pad3 : Nat                              -- 35, 1 byte
  motherboard_count_threshold : Nat       -- 36, uint32_t
  motherboard_count_window_ms : Nat       -- 40, uint32_t
  fan_cycle_interval : Nat                -- 44, uint32_t
  fan_enabled : Nat                       -- 48, uint8_t
  pad4 : Nat                              -- 49, 3 bytes
  laser_blink_interval : Nat              -- 52, uint32_t
  debug_level : Nat                       -- 56, uint8_t
  serial_commands_enabled : Nat           -- 57, uint8_t
  pad5 : Nat                              -- 58, 2 bytes
  total_detections : Nat                  -- 60, uint32_t
  system_uptime : Nat                     -- 64, uint32_t
  total_motherboard_count_triggers : Nat  -- 68, uint32_t
  last_motherboard_trigger_time : Nat     -- 72, uint32_t
  checksum : Nat                          -- 76, uint32_t
deriving DecidableEq, Repr

/-- The record `detection_result_t`, 32 bytes on the target; the `float`
fields are bit patterns, `pad0` and `pad1` the alignment padding. -/
structure detection_result_t where
  timestamp : Nat      -- 0, uint32_t
  object_class : Nat   -- 4, uint8_t
  pad0 : Nat           -- 5, 3 bytes
  confidence : Nat     -- 8, float
  x_min : Nat          -- 12, float
  y_min : Nat          -- 16, float
  x_max : Nat          -- 20, float
  y_max : Nat          -- 24, float
  valid : Nat          -- 28, uint8_t
  pad1 : Nat           -- 29, 3 bytes
deriving DecidableEq, Repr

/-- `sizeof(system_config_t)`. -/
def sizeof_system_config_t : Nat := 80
/-- `sizeof(detection_result_t)`. -/
def sizeof_detection_result_t : Nat := 32

/-- Every field of a configuration record lies in the range of its C type. -/
def system_config_t.WF (c : system_config_t) : Prop :=
  c.config_version < 65536 ∧ c.pad0 < 65536 ∧ c.system_id < 4294967296 ∧
  c.lora_send_interval < 4294967296 ∧ c.lora_retry_count < 256 ∧ c.pad1 < 16777216 ∧
  c.lora_timeout < 4294967296 ∧ c.lora_enabled < 256 ∧ c.pad2 < 16777216 ∧
  c.detection_threshold < 4294967296 ∧ c.motherboard_threshold < 4294967296 ∧
  c.detection_enabled < 256 ∧ c.crosshair_enabled < 256 ∧
  c.motherboard_count_enabled < 256 ∧ c.pad3 < 256 ∧
  c.motherboard_count_threshold < 4294967296 ∧
  c.motherboard_count_window_ms < 4294967296 ∧
  c.fan_cycle_interval < 4294967296 ∧ c.fan_enabled < 256 ∧ c.pad4 < 16777216 ∧
  c.laser_blink_interval < 4294967296 ∧ c.debug_level < 256 ∧
  c.serial_commands_enabled < 256 ∧ c.pad5 < 65536 ∧
  c.total_detections < 4294967296 ∧ c.system_uptime < 4294967296 ∧
  c.total_motherboard_count_triggers < 4294967296 ∧
  c.last_motherboard_trigger_time < 4294967296 ∧ c.checksum < 4294967296

instance (c : system_config_t) : Decidable c.WF := by
  unfold system_config_t.WF; infer_instance

/-- Every field of a detection record lies in the range of its C type. -/
def detection_result_t.WF (r : detection_result_t) : Prop :=
  r.timestamp < 4294967296 ∧ r.object_class < 256 ∧ r.pad0 < 16777216 ∧
  r.confidence < 4294967296 ∧ r.x_min < 4294967296 ∧ r.y_min < 4294967296 ∧
  r.x_max < 4294967296 ∧ r.y_max < 4294967296 ∧ r.valid < 256 ∧ r.pad1 < 16777216

instance (r : detection_result_t) : Decidable r.WF := by
  unfold detection_result_t.WF; infer_instance

/-- The record seen through `(uint32_t*)&cfg`: its 20 little-endian words. -/
def system_config_words (c : system_config_t) : List Nat :=
  [ c.config_version + 65536 * c.pad0,
    c.system_id,
    c.lora_send_interval,
    c.lora_retry_count + 256 * c.pad1,
    c.lora_timeout,
    c.lora_enabled + 256 * c.pad2,
    c.detection_threshold,
    c.motherboard_threshold,
    c.detection_enabled + 256 * c.crosshair_enabled
      + 65536 * c.motherboard_count_enabled + 16777216 * c.pad3,
    c.motherboard_count_threshold,
    c.motherboard_count_window_ms,
    c.fan_cycle_interval,
    c.fan_enabled + 256 * c.pad4,
    c.laser_blink_interval,
    c.debug_level + 256 * c.serial_commands_enabled + 65536 * c.pad5,
    c.total_detections,
    c.system_uptime,
    c.total_motherboard_count_triggers,
    c.last_motherboard_trigger_time,
    c.checksum ]

/-- The record a `uint32_t*` view of 20 words denotes (a missing word reads
as 0; the callers always pass 20 words of 32 bits). -/
def system_config_of_words (w : List Nat) : system_config_t :=
  { config_version := w.getD 0 0 % 65536
    pad0 := w.getD 0 0 / 65536
    system_id := w.getD 1 0
    lora_send_interval := w.getD 2 0
    lora_retry_count := w.getD 3 0 % 256
    pad1 := w.getD 3 0 / 256
    lora_timeout := w.getD 4 0
    lora_enabled := w.getD 5 0 % 256
    pad2 := w.getD 5 0 / 256
    detection_threshold := w.getD 6 0
    motherboard_threshold := w.getD 7 0
    detection_enabled := w.getD 8 0 % 256
    crosshair_enabled := w.getD 8 0 / 256 % 256
    motherboard_count_enabled := w.getD 8 0 / 65536 % 256
    pad3 := w.getD 8 0 / 16777216
    motherboard_count_threshold := w.getD 9 0
    motherboard_count_window_ms := w.getD 10 0
    fan_cycle_interval := w.getD 11 0
    fan_enabled := w.getD 12 0 % 256
    pad4 := w.getD 12 0 / 256
    laser_blink_interval := w.getD 13 0
    debug_level := w.getD 14 0 % 256
    serial_commands_enabled := w.getD 14 0 / 256 % 256
    pad5 := w.getD 14 0 / 65536
    total_detections := w.getD 15 0
    system_uptime := w.getD 16 0
    total_motherboard_count_triggers := w.getD 17 0
    last_motherboard_trigger_time := w.getD 18 0
    checksum := w.getD 19 0 }

/-- The four bytes of a 32-bit word, least significant first. -/
def word_bytes (w : Nat) : List Nat :=
  [w % 256, w / 256 % 256, w / 65536 % 256, w / 16777216 % 256]

/-- The bytes of a list of words, in memory order. -/
def words_bytes : List Nat → List Nat
  | [] => []
  | w :: ws => word_bytes w ++ words_bytes ws

/-- The record seen through `(uint8_t*)&cfg`: its 80 bytes. -/
def system_config_bytes (c : system_config_t) : List Nat :=
  words_bytes (system_config_words c)

/-- The record seen through `(uint32_t*)result`: its 8 little-endian words. -/
def detection_result_words (r : detection_result_t) : List Nat :=
  [ r.timestamp,
    r.object_class + 256 * r.pad0,
    r.confidence,
    r.x_min,
    r.y_min,
    r.x_max,
    r.y_max,
    r.valid + 256 * r.pad1 ]

/-- The record a `uint32_t*` view of 8 words denotes. -/
def detection_result_of_words (w : List Nat) : detection_result_t :=
  { timestamp := w.getD 0 0
    object_class := w.getD 1 0 % 256
    pad0 := w.getD 1 0 / 256
    confidence := w.getD 2 0
    x_min := w.getD 3 0
    y_min := w.getD 4 0
    x_max := w.getD 5 0
    y_max := w.getD 6 0
    valid := w.getD 7 0 % 256
    pad1 := w.getD 7 0 / 256 }

/-- The initialiser `DEFAULT_CONFIG`; padding bytes of the initialised
object are zero. -/
def DEFAULT_CONFIG : system_config_t :=
  { config_version := CONFIG_VERSION
    pad0 := 0
    system_id := 0x12345678
    lora_send_interval := LORA_DEFAULT_INTERVAL
    lora_retry_count := LORA_RETRY_COUNT
    pad1 := 0
    lora_timeout := LORA_TIMEOUT
    lora_enabled := 1
    pad2 := 0
    detection_threshold := DEFAULT_DETECTION_THRESHOLD
    motherboard_threshold := DEFAULT_MOTHERBOARD_THRESHOLD
    detection_enabled := 1
    crosshair_enabled := 1
    motherboard_count_enabled := DEFAULT_MOTHERBOARD_COUNT_ENABLED
    pad3 := 0
    motherboard_count_threshold := DEFAULT_MOTHERBOARD_COUNT_THRESHOLD
    motherboard_count_window_ms := DEFAULT_MOTHERBOARD_COUNT_WINDOW
    fan_cycle_interval := FAN_CYCLE_INTERVAL
    fan_enabled := 1
    pad4 := 0
    laser_blink_interval := LASER_BLINK_INTERVAL
    debug_level := 2
    serial_commands_enabled := 1
    pad5 := 0
    total_detections := 0
    system_uptime := 0
    total_motherboard_count_triggers := 0
    last_motherboard_trigger_time := 0
    checksum := 0 }

/-! ## amb82_flash.h / amb82_flash.cpp -/

inductive flash_result_t where
  | FLASH_SUCCESS
  | FLASH_ERROR_INIT
  | FLASH_ERROR_READ
  | FLASH_ERROR_WRITE
  | FLASH_ERROR_VERIFY
  | FLASH_ERROR_CHECKSUM
  | FLASH_ERROR_VERSION
deriving DecidableEq, Repr

open flash_result_t

/-- The macro `MAX_LOG_ENTRIES` of amb82_flash.h (117 on the target). -/
def MAX_LOG_ENTRIES : Nat :=
  (FLASH_SIZE - (FLASH_LOG_OFFSET - FLASH_CONFIG_OFFSET) - sizeof_system_config_t)
    / sizeof_detection_result_t

/-- The persistent store: the flash device (`mem`, one 32-bit word per byte
offset), the two file-level variables of amb82_flash.cpp and the global
`system_config`. -/
structure Store where
  mem : Nat → Nat
  flash_initialized : Bool
  current_log_index : Nat
  system_config : system_config_t

/-- `FlashMemory.writeWord(offset, data)`. -/
def writeWord (mem : Nat → Nat) (offset data : Nat) : Nat → Nat :=
  fun a => if a = offset then data % 4294967296 else mem a

/-- `FlashMemory.readWord(offset)`. -/
def readWord (mem : Nat → Nat) (offset : Nat) : Nat :=
  mem offset % 4294967296

/-- The loop `for (i = i0; …; i++) FlashMemory.writeWord(base + i*4, ptr[i])`
over the words still to be written. -/
def write_words (mem : Nat → Nat) (base : Nat) : Nat → List Nat → Nat → Nat
  | _, [] => mem
  | i, w :: ws => write_words (writeWord mem (base + i * 4) w) base (i + 1) ws

/-- The loop `for (i = 0; i < word_count; i++) ptr[i] = FlashMemory.readWord(base + i*4)`. -/
def read_words (mem : Nat → Nat) (base word_count : Nat) : List Nat :=
  (List.range word_count).map (fun i => readWord mem (base + i * 4))

/-- The body of the loop of `config_calculate_checksum`, in `uint32_t`
arithmetic: `checksum += data[i]; checksum ^= (checksum << 1);`. -/
def checksum_step (checksum b : Nat) : Nat :=
  let checksum := (checksum + b) % 4294967296
  checksum ^^^ ((checksum <<< 1) % 4294967296)

/-- `config_calculate_checksum`: the loop runs over the first
`sizeof(system_config_t) - sizeof(config->checksum)` bytes of the record. -/
def config_calculate_checksum (config : system_config_t) : Nat :=
  let size := sizeof_system_config_t - 4
  ((system_config_bytes config).take size).foldl checksum_step 0

/-- `config_validate_checksum`. -/
def config_validate_checksum (config : system_config_t) : Bool :=
  let calculated_checksum := config_calculate_checksum config
  calculated_checksum == config.checksum

mutual

/-- `config_save_to_flash`. The three functions call each other; `fuel`
bounds the depth of the calls and `none` means it was used up. -/
def config_save_to_flash : Nat → Store → Option (flash_result_t × Store)
  | 0, _ => none
  | fuel + 1, s =>
    if !s.flash_initialized then some (FLASH_ERROR_INIT, s) else
    let cfg := { s.system_config with
                 checksum := config_calculate_checksum s.system_config }
    let config_size := sizeof_system_config_t
    let word_count := (config_size + 3) / 4
    let mem := write_words s.mem FLASH_CONFIG_OFFSET 0
                 ((system_config_words cfg).take word_count)
    match config_load_from_flash fuel { s with system_config := cfg, mem := mem } with
    | none => none
    | some (verify_result, s') =>
      if verify_result ≠ FLASH_SUCCESS then some (FLASH_ERROR_VERIFY, s')
      else some (FLASH_SUCCESS, s')

/-- `config_load_from_flash`. -/
def config_load_from_flash : Nat → Store → Option (flash_result_t × Store)
  | 0, _ => none
  | fuel + 1, s =>
    if !s.flash_initialized then some (FLASH_ERROR_INIT, s) else
    let config_size := sizeof_system_config_t
    let word_count := (config_size + 3) / 4
    let temp_config := system_config_of_words
                         (read_words s.mem FLASH_CONFIG_OFFSET word_count)
    if temp_config.config_version ≠ CONFIG_VERSION then
      config_reset_to_defaults fuel s
    else if !config_validate_checksum temp_config then
      config_reset_to_defaults fuel s
    else
      some (FLASH_SUCCESS, { s with system_config := temp_config })

/-- `config_reset_to_defaults`. -/
def config_reset_to_defaults : Nat → Store → Option (flash_result_t × Store)
  | 0, _ => none
  | fuel + 1, s =>
    let default_config := DEFAULT_CONFIG
    config_save_to_flash fuel { s with system_config := default_config }

end

/-- `flash_write_detection_log`; `result` is the pointer argument, `none`
for a null pointer. -/
def flash_write_detection_log (s : Store) (result : Option detection_result_t) :
    flash_result_t × Store :=
  match result with
  | none => (FLASH_ERROR_INIT, s)
  | some r =>
    if !s.flash_initialized then (FLASH_ERROR_INIT, s) else
    let current_log_index :=
      if s.current_log_index ≥ MAX_LOG_ENTRIES then 0 else s.current_log_index
    let log_offset := FLASH_LOG_OFFSET + current_log_index * sizeof_detection_result_t
    let log_size := sizeof_detection_result_t
    let word_count := (log_size + 3) / 4
    let mem := write_words s.mem log_offset 0 ((detection_result_words r).take word_count)
    (FLASH_SUCCESS,
      { s with
        mem := mem
        current_log_index := (current_log_index + 1) % 4294967296
        system_config :=
          { s.system_config with
            total_detections := (s.system_config.total_detections + 1) % 4294967296 } })

/-- `flash_read_detection_log`; `result` is the object the pointer argument
points to before the call (`none` for a null pointer), the second component
of the value is that object after the call. -/
def flash_read_detection_log (s : Store) (index : Nat) (result : Option detection_result_t) :
    flash_result_t × Option detection_result_t :=
  if !s.flash_initialized || result.isNone || index ≥ MAX_LOG_ENTRIES then
    (FLASH_ERROR_READ, result)
  else
    let log_offset := FLASH_LOG_OFFSET + index * sizeof_detection_result_t
    let log_size := sizeof_detection_result_t
    let word_count := (log_size + 3) / 4
    (FLASH_SUCCESS, some (detection_result_of_words (read_words s.mem log_offset word_count)))

/-- The loop of `flash_get_log_count`: `n` iterations remain, `i` is the
loop variable, `temp_result` the local the reads go to. -/
def flash_get_log_count_loop (s : Store) :
    Nat → Nat → detection_result_t → Nat → Nat
  | 0, _, _, count => count
  | n + 1, i, temp_result, count =>
    match flash_read_detection_log s i (some temp_result) with
    | (FLASH_SUCCESS, some temp_result) =>
      if temp_result.valid = 1 then
        flash_get_log_count_loop s n (i + 1) temp_result (count + 1)
      else count
    | (_, some temp_result) => flash_get_log_count_loop s n (i + 1) temp_result count
    | (_, none) => flash_get_log_count_loop s n (i + 1) temp_result count

/-- `flash_get_log_count`. The local `temp_result` starts out all zero: it
is only looked at after a read has filled it. -/
def flash_get_log_count (s : Store) : Nat :=
  if !s.flash_initialized then 0
  else flash_get_log_count_loop s MAX_LOG_ENTRIES 0 ⟨0, 0, 0, 0, 0, 0, 0, 0, 0, 0⟩ 0

/-- `flash_init`. -/
def flash_init (s : Store) : flash_result_t × Store :=
  let test_value := 0xDEADBEEF
  let test_offset := 0x100
  let s := { s with mem := writeWord s.mem test_offset test_value }
  let read_value := readWord s.mem test_offset
  if read_value ≠ test_value then (FLASH_ERROR_INIT, s) else
  let s := { s with current_log_index := flash_get_log_count s }
  let s := { s with flash_initialized := true }
  (FLASH_SUCCESS, s)

/-- `flash_is_initialized`. -/
def flash_is_initialized (s : Store) : Bool := s.flash_initialized

/-! ## motherboard_counter.cpp -/

/-- The difference `a - b` of two `uint32_t` values. -/
def sub_u32 (a b : Nat) : Nat := (a + (4294967296 - b % 4294967296)) % 4294967296

/-- `motherboard_counter_init`; the settings come from `system_config`. -/
def motherboard_counter_init (system_config : system_config_t) : motherboard_counter_t :=
  { detection_timestamps := List.replicate MOTHERBOARD_DETECTION_BUFFER_SIZE 0
    buffer_index := 0
    buffer_count := 0
    total_motherboard_detections := 0
    lora_triggers_sent := 0
    last_lora_trigger_time := 0
    enabled := system_config.motherboard_count_enabled != 0
    count_threshold := system_config.motherboard_count_threshold
    time_window_ms := system_config.motherboard_count_window_ms }

/-- `motherboard_counter_add_detection`. -/
def motherboard_counter_add_detection (mc : motherboard_counter_t) (timestamp : Nat) :
    motherboard_counter_t :=
  if !mc.enabled then mc else
  { mc with
    detection_timestamps := mc.detection_timestamps.set mc.buffer_index timestamp
    buffer_index := (mc.buffer_index + 1) % MOTHERBOARD_DETECTION_BUFFER_SIZE
    buffer_count :=
      if mc.buffer_count < MOTHERBOARD_DETECTION_BUFFER_SIZE then mc.buffer_count + 1
      else mc.buffer_count
    total_motherboard_detections := (mc.total_motherboard_detections + 1) % 4294967296 }

/-- `motherboard_counter_get_count_in_window`, with `now` the value of
`millis()`. A slot outside the array reads as 0. -/
def motherboard_counter_get_count_in_window (mc : motherboard_counter_t) (now : Nat) : Nat :=
  if !mc.enabled || mc.buffer_count == 0 then 0 else
  let current_time := now
  let window_start := sub_u32 current_time mc.time_window_ms
  (List.range mc.buffer_count).foldl
    (fun count i =>
      let detection_time := mc.detection_timestamps.getD i 0
      if detection_time > current_time then count
      else if detection_time ≥ window_start then count + 1
      else count)
    0

/-- `motherboard_counter_check_trigger`, with `now` the value of `millis()`
(both reads of the clock inside one call give the same tick). -/
def motherboard_counter_check_trigger (mc : motherboard_counter_t)
    (system_config : system_config_t) (now : Nat) :
    Bool × motherboard_counter_t × system_config_t :=
  if !mc.enabled then (false, mc, system_config) else
  let current_count := motherboard_counter_get_count_in_window mc now
  if current_count ≥ mc.count_threshold then
    let current_time := now
    if sub_u32 current_time mc.last_lora_trigger_time > 30000 then
      (true,
        { mc with
          last_lora_trigger_time := current_time
          lora_triggers_sent := (mc.lora_triggers_sent + 1) % 4294967296 },
        { system_config with
          total_motherboard_count_triggers :=
            (system_config.total_motherboard_count_triggers + 1) % 4294967296
          last_motherboard_trigger_time := current_time })
    else (false, mc, system_config)
  else (false, mc, system_config)

/-- `motherboard_counter_reset`. -/
def motherboard_counter_reset (mc : motherboard_counter_t) (system_config : system_config_t) :
    motherboard_counter_t × system_config_t :=
  ({ mc with
     detection_timestamps := List.replicate MOTHERBOARD_DETECTION_BUFFER_SIZE 0
     buffer_index := 0
     buffer_count := 0
     total_motherboard_detections := 0
     lora_triggers_sent := 0
     last_lora_trigger_time := 0 },
   { system_config with
     total_motherboard_count_triggers := 0
     last_motherboard_trigger_time := 0 })

/-- `motherboard_counter_set_enabled`. -/
def motherboard_counter_set_enabled (mc : motherboard_counter_t)
    (system_config : system_config_t) (enabled : Bool) :
    Bool × motherboard_counter_t × system_config_t :=
  (true,
    { mc with enabled := enabled },
    { system_config with motherboard_count_enabled := if enabled then 1 else 0 })

/-- `motherboard_counter_set_threshold`. -/
def motherboard_counter_set_threshold (mc : motherboard_counter_t)
    (system_config : system_config_t) (threshold : Nat) :
    Bool × motherboard_counter_t × system_config_t :=
  if threshold < 1 || threshold > 1000 then (false, mc, system_config) else
  (true,
    { mc with count_threshold := threshold },
    { system_config with motherboard_count_threshold := threshold })

/-- `motherboard_counter_set_window`. -/
def motherboard_counter_set_window (mc : motherboard_counter_t)
    (system_config : system_config_t) (window_seconds : Nat) :
    Bool × motherboard_counter_t × system_config_t :=
  if window_seconds < 1 || window_seconds > 300 then (false, mc, system_config) else
  (true,
    { mc with time_window_ms := (window_seconds * 1000) % 4294967296 },
    { system_config with
      motherboard_count_window_ms := (window_seconds * 1000) % 4294967296 })

/-! ## C strings and Arduino `String`

A `const char*` is the list of the bytes found at the pointer; the string it
denotes ends before the first NUL byte. -/

/-- The bytes of an ASCII string literal. -/
def ascii (s : String) : List Nat := s.toList.map Char.toNat

/-- The string a `const char*` denotes: the bytes before the first NUL. -/
def c_str (s : List Nat) : List Nat := s.takeWhile (fun c => c != 0)

/-- `strlen`. -/
def strlen (s : List Nat) : Nat := (c_str s).length

/-- Whether `needle` occurs in `s` as a run of consecutive bytes: the test
`indexOf(needle) >= 0` of an Arduino `String`. -/
def contains_bytes : List Nat → List Nat → Bool
  | [], needle => needle.isPrefixOf []
  | c :: s, needle => needle.isPrefixOf (c :: s) || contains_bytes s needle

/-- `strstr(haystack, needle) != NULL`. -/
def strstr (haystack needle : List Nat) : Bool :=
  contains_bytes (c_str haystack) (c_str needle)

/-- `isspace` in the C locale. -/
def isspace (c : Nat) : Bool :=
  c == 32 || c == 9 || c == 10 || c == 11 || c == 12 || c == 13

/-- `String::trim`: leading and trailing white space removed. -/
def string_trim (s : List Nat) : List Nat :=
  ((s.dropWhile isspace).reverse.dropWhile isspace).reverse

/-- `snprintf(buffer, size, …)` of a text that is already formatted: at most
`size - 1` bytes are stored. -/
def snprintf (size : Nat) (text : List Nat) : List Nat := text.take (size - 1)

/-- The decimal digits `%lu` prints for an `unsigned long`. -/
def format_lu (n : Nat) : List Nat := ascii (Nat.repr (n % 4294967296))

/-! ## lora_rak3172.h / lora_rak3172.cpp -/

inductive lora_message_type_t where
  | LORA_MSG_STATUS
  | LORA_MSG_DETECTION
  | LORA_MSG_ALERT
  | LORA_MSG_CONFIG
  | LORA_MSG_HEARTBEAT
  | LORA_MSG_MOTHERBOARD_TRIGGER
deriving DecidableEq, Repr

inductive lora_result_t where
  | LORA_SUCCESS
  | LORA_ERROR_INIT
  | LORA_ERROR_TIMEOUT
  | LORA_ERROR_SEND
  | LORA_ERROR_RECEIVE
  | LORA_ERROR_AT_COMMAND
  | LORA_ERROR_NETWORK
  | LORA_ERROR_BUFFER_FULL
deriving DecidableEq, Repr

inductive lora_state_t where
  | LORA_STATE_DISCONNECTED
  | LORA_STATE_INITIALIZING
  | LORA_STATE_CONNECTED
  | LORA_STATE_SENDING
  | LORA_STATE_ERROR
deriving DecidableEq, Repr

open lora_message_type_t lora_result_t lora_state_t

def LORA_MAX_PAYLOAD_SIZE : Nat := 200
def LORA_AT_TIMEOUT : Nat := 5000
def LORA_MAX_RETRY_COUNT : Nat := 3

/-- The record `lora_message_t`; `payload` is the `char[200]` buffer. -/
structure lora_message_t where
  type : lora_message_type_t
  timestamp : Nat
  payload_length : Nat
  payload : List Nat
  retry_count : Nat
  pending : Bool
deriving DecidableEq, Repr

/-- The record `lora_stats_t`. -/
structure lora_stats_t where
  messages_sent : Nat
  messages_failed : Nat
  messages_received : Nat
  last_send_timestamp : Nat
  last_receive_timestamp : Nat
  total_send_attempts : Nat
  connection_failures : Nat
deriving DecidableEq, Repr

/-- The record `lora_module_t`. `response_buffer` holds the bytes stored at the
indices below `response_index`; the rest of the `char[256]` array is zero
since the last `lora_clear_response_buffer`. -/
structure lora_module_t where
  state : lora_state_t
  last_send_time : Nat
  last_heartbeat : Nat
  pending_message : lora_message_t
  stats : lora_stats_t
  initialization_complete : Bool
  response_buffer : List Nat
  response_index : Nat
  command_timeout : Nat
deriving DecidableEq, Repr

/-- The serial channel `Serial1` to the modem. `tx` lists the lines written
with `println`, oldest first. `rx` is the traffic to come: for each coming AT
transaction, the bytes that `lora_send_at_command` reads before it returns or
its timeout elapses (nothing arrives once the list is used up). -/
structure serial1_t where
  tx : List (List Nat)
  rx : List (List Nat)
deriving DecidableEq, Repr

/-- The value of one hexadecimal digit as the character `%X` prints. -/
def hex_digit (d : Nat) : Nat := if d < 10 then 48 + d else 55 + d

/-- `sprintf(hex_char, "%02X", (unsigned char)c)`. -/
def sprintf_02X (c : Nat) : List Nat := [hex_digit (c % 256 / 16), hex_digit (c % 16)]

/-- `string_to_hex`: the loop runs until the NUL byte. -/
def string_to_hex : List Nat → List Nat
  | [] => []
  | c :: str => if c = 0 then [] else sprintf_02X c ++ string_to_hex str

/-- `lora_clear_response_buffer`. -/
def lora_clear_response_buffer (m : lora_module_t) : lora_module_t :=
  { m with response_buffer := [], response_index := 0 }

/-- `lora_is_initialized`. -/
def lora_is_initialized (m : lora_module_t) : Bool := m.initialization_complete

/-- `lora_get_state`. -/
def lora_get_state (m : lora_module_t) : lora_state_t := m.state

/-- The loop of `lora_send_at_command` that reads the response, over the bytes
that arrive before the timeout: `response` is the caller's buffer (`none` for
`NULL`), `got_response` the local flag. When the bytes are used up the timeout
has elapsed. -/
def lora_at_read_loop :
    List Nat → lora_module_t → Option (List Nat) → Bool →
      lora_result_t × lora_module_t × Option (List Nat)
  | [], m, response, got_response =>
    (if got_response then LORA_SUCCESS else LORA_ERROR_TIMEOUT, m, response)
  | c :: cs, m, response, got_response =>
    if c = 10 then
      if m.response_index > 0 then
        let response := response.map (fun _ => c_str m.response_buffer)
        let resp := string_trim (c_str m.response_buffer)
        if resp == ascii "OK" || contains_bytes resp (ascii "OK") ||
            (ascii "+").isPrefixOf resp || contains_bytes resp (ascii "EVT:") then
          (LORA_SUCCESS, m, response)
        else if contains_bytes resp (ascii "ERROR") || contains_bytes resp (ascii "FAIL") then
          (LORA_ERROR_AT_COMMAND, m, response)
        else
          lora_at_read_loop cs (lora_clear_response_buffer m) response true
      else lora_at_read_loop cs m response got_response
    else if c ≠ 13 ∧ m.response_index < 256 - 1 then
      lora_at_read_loop cs
        { m with
          response_buffer := m.response_buffer ++ [c]
          response_index := m.response_index + 1 }
        response got_response
    else lora_at_read_loop cs m response got_response

/-- `lora_send_at_command`. Input still unread when the call starts is thrown
away by the call; bytes that arrive after the line that ends the transaction
are left for that step of the next call. -/
def lora_send_at_command (m : lora_module_t) (io : serial1_t) (command : Option (List Nat))
    (response : Option (List Nat)) (timeout : Nat) :
    lora_result_t × lora_module_t × serial1_t × Option (List Nat) :=
  match command with
  | none => (LORA_ERROR_AT_COMMAND, m, io, response)
  | some command =>
    let m := lora_clear_response_buffer m
    let arriving := if timeout = 0 then [] else io.rx.headD []
    let io := { io with tx := io.tx ++ [c_str command], rx := io.rx.tail }
    let r := lora_at_read_loop arriving m response false
    (r.1, r.2.1, io, r.2.2)

/-- `lora_send_message`; `now` is the value of `millis()` read after the
transaction. -/
def lora_send_message (m : lora_module_t) (io : serial1_t) (_type : lora_message_type_t)
    (payload : Option (List Nat)) (now : Nat) : lora_result_t × lora_module_t × serial1_t :=
  match payload with
  | none => (LORA_ERROR_INIT, m, io)
  | some payload =>
    if !lora_is_initialized m then (LORA_ERROR_INIT, m, io) else
    if m.state = LORA_STATE_SENDING then (LORA_ERROR_BUFFER_FULL, m, io) else
    let m := { m with state := LORA_STATE_SENDING }
    if strlen payload > 20 then
      (LORA_ERROR_SEND, { m with state := LORA_STATE_CONNECTED }, io)
    else
    let hex_payload := string_to_hex payload
    if hex_payload.length > 40 then
      (LORA_ERROR_SEND, { m with state := LORA_STATE_CONNECTED }, io)
    else
    let at_command := snprintf 100 (ascii "AT+SEND=2:" ++ hex_payload)
    let r := lora_send_at_command m io (some at_command) none 5000
    let result := r.1
    let m := r.2.1
    let io := r.2.2.1
    let m := { m with
      stats := { m.stats with
        total_send_attempts := (m.stats.total_send_attempts + 1) % 4294967296 } }
    let m :=
      if result = LORA_SUCCESS then
        { m with
          stats := { m.stats with messages_sent := (m.stats.messages_sent + 1) % 4294967296 }
          last_send_time := now }
      else
        { m with
          stats := { m.stats with
            messages_failed := (m.stats.messages_failed + 1) % 4294967296 } }
    (result, { m with state := LORA_STATE_CONNECTED }, io)

/-- `lora_send_alert`; `now` is the value of `millis()` when the text is
formatted, `now_sent` the one read by `lora_send_message`. -/
def lora_send_alert (m : lora_module_t) (io : serial1_t) (alert_message : Option (List Nat))
    (now now_sent : Nat) : lora_result_t × lora_module_t × serial1_t :=
  match alert_message with
  | none => (LORA_ERROR_INIT, m, io)
  | some alert_message =>
    let formatted_message := snprintf LORA_MAX_PAYLOAD_SIZE
      (ascii "A," ++ format_lu (now / 1000) ++ ascii "," ++ (c_str alert_message).take 10)
    lora_send_message m io LORA_MSG_ALERT (some formatted_message) now_sent

/-- The calls `strcpy(response, lora_module.response_buffer)` of the read loop
of `lora_send_at_command`, for a caller buffer of `capacity` bytes. The bytes
are followed as in `lora_at_read_loop`; the value is false as soon as a
completed line does not fit the caller buffer together with its NUL byte. -/
def lora_at_read_loop_strcpy_fits (capacity : Nat) : List Nat → lora_module_t → Bool
  | [], _ => true
  | c :: cs, m =>
    if c = 10 then
      if m.response_index > 0 then
        if strlen m.response_buffer + 1 > capacity then false else
        let resp := string_trim (c_str m.response_buffer)
        if resp == ascii "OK" || contains_bytes resp (ascii "OK") ||
            (ascii "+").isPrefixOf resp || contains_bytes resp (ascii "EVT:") then
          true
        else if contains_bytes resp (ascii "ERROR") || contains_bytes resp (ascii "FAIL") then
          true
        else
          lora_at_read_loop_strcpy_fits capacity cs (lora_clear_response_buffer m)
      else lora_at_read_loop_strcpy_fits capacity cs m
    else if c ≠ 13 ∧ m.response_index < 256 - 1 then
      lora_at_read_loop_strcpy_fits capacity cs
        { m with
          response_buffer := m.response_buffer ++ [c]
          response_index := m.response_index + 1 }
    else lora_at_read_loop_strcpy_fits capacity cs m

/-- Whether a call of `lora_send_at_command` whose `response` points to an
array of `capacity` bytes keeps every `strcpy` inside that array. -/
def lora_send_at_command_strcpy_fits (capacity : Nat) (m : lora_module_t) (io : serial1_t)
    (command : Option (List Nat)) (timeout : Nat) : Bool :=
  match command with
  | none => true
  | some _ =>
    let m := lora_clear_response_buffer m
    let arriving := if timeout = 0 then [] else io.rx.headD []
    lora_at_read_loop_strcpy_fits capacity arriving m

/-- `lora_init`; `now` is the value of `millis()` stored as the time of the
last heartbeat. The version query copies every line it completes into the
local `char version_buffer[100]` with `strcpy`, while a line of
`response_buffer` has up to 255 bytes: a line that does not fit the array with
its NUL byte is written past its end, which is undefined behaviour, and the
result is then `none`. -/
def lora_init (m : lora_module_t) (io : serial1_t) (now : Nat) :
    Option (lora_result_t × lora_module_t × serial1_t) :=
  let m := { m with
    state := LORA_STATE_INITIALIZING
    initialization_complete := false
    pending_message := { m.pending_message with pending := false }
    command_timeout := LORA_AT_TIMEOUT }
  let m := lora_clear_response_buffer m
  let r := lora_send_at_command m io (some (ascii "AT")) none 2000
  let result := r.1
  let m := r.2.1
  let io := r.2.2.1
  if result ≠ LORA_SUCCESS then
    some (LORA_ERROR_INIT,
      { m with state := LORA_STATE_ERROR, initialization_complete := true }, io)
  else
  if !lora_send_at_command_strcpy_fits 100 m io (some (ascii "AT+VER=?")) 2000 then none else
  let r := lora_send_at_command m io (some (ascii "AT+VER=?")) (some []) 2000
  let m := r.2.1
  let io := r.2.2.1
  let r := lora_send_at_command m io (some (ascii "AT+NWM=1")) none 2000
  let m := r.2.1
  let io := r.2.2.1
  some (LORA_SUCCESS,
    { m with
      state := LORA_STATE_CONNECTED
      initialization_complete := true
      last_heartbeat := now }, io)

/-- `lora_process_pending_messages`; `now` as in `lora_send_message`. -/
def lora_process_pending_messages (m : lora_module_t) (io : serial1_t) (now : Nat) :
    lora_result_t × lora_module_t × serial1_t :=
  if m.pending_message.pending then
    let r := lora_send_message m io m.pending_message.type (some m.pending_message.payload) now
    let result := r.1
    let m := r.2.1
    let io := r.2.2
    if result = LORA_SUCCESS then
      (LORA_SUCCESS,
        { m with pending_message := { m.pending_message with pending := false, retry_count := 0 } },
        io)
    else
      let m := { m with
        pending_message := { m.pending_message with
          retry_count := (m.pending_message.retry_count + 1) % 256 } }
      if m.pending_message.retry_count ≥ LORA_MAX_RETRY_COUNT then
        (LORA_ERROR_SEND,
          { m with
            pending_message := { m.pending_message with pending := false, retry_count := 0 }
            stats := { m.stats with
              messages_failed := (m.stats.messages_failed + 1) % 4294967296 } },
          io)
      else (LORA_SUCCESS, m, io)
  else (LORA_SUCCESS, m, io)

/-- `lora_parse_reset_command`; `none` is the null pointer. -/
def lora_parse_reset_command (data : Option (List Nat)) : Bool :=
  match data with
  | none => false
  | some data =>
    if strstr data (ascii "RESET") || strstr data (ascii "reset") then true
    else if strstr data (ascii "\"cmd\":\"reset\"") ||
        strstr data (ascii "\"command\":\"reset\"") then true
    else if strstr data (ascii "52455345") || strstr data (ascii "52657365") then true
    else false

/-! ## amb82_gpio.h / amb82_gpio.cpp

The output pins are a log of the calls of `digitalWrite` in program order: the
pair `(pin, level)` with `true` for `HIGH`. `pinMode` and `delay` leave no
trace. `millis()` is a `now` argument, a `uint32_t` value. -/

inductive gpio_result_t
  | GPIO_SUCCESS
  | GPIO_ERROR_INIT
  | GPIO_ERROR_INVALID_PIN
  | GPIO_ERROR_INVALID_VALUE
  deriving DecidableEq, Repr

inductive gpio_state_t
  | GPIO_STATE_OFF
  | GPIO_STATE_ON
  | GPIO_STATE_BLINKING
  | GPIO_STATE_PWM
  deriving DecidableEq, Repr

open gpio_result_t gpio_state_t

def PIN_FAN : Nat := 10
def PIN_CROSSHAIR_LASER : Nat := 9
def PIN_RESET_CONTROL : Nat := 7

def LOW : Bool := false
def HIGH : Bool := true

structure fan_control_t where
  enabled : Bool
  state : gpio_state_t
  last_toggle_time : Nat                  -- uint32_t
  cycle_interval : Nat                    -- uint32_t
  current_state : Bool
  total_on_time : Nat                     -- uint32_t
  total_cycles : Nat                      -- uint32_t
  deriving DecidableEq, Repr

/-- The field `motherboard_confidence` is the bit pattern of the `float`. -/
structure laser_control_t where
  enabled : Bool
  state : gpio_state_t
  last_blink_time : Nat                   -- uint32_t
  blink_interval : Nat                    -- uint32_t
  current_state : Bool
  should_blink : Bool
  motherboard_confidence : Nat            -- float
  last_detection_time : Nat               -- uint32_t
  detection_timeout : Nat                 -- uint32_t
  deriving DecidableEq, Repr

structure reset_control_t where
  enabled : Bool
  state : gpio_state_t
  current_state : Bool
  deriving DecidableEq, Repr

structure status_led_control_t where
  enabled : Bool
  state : gpio_state_t
  last_blink_time : Nat                   -- uint32_t
  blink_interval : Nat                    -- uint32_t
  current_state : Bool
  blink_pattern : Nat                     -- uint8_t
  pattern_count : Nat                     -- uint8_t
  pattern_index : Nat                     -- uint8_t
  deriving DecidableEq, Repr

structure gpio_module_t where
  initialized : Bool
  fan : fan_control_t
  crosshair_laser : laser_control_t
  reset_control : reset_control_t
  status_led : status_led_control_t
  deriving DecidableEq, Repr

/-- `digitalWrite`. -/
def digitalWrite (pins : List (Nat × Bool)) (pin : Nat) (level : Bool) : List (Nat × Bool) :=
  pins ++ [(pin, level)]

/-- `gpio_fan_init`. -/
def gpio_fan_init (g : gpio_module_t) (pins : List (Nat × Bool))
    (system_config : system_config_t) (now : Nat) :
    gpio_result_t × gpio_module_t × List (Nat × Bool) :=
  let pins := digitalWrite pins PIN_FAN LOW
  let g := { g with
    fan := { g.fan with
      enabled := system_config.fan_enabled != 0
      state := GPIO_STATE_OFF
      cycle_interval := system_config.fan_cycle_interval
      current_state := false
      last_toggle_time := now
      total_on_time := 0
      total_cycles := 0 } }
  (GPIO_SUCCESS, g, pins)

/-- `gpio_fan_process`. -/
def gpio_fan_process (g : gpio_module_t) (pins : List (Nat × Bool)) (now : Nat) :
    gpio_module_t × List (Nat × Bool) :=
  if !g.fan.enabled then (g, pins) else
  let current_time := now
  let elapsed_time := sub_u32 current_time g.fan.last_toggle_time
  if elapsed_time ≥ g.fan.cycle_interval then
    let g := { g with fan := { g.fan with current_state := !g.fan.current_state } }
    let pins := digitalWrite pins PIN_FAN (if g.fan.current_state then HIGH else LOW)
    let g :=
      if g.fan.current_state then
        { g with fan := { g.fan with
            state := GPIO_STATE_ON
            total_cycles := (g.fan.total_cycles + 1) % 4294967296 } }
      else
        { g with fan := { g.fan with
            state := GPIO_STATE_OFF
            total_on_time := (g.fan.total_on_time + elapsed_time) % 4294967296 } }
    ({ g with fan := { g.fan with last_toggle_time := current_time } }, pins)
  else (g, pins)

/-- `gpio_trigger_system_reset`, for a board on which raising the pin does not
restart the processor before the function is done. -/
def gpio_trigger_system_reset (g : gpio_module_t) (pins : List (Nat × Bool)) :
    gpio_result_t × gpio_module_t × List (Nat × Bool) :=
  let pins := digitalWrite pins PIN_RESET_CONTROL HIGH
  let g := { g with
    reset_control := { g.reset_control with current_state := true, state := GPIO_STATE_ON } }
  let pins := digitalWrite pins PIN_RESET_CONTROL LOW
  let g := { g with
    reset_control := { g.reset_control with current_state := false, state := GPIO_STATE_OFF } }
  (GPIO_SUCCESS, g, pins)

/-! ## Downlink commands (lora_rak3172.cpp)

`lora_execute_reset_command` touches the radio engine, the serial port, the
flash module and the GPIO module, and ends in `NVIC_SystemReset()`, which
restarts the processor: the call does not come back to its caller. -/

/-- The global state the downlink command handler works on. -/
structure firmware_t where
  lora_module : lora_module_t
  Serial1 : serial1_t
  flash : Store
  gpio_module : gpio_module_t
  pins : List (Nat × Bool)

/-- How a call of `lora_process_downlink_command` ends: it returns a result,
or the processor is restarted inside the call. -/
inductive downlink_exit_t
  | returned (result : lora_result_t) (w : firmware_t)
  | system_reset (w : firmware_t)

/-- `lora_execute_reset_command`: the state in which `NVIC_SystemReset()` is
called. `fuel` is the one of `config_save_to_flash`; `now` and `now_sent` are
the values of `millis()` read by `lora_send_alert`. -/
def lora_execute_reset_command (fuel : Nat) (w : firmware_t) (now now_sent : Nat) :
    Option firmware_t :=
  let r := lora_send_alert w.lora_module w.Serial1
    (some (ascii "Reset command received, executing reset")) now now_sent
  match config_save_to_flash fuel w.flash with
  | none => none
  | some (_, flash) =>
    let g := gpio_trigger_system_reset w.gpio_module w.pins
    some { lora_module := r.2.1, Serial1 := r.2.2, flash := flash,
           gpio_module := g.2.1, pins := g.2.2 }

/-- `lora_process_downlink_command`; `none` is the null pointer. -/
def lora_process_downlink_command (fuel : Nat) (w : firmware_t) (command : Option (List Nat))
    (now now_sent : Nat) : Option downlink_exit_t :=
  match command with
  | none => some (downlink_exit_t.returned LORA_ERROR_INIT w)
  | some command =>
    if lora_parse_reset_command (some command) then
      (lora_execute_reset_command fuel w now now_sent).map downlink_exit_t.system_reset
    else some (downlink_exit_t.returned LORA_SUCCESS w)

/-! ## amb82_flash.cpp: clearing and tallying the log -/

/-- `flash_clear_logs`. -/
def flash_clear_logs (s : Store) : flash_result_t × Store :=
  if !s.flash_initialized then (FLASH_ERROR_INIT, s) else
  let log_area_size := MAX_LOG_ENTRIES * sizeof_detection_result_t
  let word_count := (log_area_size + 3) / 4
  let mem := write_words s.mem FLASH_LOG_OFFSET 0 (List.replicate word_count 0)
  (FLASH_SUCCESS,
    { s with
      mem := mem
      current_log_index := 0
      system_config := { s.system_config with total_detections := 0 } })

/-- The loop of `flash_get_log_stats`: `n` iterations remain, `i` is the loop
variable, `temp_result` the local the reads go to, `counts` the values of
`*total_count`, `*led_count` and `*motherboard_count`. -/
def flash_get_log_stats_loop (s : Store) :
    Nat → Nat → detection_result_t → Nat × Nat × Nat → Nat × Nat × Nat
  | 0, _, _, counts => counts
  | n + 1, i, temp_result, (total_count, led_count, motherboard_count) =>
    match flash_read_detection_log s i (some temp_result) with
    | (FLASH_SUCCESS, some temp_result) =>
      if temp_result.valid = 1 then
        let total_count := (total_count + 1) % 4294967296
        if temp_result.object_class = CLASS_LED_ON then
          flash_get_log_stats_loop s n (i + 1) temp_result
            (total_count, (led_count + 1) % 4294967296, motherboard_count)
        else if temp_result.object_class = CLASS_MOTHERBOARD then
          flash_get_log_stats_loop s n (i + 1) temp_result
            (total_count, led_count, (motherboard_count + 1) % 4294967296)
        else
          flash_get_log_stats_loop s n (i + 1) temp_result
            (total_count, led_count, motherboard_count)
      else
        flash_get_log_stats_loop s n (i + 1) temp_result
          (total_count, led_count, motherboard_count)
    | (_, some temp_result) =>
      flash_get_log_stats_loop s n (i + 1) temp_result
        (total_count, led_count, motherboard_count)
    | (_, none) =>
      flash_get_log_stats_loop s n (i + 1) temp_result
        (total_count, led_count, motherboard_count)

/-- `flash_get_log_stats`; each argument is the object the pointer points to
before the call (`none` for a null pointer), the three pointers being
distinct, and the value carries these objects after the call. -/
def flash_get_log_stats (s : Store) (total_count led_count motherboard_count : Option Nat) :
    flash_result_t × Option Nat × Option Nat × Option Nat :=
  if !s.flash_initialized || total_count.isNone || led_count.isNone ||
      motherboard_count.isNone then
    (FLASH_ERROR_READ, total_count, led_count, motherboard_count)
  else
    let log_count := flash_get_log_count s
    let counts := flash_get_log_stats_loop s log_count 0 ⟨0, 0, 0, 0, 0, 0, 0, 0, 0, 0⟩ (0, 0, 0)
    (FLASH_SUCCESS, some counts.1, some counts.2.1, some counts.2.2)

/-! ## amb82_gpio.cpp: fan statistics, laser and status LED

`PIN_STATUS_LED` is `LED_BUILTIN`, which the board package defines: the
functions that write to it take the pin number as their first argument. -/

def LASER_DEFAULT_DETECTION_TIMEOUT : Nat := 2 * 1000
def STATUS_LED_DEFAULT_INTERVAL : Nat := 1000

def LED_PATTERN_OFF : Nat := 0
def LED_PATTERN_SLOW_BLINK : Nat := 1
def LED_PATTERN_FAST_BLINK : Nat := 2
def LED_PATTERN_DOUBLE_BLINK : Nat := 3
def LED_PATTERN_TRIPLE_BLINK : Nat := 4
def LED_PATTERN_SOLID_ON : Nat := 5

/-- Whether a binary32 bit pattern is a NaN. -/
def float_is_nan (x : Nat) : Bool :=
  x / 8388608 % 256 == 255 && x % 8388608 != 0

/-- The position of a binary32 value that is not a NaN on the number line:
sign and magnitude, both zeros at 0. -/
def float_rank (x : Nat) : Int :=
  if x / 2147483648 % 2 = 1 then -((x % 2147483648 : Nat) : Int)
  else ((x % 2147483648 : Nat) : Int)

/-- The comparison `a >= b` of two `float`s given by their bit patterns. -/
def float_ge (a b : Nat) : Bool :=
  !float_is_nan a && !float_is_nan b && decide (float_rank b ≤ float_rank a)

/-- `gpio_fan_get_on_time`. -/
def gpio_fan_get_on_time (g : gpio_module_t) (now : Nat) : Nat :=
  let total_time := g.fan.total_on_time
  if g.fan.current_state then
    (total_time + sub_u32 now g.fan.last_toggle_time) % 4294967296
  else total_time

/-- `gpio_laser_process`. -/
def gpio_laser_process (g : gpio_module_t) (pins : List (Nat × Bool)) (now : Nat) :
    gpio_module_t × List (Nat × Bool) :=
  if !g.crosshair_laser.enabled then (g, pins) else
  let current_time := now
  let g :=
    if g.crosshair_laser.last_detection_time > 0 then
      let time_since_detection := sub_u32 current_time g.crosshair_laser.last_detection_time
      if time_since_detection > g.crosshair_laser.detection_timeout then
        { g with crosshair_laser := { g.crosshair_laser with should_blink := true } }
      else
        { g with crosshair_laser := { g.crosshair_laser with should_blink := false } }
    else
      { g with crosshair_laser := { g.crosshair_laser with should_blink := true } }
  if g.crosshair_laser.should_blink then
    let elapsed_blink_time := sub_u32 current_time g.crosshair_laser.last_blink_time
    if elapsed_blink_time ≥ g.crosshair_laser.blink_interval then
      let g := { g with crosshair_laser := { g.crosshair_laser with
        current_state := !g.crosshair_laser.current_state } }
      let pins := digitalWrite pins PIN_CROSSHAIR_LASER
        (if g.crosshair_laser.current_state then HIGH else LOW)
      ({ g with crosshair_laser := { g.crosshair_laser with
          state := if g.crosshair_laser.current_state then GPIO_STATE_BLINKING
                   else GPIO_STATE_BLINKING
          last_blink_time := current_time } }, pins)
    else (g, pins)
  else
    if g.crosshair_laser.current_state then
      let pins := digitalWrite pins PIN_CROSSHAIR_LASER LOW
      ({ g with crosshair_laser := { g.crosshair_laser with
          current_state := false, state := GPIO_STATE_OFF } }, pins)
    else (g, pins)

/-- `gpio_laser_update_detection`; the argument is the bit pattern of the
`float`. -/
def gpio_laser_update_detection (g : gpio_module_t) (system_config : system_config_t)
    (motherboard_confidence : Nat) (now : Nat) : gpio_module_t :=
  let g := { g with crosshair_laser := { g.crosshair_laser with
    motherboard_confidence := motherboard_confidence } }
  if float_ge motherboard_confidence system_config.motherboard_threshold then
    { g with crosshair_laser := { g.crosshair_laser with last_detection_time := now } }
  else g

/-- `gpio_status_led_process`. -/
def gpio_status_led_process (LED_BUILTIN : Nat) (g : gpio_module_t) (pins : List (Nat × Bool))
    (now : Nat) : gpio_module_t × List (Nat × Bool) :=
  if !g.status_led.enabled then (g, pins) else
  let current_time := now
  let elapsed_time := sub_u32 current_time g.status_led.last_blink_time
  if g.status_led.blink_pattern = LED_PATTERN_OFF then
    let pins := digitalWrite pins LED_BUILTIN LOW
    ({ g with status_led := { g.status_led with current_state := false } }, pins)
  else if g.status_led.blink_pattern = LED_PATTERN_SOLID_ON then
    let pins := digitalWrite pins LED_BUILTIN HIGH
    ({ g with status_led := { g.status_led with current_state := true } }, pins)
  else if g.status_led.blink_pattern = LED_PATTERN_SLOW_BLINK then
    if elapsed_time ≥ g.status_led.blink_interval then
      let g := { g with status_led := { g.status_led with
        current_state := !g.status_led.current_state } }
      let pins := digitalWrite pins LED_BUILTIN (if g.status_led.current_state then HIGH else LOW)
      ({ g with status_led := { g.status_led with last_blink_time := current_time } }, pins)
    else (g, pins)
  else if g.status_led.blink_pattern = LED_PATTERN_FAST_BLINK then
    if elapsed_time ≥ g.status_led.blink_interval / 4 then
      let g := { g with status_led := { g.status_led with
        current_state := !g.status_led.current_state } }
      let pins := digitalWrite pins LED_BUILTIN (if g.status_led.current_state then HIGH else LOW)
      ({ g with status_led := { g.status_led with last_blink_time := current_time } }, pins)
    else (g, pins)
  else if g.status_led.blink_pattern = LED_PATTERN_DOUBLE_BLINK ∨
      g.status_led.blink_pattern = LED_PATTERN_TRIPLE_BLINK then
    if elapsed_time ≥ g.status_led.blink_interval / 8 then
      let max_blinks := if g.status_led.blink_pattern = LED_PATTERN_DOUBLE_BLINK then 4 else 6
      if g.status_led.pattern_index < max_blinks then
        let g := { g with status_led := { g.status_led with
          current_state := !g.status_led.current_state } }
        let pins := digitalWrite pins LED_BUILTIN
          (if g.status_led.current_state then HIGH else LOW)
        ({ g with status_led := { g.status_led with
            pattern_index := (g.status_led.pattern_index + 1) % 256 } }, pins)
      else
        if elapsed_time ≥ g.status_led.blink_interval then
          ({ g with status_led := { g.status_led with
              pattern_index := 0, last_blink_time := current_time } }, pins)
        else (g, pins)
    else (g, pins)
  else (g, pins)

/-- `gpio_status_led_set_pattern`; `pattern` is a `uint8_t`. -/
def gpio_status_led_set_pattern (g : gpio_module_t) (pattern : Nat) (now : Nat) :
    gpio_result_t × gpio_module_t :=
  if pattern > LED_PATTERN_SOLID_ON then (GPIO_ERROR_INVALID_VALUE, g) else
  (GPIO_SUCCESS,
    { g with status_led := { g.status_led with
        blink_pattern := pattern, pattern_index := 0, last_blink_time := now } })

/-! ## serial_commands.h / serial_commands.cpp: the integer setters

What a handler prints on the console is left out. -/

inductive command_result_t
  | CMD_SUCCESS
  | CMD_ERROR_UNKNOWN_COMMAND
  | CMD_ERROR_INVALID_PARAMETER
  | CMD_ERROR_INVALID_VALUE
  | CMD_ERROR_MISSING_PARAMETER
  | CMD_ERROR_SYSTEM_ERROR
  deriving DecidableEq, Repr

open command_result_t

/-- `isdigit` in the C locale. -/
def isdigit (c : Nat) : Bool := decide (48 ≤ c) && decide (c ≤ 57)

/-- The loop of `is_numeric_value` over the characters before the NUL. -/
def is_numeric_value_loop : List Nat → Bool → Bool
  | [], _ => true
  | c :: cs, has_decimal =>
    if c = 46 ∧ has_decimal = false then is_numeric_value_loop cs true
    else if !isdigit c then false
    else is_numeric_value_loop cs has_decimal

/-- `is_numeric_value`; `none` is the null pointer. -/
def is_numeric_value (value : Option (List Nat)) : Bool :=
  match value with
  | none => false
  | some value =>
    if strlen value = 0 then false
    else is_numeric_value_loop (c_str value) false

/-- The value of the leading decimal digits of a text, continuing from `acc`. -/
def atoi_digits : List Nat → Nat → Nat
  | [], acc => acc
  | c :: cs, acc => if isdigit c then atoi_digits cs (acc * 10 + (c - 48)) else acc

/-- `atoi` of the C library, an `int` of 32 bits: white space is skipped, a
sign is read, then the leading digits; a value that does not fit is clamped,
as `strtol` does. -/
def atoi (s : List Nat) : Int :=
  match (c_str s).dropWhile isspace with
  | 45 :: rest =>
    if atoi_digits rest 0 > 2147483648 then -2147483648 else -((atoi_digits rest 0 : Nat) : Int)
  | 43 :: rest =>
    if atoi_digits rest 0 > 2147483647 then 2147483647 else ((atoi_digits rest 0 : Nat) : Int)
  | text =>
    if atoi_digits text 0 > 2147483647 then 2147483647 else ((atoi_digits text 0 : Nat) : Int)

/-- `parse_int_value`. -/
def parse_int_value (value : Option (List Nat)) : Int :=
  match value with
  | none => 0
  | some value => atoi value

/-- The conversion of an `int` to `uint32_t`. -/
def int_to_u32 (x : Int) : Nat := (x % 4294967296).toNat

/-- `lora_set_send_interval` (lora_rak3172.cpp). -/
def lora_set_send_interval (system_config : system_config_t) (interval_ms : Nat) :
    system_config_t :=
  { system_config with lora_send_interval := interval_ms }

/-- `set_motherboard_count_threshold`. -/
def set_motherboard_count_threshold (mc : motherboard_counter_t)
    (system_config : system_config_t) (value : Option (List Nat)) :
    command_result_t × motherboard_counter_t × system_config_t :=
  if !is_numeric_value value then (CMD_ERROR_INVALID_VALUE, mc, system_config) else
  let threshold := parse_int_value value
  if threshold < 1 ∨ threshold > 1000 then (CMD_ERROR_INVALID_VALUE, mc, system_config) else
  let r := motherboard_counter_set_threshold mc system_config (int_to_u32 threshold)
  if r.1 then (CMD_SUCCESS, r.2.1, r.2.2) else (CMD_ERROR_SYSTEM_ERROR, r.2.1, r.2.2)

/-- `set_motherboard_count_window`. -/
def set_motherboard_count_window (mc : motherboard_counter_t)
    (system_config : system_config_t) (value : Option (List Nat)) :
    command_result_t × motherboard_counter_t × system_config_t :=
  if !is_numeric_value value then (CMD_ERROR_INVALID_VALUE, mc, system_config) else
  let window_seconds := parse_int_value value
  if window_seconds < 1 ∨ window_seconds > 300 then
    (CMD_ERROR_INVALID_VALUE, mc, system_config) else
  let r := motherboard_counter_set_window mc system_config (int_to_u32 window_seconds)
  if r.1 then (CMD_SUCCESS, r.2.1, r.2.2) else (CMD_ERROR_SYSTEM_ERROR, r.2.1, r.2.2)

/-- `set_lora_interval`. -/
def set_lora_interval (system_config : system_config_t) (value : Option (List Nat)) :
    command_result_t × system_config_t :=
  if !is_numeric_value value then (CMD_ERROR_INVALID_VALUE, system_config) else
  let interval_seconds := parse_int_value value
  if interval_seconds < 5 ∨ interval_seconds > 3600 then
    (CMD_ERROR_INVALID_VALUE, system_config) else
  (CMD_SUCCESS, lora_set_send_interval system_config (int_to_u32 (interval_seconds * 1000)))

/-- `set_fan_cycle_interval`. -/
def set_fan_cycle_interval (system_config : system_config_t) (value : Option (List Nat)) :
    command_result_t × system_config_t :=
  if !is_numeric_value value then (CMD_ERROR_INVALID_VALUE, system_config) else
  let interval_seconds := parse_int_value value
  if interval_seconds < 1 ∨ interval_seconds > 3600 then
    (CMD_ERROR_INVALID_VALUE, system_config) else
  (CMD_SUCCESS,
    { system_config with fan_cycle_interval := int_to_u32 (interval_seconds * 1000) })

/-- `set_laser_blink_interval`. -/
def set_laser_blink_interval (system_config : system_config_t) (value : Option (List Nat)) :
    command_result_t × system_config_t :=
  if !is_numeric_value value then (CMD_ERROR_INVALID_VALUE, system_config) else
  let interval_ms := parse_int_value value
  if interval_ms < 100 ∨ interval_ms > 5000 then (CMD_ERROR_INVALID_VALUE, system_config) else
  (CMD_SUCCESS, { system_config with laser_blink_interval := int_to_u32 interval_ms })

/-- `set_debug_level`; the field is a `uint8_t`. -/
def set_debug_level (system_config : system_config_t) (value : Option (List Nat)) :
    command_result_t × system_config_t :=
  if !is_numeric_value value then (CMD_ERROR_INVALID_VALUE, system_config) else
  let level := parse_int_value value
  if level < 0 ∨ level > 5 then (CMD_ERROR_INVALID_VALUE, system_config) else
  (CMD_SUCCESS, { system_config with debug_level := (level % 256).toNat })

/-! ## The remaining senders and setters

`millis()` is read several times inside one sender; `now` is the value the
text is formatted with, `now_sent` the one `lora_send_message` reads after the
transaction. -/

/-- The value of an enumerator of `lora_state_t`, as `%d` prints it. -/
def lora_state_to_int : lora_state_t → Nat
  | LORA_STATE_DISCONNECTED => 0
  | LORA_STATE_INITIALIZING => 1
  | LORA_STATE_CONNECTED => 2
  | LORA_STATE_SENDING => 3
  | LORA_STATE_ERROR => 4

/-- `lora_format_status_message`; `buffer` is the caller's array (`none` for
`NULL`). -/
def lora_format_status_message (system_config : system_config_t)
    (buffer : Option (List Nat)) (buffer_size : Nat) (now : Nat) :
    lora_result_t × Option (List Nat) :=
  match buffer with
  | none => (LORA_ERROR_INIT, none)
  | some _ =>
    let total_detections := system_config.total_detections
    (LORA_SUCCESS,
      some (snprintf buffer_size
        (ascii "S," ++ format_lu (now / 1000) ++ ascii "," ++ format_lu total_detections)))

/-- `lora_format_heartbeat_message`. -/
def lora_format_heartbeat_message (m : lora_module_t) (buffer : Option (List Nat))
    (buffer_size : Nat) (now : Nat) : lora_result_t × Option (List Nat) :=
  match buffer with
  | none => (LORA_ERROR_INIT, none)
  | some _ =>
    (LORA_SUCCESS,
      some (snprintf buffer_size
        (ascii "H," ++ format_lu (now / 1000) ++ ascii "," ++
          format_lu (lora_state_to_int m.state))))

/-- `lora_send_status_update`. -/
def lora_send_status_update (m : lora_module_t) (io : serial1_t)
    (system_config : system_config_t) (now now_sent : Nat) :
    lora_result_t × lora_module_t × serial1_t :=
  let r := lora_format_status_message system_config (some []) LORA_MAX_PAYLOAD_SIZE now
  if r.1 ≠ LORA_SUCCESS then (r.1, m, io)
  else lora_send_message m io LORA_MSG_STATUS r.2 now_sent

/-- `lora_send_heartbeat`; `now_beat` is the value of `millis()` stored as the
time of the heartbeat. -/
def lora_send_heartbeat (m : lora_module_t) (io : serial1_t) (now now_beat now_sent : Nat) :
    lora_result_t × lora_module_t × serial1_t :=
  let r := lora_format_heartbeat_message m (some []) LORA_MAX_PAYLOAD_SIZE now
  if r.1 ≠ LORA_SUCCESS then (r.1, m, io)
  else
    let m := { m with last_heartbeat := now_beat }
    lora_send_message m io LORA_MSG_HEARTBEAT r.2 now_sent

/-- `send_motherboard_trigger_lora` (motherboard_counter.cpp); the first
component is the local `result`, `none` when the function returns before the
send. -/
def send_motherboard_trigger_lora (mc : motherboard_counter_t) (m : lora_module_t)
    (io : serial1_t) (now now_sent : Nat) :
    Option lora_result_t × lora_module_t × serial1_t :=
  if !lora_is_initialized m then (none, m, io) else
  let current_count := motherboard_counter_get_count_in_window mc now
  let message_buffer := snprintf 200
    (ascii "MT," ++ format_lu current_count ++ ascii "," ++ format_lu mc.count_threshold ++
      ascii "," ++ format_lu (mc.time_window_ms / 1000) ++ ascii "," ++ format_lu (now / 1000))
  let r := lora_send_message m io LORA_MSG_MOTHERBOARD_TRIGGER (some message_buffer) now_sent
  (some r.1, r.2.1, r.2.2)

/-- `gpio_fan_set_cycle_interval` (amb82_gpio.cpp). -/
def gpio_fan_set_cycle_interval (g : gpio_module_t) (system_config : system_config_t)
    (interval_ms : Nat) : gpio_result_t × gpio_module_t × system_config_t :=
  (GPIO_SUCCESS,
    { g with fan := { g.fan with cycle_interval := interval_ms } },
    { system_config with fan_cycle_interval := interval_ms })

/-- `gpio_laser_set_blink_interval` (amb82_gpio.cpp). -/
def gpio_laser_set_blink_interval (g : gpio_module_t) (system_config : system_config_t)
    (interval_ms : Nat) : gpio_result_t × gpio_module_t × system_config_t :=
  (GPIO_SUCCESS,
    { g with crosshair_laser := { g.crosshair_laser with blink_interval := interval_ms } },
    { system_config with laser_blink_interval := interval_ms })

/-- `gpio_laser_init` (amb82_gpio.cpp). -/
def gpio_laser_init (g : gpio_module_t) (pins : List (Nat × Bool))
    (system_config : system_config_t) (now : Nat) :
    gpio_result_t × gpio_module_t × List (Nat × Bool) :=
  let pins := digitalWrite pins PIN_CROSSHAIR_LASER LOW
  let g := { g with
    crosshair_laser := { g.crosshair_laser with
      enabled := system_config.crosshair_enabled != 0
      state := GPIO_STATE_OFF
      blink_interval := system_config.laser_blink_interval
      current_state := false
      should_blink := false
      motherboard_confidence := 0
      last_detection_time := 0
      detection_timeout := LASER_DEFAULT_DETECTION_TIMEOUT
      last_blink_time := now } }
  (GPIO_SUCCESS, g, pins)

/-! ## Definitions used to state the properties -/

/-- The record with its checksum field recomputed, as `config_save_to_flash`
sets it before writing. -/
def with_checksum (c : system_config_t) : system_config_t :=
  { c with checksum := config_calculate_checksum c }

/-- The store in which record `c` has been written: `c` is `system_config`
and its 20 words are in the configuration region of the flash. -/
def store_with_config (s : Store) (c : system_config_t) : Store :=
  { s with
    system_config := c
    mem := write_words s.mem FLASH_CONFIG_OFFSET 0 (system_config_words c) }

/-- The record held in the configuration region of the flash. -/
def stored_config (s : Store) : system_config_t :=
  system_config_of_words (read_words s.mem FLASH_CONFIG_OFFSET 20)

/-- An initialized store over an erased (all-zero) flash holding the default
configuration in memory. -/
def example_store : Store :=
  { mem := fun _ => 0
    flash_initialized := true
    current_log_index := 0
    system_config := DEFAULT_CONFIG }

/-- The 80 bytes of the configuration region of the flash. -/
def config_region_bytes (mem : Nat → Nat) : List Nat :=
  words_bytes (read_words mem FLASH_CONFIG_OFFSET 20)

/-- The store `example_store` after a save of its (default) configuration. -/
def example_saved_store : Store :=
  store_with_config example_store (with_checksum DEFAULT_CONFIG)

/-- An initialized store whose in-memory configuration carries version 3. -/
def example_store_version_3 : Store :=
  { example_store with
    system_config := { DEFAULT_CONFIG with config_version := 3, debug_level := 4 } }

/-- The record held in slot `i` of the log region of the flash. -/
def log_slot (mem : Nat → Nat) (i : Nat) : detection_result_t :=
  detection_result_of_words
    (read_words mem (FLASH_LOG_OFFSET + i * sizeof_detection_result_t) 8)

/-- The number of leading log slots whose valid flag is 1: the slots
`0, 1, …` up to the first whose flag is not 1, at most `MAX_LOG_ENTRIES`. -/
def leading_valid_slots (mem : Nat → Nat) : Nat :=
  ((List.range MAX_LOG_ENTRIES).takeWhile (fun i => (log_slot mem i).valid == 1)).length

/-- A detection record of class motherboard with timestamp `t`, confidence
0.5 and the valid flag set. -/
def example_detection (t : Nat) : detection_result_t :=
  { timestamp := t, object_class := CLASS_MOTHERBOARD, pad0 := 0, confidence := 0x3F000000,
    x_min := 0, y_min := 0, x_max := 0, y_max := 0, valid := 1, pad1 := 0 }

/-- A store before `flash_init` whose flash already holds one valid log entry
in slot 0 (written before the last reboot). -/
def example_store_after_reboot : Store :=
  { mem := write_words (fun _ => 0) FLASH_LOG_OFFSET 0
             (detection_result_words (example_detection 5000))
    flash_initialized := false
    current_log_index := 0
    system_config := DEFAULT_CONFIG }

/-- Successive calls `flash_write_detection_log(&r)` for the records of a
list, in order: the results of the calls and the store after the last. -/
def flash_write_detection_logs (s : Store) :
    List detection_result_t → List flash_result_t × Store
  | [] => ([], s)
  | r :: rs =>
    let (res, s1) := flash_write_detection_log s (some r)
    let (ress, s2) := flash_write_detection_logs s1 rs
    (res :: ress, s2)

/-- A run of `MAX_LOG_ENTRIES + 1` detection records with timestamps 1000,
1001, …. -/
def example_log_records : List detection_result_t :=
  (List.range (MAX_LOG_ENTRIES + 1)).map (fun i => example_detection (1000 + i))

/-- The timestamps the window count looks at: slots `0 … buffer_count - 1` of
the ring. -/
def stored_timestamps (mc : motherboard_counter_t) : List Nat :=
  (List.range mc.buffer_count).map (fun i => mc.detection_timestamps.getD i 0)

/-- The window count as a count over the integers: the number of stored
timestamps `t` with `now - time_window_ms ≤ t ≤ now`. -/
def window_count_spec (mc : motherboard_counter_t) (now : Nat) : Nat :=
  List.countP
    (fun t : Nat =>
      decide ((now : Int) - (mc.time_window_ms : Int) ≤ (t : Int)) && decide (t ≤ now))
    (stored_timestamps mc)

/-- The counter after `motherboard_counter_init` with the default
configuration: enabled, threshold 50, window 10 000 ms, empty ring. -/
def example_counter : motherboard_counter_t :=
  motherboard_counter_init DEFAULT_CONFIG

/-- One detection at time `t` followed by a trigger check at the same tick,
as the main loop runs them: the result of the check and the state after. -/
def inject_and_check (st : motherboard_counter_t × system_config_t) (t : Nat) :
    Bool × (motherboard_counter_t × system_config_t) :=
  let mc := motherboard_counter_add_detection st.1 t
  let r := motherboard_counter_check_trigger mc st.2 t
  (r.1, (r.2.1, r.2.2))

/-- The steps `inject_and_check` for a list of detection times, in order:
the results of the checks and the state after the last. -/
def inject_and_check_all (st : motherboard_counter_t × system_config_t) :
    List Nat → List Bool × (motherboard_counter_t × system_config_t)
  | [] => ([], st)
  | t :: ts =>
    let r := inject_and_check st t
    let rs := inject_and_check_all r.2 ts
    (r.1 :: rs.1, rs.2)

/-- The default counter after one detection at time 1000. -/
def example_counter_one_detection : motherboard_counter_t :=
  motherboard_counter_add_detection example_counter 1000

/-- A counter initialised with threshold 1 after one detection at time
30 000; its `last_lora_trigger_time` is 0. -/
def example_counter_threshold_1 : motherboard_counter_t :=
  motherboard_counter_add_detection
    (motherboard_counter_init { DEFAULT_CONFIG with motherboard_count_threshold := 1 }) 30000

/-- A counter initialised from a configuration that disables it. -/
def example_counter_disabled : motherboard_counter_t :=
  motherboard_counter_init { DEFAULT_CONFIG with motherboard_count_enabled := 0 }

/-- Thirty detection times 5000, 5100, …, 7800 and 15 000: strictly
increasing and spanning exactly 10 000 ms. -/
def example_window_times : List Nat :=
  (List.range 29).map (fun i => 5000 + 100 * i) ++ [15000]

/-- A counter initialised with threshold 25 and the default 10 s window. -/
def example_counter_25 : motherboard_counter_t :=
  motherboard_counter_init { DEFAULT_CONFIG with motherboard_count_threshold := 25 }

/-- Thirty detections one millisecond apart, the first at time 10 000. -/
def example_burst_early : List Nat := (List.range 30).map (fun i => 10000 + i)

/-- Thirty detections 100 ms apart, the first at time 40 000. -/
def example_burst : List Nat := (List.range 30).map (fun i => 40000 + 100 * i)

/-- Five more detections within 1 s after the last one of `example_burst`. -/
def example_burst_next : List Nat := (List.range 5).map (fun i => 43000 + 100 * i)

/-- Twenty-five detections one millisecond apart, the first at time 80 000. -/
def example_burst_later : List Nat := (List.range 25).map (fun i => 80000 + i)

/-- One hundred and five detection times 1000, 1001, …, 1104. -/
def example_long_history : List Nat := (List.range 105).map (fun i => 1000 + i)

/-- The value of the hexadecimal digit character `c` (`0`–`9`, `A`–`F`). -/
def hex_value (c : Nat) : Nat := if c < 58 then c - 48 else c - 55

/-- Decoding a string of hexadecimal digits pairwise into bytes. -/
def hex_decode : List Nat → List Nat
  | hi :: lo :: rest => (hex_value hi * 16 + hex_value lo) :: hex_decode rest
  | _ => []

/-- A C string of bytes: no NUL and every element below 256. -/
def is_byte_string (s : List Nat) : Prop := ∀ b ∈ s, b ≠ 0 ∧ b < 256

instance (s : List Nat) : Decidable (is_byte_string s) := by
  unfold is_byte_string; infer_instance

/-- A LoRa engine after a successful `lora_init`: initialized, connected, no
pending message, all statistics zero. -/
def example_lora_module : lora_module_t :=
  { state := LORA_STATE_CONNECTED
    last_send_time := 0
    last_heartbeat := 0
    pending_message :=
      { type := LORA_MSG_STATUS, timestamp := 0, payload_length := 0, payload := [],
        retry_count := 0, pending := false }
    stats :=
      { messages_sent := 0, messages_failed := 0, messages_received := 0,
        last_send_timestamp := 0, last_receive_timestamp := 0, total_send_attempts := 0,
        connection_failures := 0 }
    initialization_complete := true
    response_buffer := []
    response_index := 0
    command_timeout := LORA_AT_TIMEOUT }

/-- A serial channel on which nothing was written yet and the modem answers
`OK` to each of the next three commands. -/
def example_serial1 : serial1_t :=
  { tx := [], rx := [ascii "OK\r\n", ascii "OK\r\n", ascii "OK\r\n"] }

/-- Two engine states that agree on everything but the response buffer. -/
def same_but_response_buffer (m m' : lora_module_t) : Prop :=
  m'.state = m.state ∧ m'.last_send_time = m.last_send_time ∧
  m'.last_heartbeat = m.last_heartbeat ∧ m'.pending_message = m.pending_message ∧
  m'.stats = m.stats ∧ m'.initialization_complete = m.initialization_complete ∧
  m'.command_timeout = m.command_timeout

/-- The content of the response buffer after the bytes `raw` of one line (no
line feed among them) were read into the cleared buffer: carriage returns are
dropped and at most 255 bytes are kept. -/
def buffered_line (raw : List Nat) : List Nat :=
  (raw.filter (fun c => c != 13)).take 255

/-- The text `lora_send_at_command` classifies for the line `raw`: the
buffered bytes up to the first NUL, with surrounding white space trimmed. -/
def response_text (raw : List Nat) : List Nat :=
  string_trim (c_str (buffered_line raw))

/-- An initialised engine whose pending slot holds the detection message
`D,M,87`, not yet retried. -/
def example_pending_module : lora_module_t :=
  { example_lora_module with
    pending_message :=
      { type := LORA_MSG_DETECTION, timestamp := 5000, payload_length := 6,
        payload := ascii "D,M,87", retry_count := 0, pending := true } }

/-- A serial channel on which the modem answers nothing at all: every
transaction times out. -/
def silent_serial1 : serial1_t := { tx := [], rx := [] }

/-- The GPIO module as the program starts with it: every field zero. -/
def example_gpio_module : gpio_module_t :=
  { initialized := false
    fan := { enabled := false, state := GPIO_STATE_OFF, last_toggle_time := 0,
             cycle_interval := 0, current_state := false, total_on_time := 0,
             total_cycles := 0 }
    crosshair_laser := { enabled := false, state := GPIO_STATE_OFF, last_blink_time := 0,
                         blink_interval := 0, current_state := false, should_blink := false,
                         motherboard_confidence := 0, last_detection_time := 0,
                         detection_timeout := 0 }
    reset_control := { enabled := false, state := GPIO_STATE_OFF, current_state := false }
    status_led := { enabled := false, state := GPIO_STATE_OFF, last_blink_time := 0,
                    blink_interval := 0, current_state := false, blink_pattern := 0,
                    pattern_count := 0, pattern_index := 0 } }

/-- A running device: radio connected, modem answering `OK`, flash
initialised, nothing written to a pin yet. -/
def example_firmware : firmware_t :=
  { lora_module := example_lora_module
    Serial1 := example_serial1
    flash := example_store
    gpio_module := example_gpio_module
    pins := [] }

/-- The result a call returned with, if it returned. -/
def returned_result : Option downlink_exit_t → Option lora_result_t
  | some (downlink_exit_t.returned r _) => some r
  | _ => none

/-- Whether a call ended in a restart of the processor. -/
def ended_in_reset : Option downlink_exit_t → Bool
  | some (downlink_exit_t.system_reset _) => true
  | _ => false

/-- The state of the device at the restart, if the call ended in one. -/
def state_at_reset : Option downlink_exit_t → Option firmware_t
  | some (downlink_exit_t.system_reset w) => some w
  | _ => none

/-- The fan processed once at every millisecond `t0 + 1`, …, `t0 + k`, in this
order; the clock `millis()` is a `uint32_t` and wraps. -/
def gpio_fan_process_each_ms (t0 : Nat) :
    Nat → gpio_module_t × List (Nat × Bool) → gpio_module_t × List (Nat × Bool)
  | 0, st => st
  | k + 1, st =>
    gpio_fan_process (gpio_fan_process_each_ms t0 k st).1 (gpio_fan_process_each_ms t0 k st).2
      ((t0 + (k + 1)) % 4294967296)

/-- The state expected `k` milliseconds after the fan was initialised in
state `g0` with pin log `p0` at time `t0`, for `k < 3 * C`. -/
def fan_expected (g0 : gpio_module_t) (p0 : List (Nat × Bool)) (t0 C k : Nat) :
    gpio_module_t × List (Nat × Bool) :=
  if k < C then (g0, p0)
  else if k < 2 * C then
    ({ g0 with fan := { g0.fan with
        current_state := true, state := GPIO_STATE_ON, total_cycles := 1,
        last_toggle_time := (t0 + C) % 4294967296 } },
      p0 ++ [(PIN_FAN, HIGH)])
  else
    ({ g0 with fan := { g0.fan with
        current_state := false, state := GPIO_STATE_OFF, total_cycles := 1,
        total_on_time := C, last_toggle_time := (t0 + 2 * C) % 4294967296 } },
      p0 ++ [(PIN_FAN, HIGH), (PIN_FAN, LOW)])

/-- The checksum in the words of the specification: starting from 0, each byte
`b` takes the running value `c` to `s xor (2 s mod 2^32)` with
`s = (c + b) mod 2^32`. -/
def checksum_spec (bytes : List Nat) : Nat :=
  bytes.foldl
    (fun c b => let s := (c + b) % 4294967296; s ^^^ ((s * 2) % 4294967296)) 0

/-- A detection record of class LED with timestamp `t` and the valid flag set. -/
def example_detection_led (t : Nat) : detection_result_t :=
  { timestamp := t, object_class := CLASS_LED_ON, pad0 := 0, confidence := 0x3F000000,
    x_min := 0, y_min := 0, x_max := 0, y_max := 0, valid := 1, pad1 := 0 }

/-- An initialized store whose log holds valid entries in slots 0, 1 and 3
and nothing in slot 2. -/
def example_store_gap : Store :=
  { mem :=
      write_words
        (write_words
          (write_words (fun _ => 0) FLASH_LOG_OFFSET 0
            (detection_result_words (example_detection_led 1000)))
          (FLASH_LOG_OFFSET + 1 * sizeof_detection_result_t) 0
          (detection_result_words (example_detection 2000)))
        (FLASH_LOG_OFFSET + 3 * sizeof_detection_result_t) 0
        (detection_result_words (example_detection 3000))
    flash_initialized := true
    current_log_index := 0
    system_config := DEFAULT_CONFIG }

/-- A response text classified as success: it contains `OK`, begins with `+`
or contains `EVT:`. -/
def success_line (text : List Nat) : Bool :=
  contains_bytes text (ascii "OK") || (ascii "+").isPrefixOf text ||
    contains_bytes text (ascii "EVT:")

/-- A response text classified as failure: it contains `ERROR` or `FAIL`. -/
def failure_line (text : List Nat) : Bool :=
  contains_bytes text (ascii "ERROR") || contains_bytes text (ascii "FAIL")

/-- The bytes that arrive when the modem sends the lines `lines`, each ended
by a line feed, and then the unfinished line `rest`. -/
def line_bytes (lines : List (List Nat)) (rest : List Nat) : List Nat :=
  (lines.map (fun l => l ++ [10])).flatten ++ rest

/-- A GPIO module whose laser is enabled and off, blinking every 500 ms, with
a detection timeout of 2 s and no detection recorded, and whose status LED is
enabled and off with an interval of 1 s. -/
def example_gpio_running : gpio_module_t :=
  { example_gpio_module with
    initialized := true
    crosshair_laser :=
      { enabled := true, state := GPIO_STATE_OFF, last_blink_time := 0, blink_interval := 500,
        current_state := false, should_blink := false, motherboard_confidence := 0,
        last_detection_time := 0, detection_timeout := LASER_DEFAULT_DETECTION_TIMEOUT }
    status_led :=
      { enabled := true, state := GPIO_STATE_OFF, last_blink_time := 0,
        blink_interval := STATUS_LED_DEFAULT_INTERVAL, current_state := false,
        blink_pattern := LED_PATTERN_SLOW_BLINK, pattern_count := 0, pattern_index := 0 } }

/-- The level of an output pin: the level of the last `digitalWrite` to it,
low if there was none. -/
def pin_level (pins : List (Nat × Bool)) (pin : Nat) : Bool :=
  match pins.reverse.find? (fun w => w.1 == pin) with
  | some w => w.2
  | none => false

/-- Calls of `gpio_fan_process` at the times of a list, in order: the state
after the last call, and for each call its time and the level of the fan pin
after it. -/
def gpio_fan_process_trace :
    List Nat → gpio_module_t × List (Nat × Bool) →
      (gpio_module_t × List (Nat × Bool)) × List (Nat × Bool)
  | [], st => (st, [])
  | t :: ts, st =>
    ((gpio_fan_process_trace ts (gpio_fan_process st.1 st.2 t)).1,
      (t, pin_level (gpio_fan_process st.1 st.2 t).2 PIN_FAN)
        :: (gpio_fan_process_trace ts (gpio_fan_process st.1 st.2 t)).2)

/-- The total time up to `now` during which a signal was high that has the
level `level` from time `t` on and then takes the sampled levels of the list
at their times. -/
def high_time : Nat → Bool → List (Nat × Bool) → Nat → Nat
  | t, level, [], now => if level then now - t else 0
  | t, level, (t', level') :: rest, now =>
    (if level then t' - t else 0) + high_time t' level' rest now

/-- The status LED processed once at every millisecond `t0 + 1`, …, `t0 + k`,
in this order; the clock is a `uint32_t` and wraps. -/
def gpio_status_led_process_each_ms (LED_BUILTIN t0 : Nat) :
    Nat → gpio_module_t × List (Nat × Bool) → gpio_module_t × List (Nat × Bool)
  | 0, st => st
  | k + 1, st =>
    gpio_status_led_process LED_BUILTIN
      (gpio_status_led_process_each_ms LED_BUILTIN t0 k st).1
      (gpio_status_led_process_each_ms LED_BUILTIN t0 k st).2
      ((t0 + (k + 1)) % 4294967296)

/-- The writes of `n` successive toggles of a pin whose level was `level`. -/
def toggle_writes (pin : Nat) (level : Bool) (n : Nat) : List (Nat × Bool) :=
  (List.range n).map (fun j => (pin, if j % 2 = 0 then !level else level))

/-- The state expected `k` milliseconds into a burst period of length `I`
with `B` toggles that started at time `T` in state `g` with pin log `p`, for
`k ≤ I`: nothing for `k < I / 8`, then one toggle per millisecond until `B`
are done, then nothing until `k = I`, where the index returns to 0 and the
timer restarts. -/
def led_burst_expected (LED_BUILTIN : Nat) (g : gpio_module_t) (p : List (Nat × Bool))
    (T I B k : Nat) : gpio_module_t × List (Nat × Bool) :=
  if k < I / 8 then (g, p)
  else if k < I then
    ({ g with status_led := { g.status_led with
        current_state :=
          if min (k - I / 8 + 1) B % 2 = 0 then g.status_led.current_state
          else !g.status_led.current_state
        pattern_index := min (k - I / 8 + 1) B } },
      p ++ toggle_writes LED_BUILTIN g.status_led.current_state (min (k - I / 8 + 1) B))
  else
    ({ g with status_led := { g.status_led with
        pattern_index := 0, last_blink_time := (T + I) % 4294967296 } },
      p ++ toggle_writes LED_BUILTIN g.status_led.current_state B)

/-- The state at the start of burst period `n` when the pattern `pattern` was
selected at time `t` in state `g` and the interval is `I`: as after
`gpio_status_led_set_pattern`, with the timer at `t + n * I`. -/
def led_period_start (g : gpio_module_t) (pattern t I n : Nat) : gpio_module_t :=
  { g with status_led := { g.status_led with
      blink_pattern := pattern, pattern_index := 0
      last_blink_time := (t + n * I) % 4294967296 } }

/-- The ring-buffer invariant of the counter: the write index and the filled
count stay inside the 100-slot array. -/
def ring_invariant (mc : motherboard_counter_t) : Prop :=
  mc.buffer_index < MOTHERBOARD_DETECTION_BUFFER_SIZE ∧
  mc.buffer_count ≤ MOTHERBOARD_DETECTION_BUFFER_SIZE ∧
  mc.detection_timestamps.length = MOTHERBOARD_DETECTION_BUFFER_SIZE

instance (mc : motherboard_counter_t) : Decidable (ring_invariant mc) := by
  unfold ring_invariant; infer_instance

/-- What happens to the counter: a detection with its timestamp is added, or
the trigger is checked at a time. -/
inductive counter_event
  | detection (timestamp : Nat)
  | check (now : Nat)
  deriving DecidableEq, Repr

/-- The counter run through a list of events, in order: the results of the
checks and the state after the last event. -/
def run_counter_events (st : motherboard_counter_t × system_config_t) :
    List counter_event → List Bool × (motherboard_counter_t × system_config_t)
  | [] => ([], st)
  | counter_event.detection t :: es =>
    run_counter_events (motherboard_counter_add_detection st.1 t, st.2) es
  | counter_event.check now :: es =>
    ((motherboard_counter_check_trigger st.1 st.2 now).1
        :: (run_counter_events ((motherboard_counter_check_trigger st.1 st.2 now).2.1,
              (motherboard_counter_check_trigger st.1 st.2 now).2.2) es).1,
      (run_counter_events ((motherboard_counter_check_trigger st.1 st.2 now).2.1,
        (motherboard_counter_check_trigger st.1 st.2 now).2.2) es).2)

/-- The detections among a list of events. -/
def event_detections : List counter_event → List Nat
  | [] => []
  | counter_event.detection t :: es => t :: event_detections es
  | counter_event.check _ :: es => event_detections es

/-- The status payload of the specification: `S,<uptime/1000>,<total>`. -/
def status_payload (uptime_ms total : Nat) : List Nat :=
  ascii "S," ++ format_lu (uptime_ms / 1000) ++ ascii "," ++ format_lu total

/-- The heartbeat payload of the specification: `H,<uptime/1000>,<state>`. -/
def heartbeat_payload (uptime_ms : Nat) (state : lora_state_t) : List Nat :=
  ascii "H," ++ format_lu (uptime_ms / 1000) ++ ascii "," ++ format_lu (lora_state_to_int state)

/-- The alert payload of the specification:
`A,<uptime/1000>,<first 10 characters of the text>`. -/
def alert_payload (uptime_ms : Nat) (text : List Nat) : List Nat :=
  ascii "A," ++ format_lu (uptime_ms / 1000) ++ ascii "," ++ (c_str text).take 10

/-- A counter configured through the setters with threshold 100 and a window
of 300 s, holding 100 detections made between 99 900 s and 99 901 s of
uptime. -/
def example_trigger_counter : motherboard_counter_t :=
  (List.range 100).foldl
    (fun mc i => motherboard_counter_add_detection mc (99900000 + i))
    (motherboard_counter_set_window
      (motherboard_counter_set_threshold example_counter DEFAULT_CONFIG 100).2.1
      (motherboard_counter_set_threshold example_counter DEFAULT_CONFIG 100).2.2 300).2.1

/-- A serial channel on which the modem answers `OK` to the first command and
a line of 120 letters `A` to the second. -/
def example_serial1_long_version : serial1_t :=
  { tx := [], rx := [ascii "OK\r\n", List.replicate 120 65 ++ ascii "\r\n", ascii "OK\r\n"] }

/-- The spellings of a word of lower-case letters in every mixture of upper
and lower case. -/
def case_mixtures : List Nat → List (List Nat)
  | [] => [[]]
  | c :: cs => (case_mixtures cs).map (fun w => (c - 32) :: w)
      ++ (case_mixtures cs).map (fun w => c :: w)

/-- The 32 spellings of the five letters R, E, S, E, T. -/
def reset_spellings : List (List Nat) := case_mixtures (ascii "reset")

/-! ## Words, bytes and the flash device -/

theorem system_config_of_words_words (c : system_config_t) (h : c.WF) :
    system_config_of_words (system_config_words c) = c := by
  obtain ⟨h0, h1, h2, h3, h4, h5, h6, h7, h8, h9, h10, h11, h12, h13, h14, h15, h16, h17,
    h18, h19, h20, h21, h22, h23, h24, h25, h26, h27, h28⟩ := h
  cases c
  simp only [system_config_of_words, system_config_words, List.getD_cons_zero,
    List.getD_cons_succ, system_config_t.mk.injEq] at *
  refine ⟨?_, ?_, ?_, ?_, ?_, ?_, ?_, ?_, ?_, ?_, ?_, ?_, ?_, ?_, ?_, ?_, ?_, ?_, ?_, ?_,
    ?_, ?_, ?_, ?_, ?_, ?_, ?_, ?_, ?_⟩ <;> first | trivial | omega

theorem system_config_words_length (c : system_config_t) :
    (system_config_words c).length = 20 := rfl

theorem system_config_words_lt (c : system_config_t) (h : c.WF) :
    ∀ w ∈ system_config_words c, w < 4294967296 := by
  obtain ⟨h0, h1, h2, h3, h4, h5, h6, h7, h8, h9, h10, h11, h12, h13, h14, h15, h16, h17,
    h18, h19, h20, h21, h22, h23, h24, h25, h26, h27, h28⟩ := h
  intro w hw
  simp only [system_config_words, List.mem_cons, List.mem_singleton, List.not_mem_nil,
    or_false] at hw
  rcases hw with rfl | rfl | rfl | rfl | rfl | rfl | rfl | rfl | rfl | rfl | rfl | rfl | rfl |
    rfl | rfl | rfl | rfl | rfl | rfl | rfl <;> omega

theorem write_words_apply (base : Nat) (ws : List Nat) :
    ∀ (mem : Nat → Nat) (i a : Nat),
      write_words mem base i ws a =
        if base + i * 4 ≤ a ∧ a < base + (i + ws.length) * 4 ∧ (a - base) % 4 = 0 then
          ws.getD ((a - base) / 4 - i) 0 % 4294967296
        else mem a := by
  induction ws with
  | nil =>
    intro mem i a
    rw [write_words, if_neg]
    simp only [List.length_nil]
    omega
  | cons w ws ih =>
    intro mem i a
    rw [write_words, ih]
    by_cases h1 : base + (i + 1) * 4 ≤ a ∧ a < base + (i + 1 + ws.length) * 4 ∧ (a - base) % 4 = 0
    · have h2 : base + i * 4 ≤ a ∧ a < base + (i + (w :: ws).length) * 4 ∧ (a - base) % 4 = 0 := by
        simp only [List.length_cons]; omega
      rw [if_pos h1, if_pos h2]
      have : (a - base) / 4 - i = ((a - base) / 4 - (i + 1)) + 1 := by omega
      rw [this, List.getD_cons_succ]
    · rw [if_neg h1]
      by_cases h3 : a = base + i * 4
      · have h2 : base + i * 4 ≤ a ∧ a < base + (i + (w :: ws).length) * 4 ∧ (a - base) % 4 = 0 := by
          simp only [List.length_cons]; omega
        rw [if_pos h2]
        have : (a - base) / 4 - i = 0 := by omega
        rw [this]
        simp [writeWord, h3]
      · have h2 : ¬ (base + i * 4 ≤ a ∧ a < base + (i + (w :: ws).length) * 4 ∧ (a - base) % 4 = 0) := by
          simp only [List.length_cons]; omega
        rw [if_neg h2]
        simp [writeWord, h3]

theorem read_words_length (mem : Nat → Nat) (base n : Nat) :
    (read_words mem base n).length = n := by
  simp [read_words]

theorem read_words_lt (mem : Nat → Nat) (base n : Nat) :
    ∀ w ∈ read_words mem base n, w < 4294967296 := by
  intro w hw
  simp only [read_words, List.mem_map] at hw
  obtain ⟨i, _, rfl⟩ := hw
  unfold readWord
  omega

theorem read_words_write_words (mem : Nat → Nat) (base : Nat) (ws : List Nat)
    (h : ∀ w ∈ ws, w < 4294967296) :
    read_words (write_words mem base 0 ws) base ws.length = ws := by
  apply List.ext_getElem
  · simp [read_words]
  · intro j h1 h2
    simp only [read_words, List.getElem_map, List.getElem_range, readWord]
    rw [write_words_apply]
    have hc : base + 0 * 4 ≤ base + j * 4 ∧ base + j * 4 < base + (0 + ws.length) * 4 ∧
        (base + j * 4 - base) % 4 = 0 := by omega
    rw [if_pos hc]
    have hj : (base + j * 4 - base) / 4 - 0 = j := by omega
    rw [hj, List.getD_eq_getElem _ _ h2]
    have := h ws[j] (List.getElem_mem h2)
    omega

/-- Reading a region that a write of words elsewhere did not touch. -/
theorem read_words_write_words_disjoint (mem : Nat → Nat) (base base2 n : Nat)
    (ws : List Nat) (h : base + n * 4 ≤ base2 ∨ base2 + ws.length * 4 ≤ base) :
    read_words (write_words mem base2 0 ws) base n = read_words mem base n := by
  apply List.ext_getElem
  · simp [read_words]
  · intro j h1 h2
    simp only [read_words_length] at h1 h2
    simp only [read_words, List.getElem_map, List.getElem_range, readWord]
    rw [write_words_apply]
    have hc : ¬ (base2 + 0 * 4 ≤ base + j * 4 ∧ base + j * 4 < base2 + (0 + ws.length) * 4 ∧
        (base + j * 4 - base2) % 4 = 0) := by omega
    rw [if_neg hc]

/-! ## The checksum -/

theorem checksum_step_lt (c b : Nat) : checksum_step c b < 4294967296 := by
  unfold checksum_step
  exact Nat.xor_lt_two_pow (n := 32) (Nat.mod_lt _ (by norm_num)) (Nat.mod_lt _ (by norm_num))

theorem checksum_fold_lt (l : List Nat) :
    ∀ c, c < 4294967296 → l.foldl checksum_step c < 4294967296 := by
  induction l with
  | nil => intro c hc; simpa using hc
  | cons b l ih => intro c _; exact ih _ (checksum_step_lt c b)

theorem config_calculate_checksum_lt (c : system_config_t) :
    config_calculate_checksum c < 4294967296 :=
  checksum_fold_lt _ 0 (by norm_num)

theorem system_config_bytes_take (c : system_config_t) :
    (system_config_bytes c).take 76 = words_bytes ((system_config_words c).take 19) := rfl

theorem config_calculate_checksum_eq (c : system_config_t) :
    config_calculate_checksum c
      = (words_bytes ((system_config_words c).take 19)).foldl checksum_step 0 := by
  show ((system_config_bytes c).take 76).foldl checksum_step 0 = _
  rw [system_config_bytes_take]

theorem config_calculate_checksum_set_checksum (c : system_config_t) (x : Nat) :
    config_calculate_checksum { c with checksum := x } = config_calculate_checksum c := by
  rw [config_calculate_checksum_eq, config_calculate_checksum_eq]
  have h : (system_config_words { c with checksum := x }).take 19
      = (system_config_words c).take 19 := rfl
  rw [h]

theorem with_checksum_WF (c : system_config_t) (h : c.WF) : (with_checksum c).WF := by
  obtain ⟨h0, h1, h2, h3, h4, h5, h6, h7, h8, h9, h10, h11, h12, h13, h14, h15, h16, h17,
    h18, h19, h20, h21, h22, h23, h24, h25, h26, h27, _⟩ := h
  exact ⟨h0, h1, h2, h3, h4, h5, h6, h7, h8, h9, h10, h11, h12, h13, h14, h15, h16, h17,
    h18, h19, h20, h21, h22, h23, h24, h25, h26, h27, config_calculate_checksum_lt c⟩

theorem with_checksum_valid (c : system_config_t) :
    (with_checksum c).checksum = config_calculate_checksum (with_checksum c) := by
  exact (config_calculate_checksum_set_checksum c _).symm

/-! ## Save, load and reset to defaults -/

theorem config_load_valid (fuel : Nat) (s : Store) (c : system_config_t)
    (hinit : s.flash_initialized = true)
    (hmem : read_words s.mem FLASH_CONFIG_OFFSET 20 = system_config_words c)
    (hwf : c.WF) (hver : c.config_version = CONFIG_VERSION)
    (hsum : c.checksum = config_calculate_checksum c) :
    config_load_from_flash (fuel + 1) s = some (FLASH_SUCCESS, { s with system_config := c }) := by
  rw [config_load_from_flash]
  have h20 : (sizeof_system_config_t + 3) / 4 = 20 := rfl
  rw [if_neg (by simp [hinit])]
  simp only [h20, hmem, system_config_of_words_words c hwf, hver,
    config_validate_checksum, ← hsum]
  simp

theorem config_save_valid (fuel : Nat) (s : Store)
    (hinit : s.flash_initialized = true) (hwf : s.system_config.WF)
    (hver : s.system_config.config_version = CONFIG_VERSION) :
    config_save_to_flash (fuel + 2) s
      = some (FLASH_SUCCESS, store_with_config s (with_checksum s.system_config)) := by
  unfold store_with_config
  rw [config_save_to_flash]
  have h20 : (sizeof_system_config_t + 3) / 4 = 20 := rfl
  have htake : ∀ c : system_config_t, (system_config_words c).take 20 = system_config_words c :=
    fun _ => rfl
  have hw := with_checksum_WF _ hwf
  have hl := config_load_valid fuel
    { s with
      system_config := with_checksum s.system_config
      mem := write_words s.mem FLASH_CONFIG_OFFSET 0
               (system_config_words (with_checksum s.system_config)) }
    (with_checksum s.system_config) hinit
    (read_words_write_words _ _ _ (system_config_words_lt _ hw)) hw hver
    (with_checksum_valid _)
  rw [if_neg (by simp [hinit])]
  simp only [h20, htake]
  unfold with_checksum at hl ⊢
  rw [hl]
  simp

theorem stored_config_store_with_config (s : Store) (c : system_config_t) (h : c.WF) :
    stored_config (store_with_config s c) = c := by
  unfold stored_config store_with_config
  have := read_words_write_words s.mem FLASH_CONFIG_OFFSET (system_config_words c)
    (system_config_words_lt c h)
  rw [system_config_words_length] at this
  simp only [this, system_config_of_words_words c h]

theorem config_load_stored (fuel : Nat) (s : Store) (c : system_config_t) (h : c.WF)
    (hinit : s.flash_initialized = true) (hver : c.config_version = CONFIG_VERSION)
    (hsum : c.checksum = config_calculate_checksum c) :
    config_load_from_flash (fuel + 1) (store_with_config s c)
      = some (FLASH_SUCCESS, store_with_config s c) := by
  have := config_load_valid fuel (store_with_config s c) c hinit
    (read_words_write_words _ _ _ (system_config_words_lt c h)) h hver hsum
  rw [this]
  rfl

theorem DEFAULT_CONFIG_WF : DEFAULT_CONFIG.WF := by decide

theorem config_reset_valid (fuel : Nat) (s : Store) (hinit : s.flash_initialized = true) :
    config_reset_to_defaults (fuel + 3) s
      = some (FLASH_SUCCESS, store_with_config s (with_checksum DEFAULT_CONFIG)) := by
  rw [config_reset_to_defaults]
  exact config_save_valid fuel { s with system_config := DEFAULT_CONFIG } hinit
    DEFAULT_CONFIG_WF rfl

theorem config_load_invalid (fuel : Nat) (s : Store) (hinit : s.flash_initialized = true)
    (hbad : (stored_config s).config_version ≠ CONFIG_VERSION ∨
      config_validate_checksum (stored_config s) = false) :
    config_load_from_flash (fuel + 4) s
      = some (FLASH_SUCCESS, store_with_config s (with_checksum DEFAULT_CONFIG)) := by
  rw [config_load_from_flash]
  have h20 : (sizeof_system_config_t + 3) / 4 = 20 := rfl
  rw [if_neg (by simp [hinit])]
  simp only [h20]
  unfold stored_config at hbad
  by_cases hv : (system_config_of_words
      (read_words s.mem FLASH_CONFIG_OFFSET 20)).config_version ≠ CONFIG_VERSION
  · rw [if_pos hv]
    exact config_reset_valid fuel s hinit
  · rw [if_neg hv]
    have hc := hbad.resolve_left hv
    rw [if_pos (by simp [hc])]
    exact config_reset_valid fuel s hinit

theorem config_save_invalid_version (fuel : Nat) (s : Store)
    (hinit : s.flash_initialized = true) (hwf : s.system_config.WF)
    (hver : s.system_config.config_version ≠ CONFIG_VERSION) :
    config_save_to_flash (fuel + 5) s
      = some (FLASH_SUCCESS,
          store_with_config (store_with_config s (with_checksum s.system_config))
            (with_checksum DEFAULT_CONFIG)) := by
  rw [config_save_to_flash]
  have h20 : (sizeof_system_config_t + 3) / 4 = 20 := rfl
  have htake : ∀ c : system_config_t, (system_config_words c).take 20 = system_config_words c :=
    fun _ => rfl
  rw [if_neg (by simp [hinit])]
  simp only [h20, htake]
  have hl := config_load_invalid fuel (store_with_config s (with_checksum s.system_config))
    hinit (Or.inl (by
      rw [stored_config_store_with_config _ _ (with_checksum_WF _ hwf)]
      exact hver))
  unfold with_checksum store_with_config at hl ⊢
  rw [hl]
  simp

theorem xor_shift_testBit (x i : Nat) :
    (x ^^^ ((x <<< 1) % 4294967296)).testBit i
      = Bool.xor (x.testBit i) (decide (i < 32) && (decide (1 ≤ i) && x.testBit (i - 1))) := by
  rw [show (4294967296 : Nat) = 2 ^ 32 from rfl, Nat.testBit_xor, Nat.testBit_mod_two_pow,
    Nat.testBit_shiftLeft]

/-- The map `x ↦ x ^ (x << 1)` is one-to-one on 32-bit words. -/
theorem xor_shift_injective (x y : Nat) (hx : x < 4294967296) (hy : y < 4294967296)
    (h : x ^^^ ((x <<< 1) % 4294967296) = y ^^^ ((y <<< 1) % 4294967296)) : x = y := by
  apply Nat.eq_of_testBit_eq
  intro i
  induction i with
  | zero =>
    have h0 : (x ^^^ ((x <<< 1) % 4294967296)).testBit 0
        = (y ^^^ ((y <<< 1) % 4294967296)).testBit 0 := by rw [h]
    rw [xor_shift_testBit, xor_shift_testBit] at h0
    simpa using h0
  | succ i ih =>
    by_cases hi : i + 1 < 32
    · have this : (x ^^^ ((x <<< 1) % 4294967296)).testBit (i + 1)
          = (y ^^^ ((y <<< 1) % 4294967296)).testBit (i + 1) := by rw [h]
      rw [xor_shift_testBit, xor_shift_testBit] at this
      simp only [hi, decide_True, Nat.le_add_left, Bool.true_and,
        Nat.add_sub_cancel, ih] at this
      cases hxb : x.testBit (i + 1) <;> cases hyb : y.testBit (i + 1) <;>
        cases hyi : y.testBit i <;> simp_all
    · have hp : (4294967296 : Nat) ≤ 2 ^ (i + 1) := by
        rw [show (4294967296 : Nat) = 2 ^ 32 from rfl]
        exact Nat.pow_le_pow_right (by norm_num) (by omega)
      rw [Nat.testBit_lt_two_pow (Nat.lt_of_lt_of_le hx hp),
        Nat.testBit_lt_two_pow (Nat.lt_of_lt_of_le hy hp)]

theorem checksum_step_injective_left (c d b : Nat) (hc : c < 4294967296)
    (hd : d < 4294967296) (h : checksum_step c b = checksum_step d b) : c = d := by
  unfold checksum_step at h
  have := xor_shift_injective _ _ (Nat.mod_lt _ (by norm_num)) (Nat.mod_lt _ (by norm_num)) h
  omega

theorem checksum_step_injective_right (c a b : Nat) (ha : a < 256) (hb : b < 256)
    (h : checksum_step c a = checksum_step c b) : a = b := by
  unfold checksum_step at h
  have := xor_shift_injective _ _ (Nat.mod_lt _ (by norm_num)) (Nat.mod_lt _ (by norm_num)) h
  omega

theorem checksum_fold_injective (l : List Nat) :
    ∀ c d, c < 4294967296 → d < 4294967296 →
      l.foldl checksum_step c = l.foldl checksum_step d → c = d := by
  induction l with
  | nil => intro c d _ _ h; simpa using h
  | cons b l ih =>
    intro c d hc hd h
    simp only [List.foldl_cons] at h
    exact checksum_step_injective_left c d b hc hd
      (ih _ _ (checksum_step_lt c b) (checksum_step_lt d b) h)

/-- Changing one byte of the input changes the checksum. -/
theorem checksum_fold_set_ne (l : List Nat) :
    ∀ (k b c : Nat), k < l.length → c < 4294967296 → l.getD k 0 < 256 → b < 256 →
      b ≠ l.getD k 0 → (l.set k b).foldl checksum_step c ≠ l.foldl checksum_step c := by
  induction l with
  | nil => intro k b c hk; simp at hk
  | cons a l ih =>
    intro k b c hk hc ha hb hne
    cases k with
    | zero =>
      simp only [List.set_cons_zero, List.foldl_cons, List.getD_cons_zero] at *
      intro h
      have := checksum_fold_injective l _ _ (checksum_step_lt c b) (checksum_step_lt c a) h
      exact hne (checksum_step_injective_right c b a hb ha this)
    | succ k =>
      simp only [List.set_cons_succ, List.foldl_cons, List.getD_cons_succ,
        List.length_cons] at *
      exact ih k b _ (by omega) (checksum_step_lt c a) ha hb hne

/-! ## Bytes of the configuration region -/

theorem words_bytes_length (l : List Nat) : (words_bytes l).length = 4 * l.length := by
  induction l with
  | nil => rfl
  | cons w l ih => simp only [words_bytes, word_bytes, List.length_append, List.length_cons,
      List.length_nil, ih]; omega

theorem words_bytes_append (l1 l2 : List Nat) :
    words_bytes (l1 ++ l2) = words_bytes l1 ++ words_bytes l2 := by
  induction l1 with
  | nil => rfl
  | cons w l ih =>
    show word_bytes w ++ words_bytes (l ++ l2) = _
    rw [ih, words_bytes, List.append_assoc]

theorem words_bytes_lt (l : List Nat) : ∀ x ∈ words_bytes l, x < 256 := by
  induction l with
  | nil => intro x hx; simp [words_bytes] at hx
  | cons w l ih =>
    intro x hx
    simp only [words_bytes, word_bytes, List.mem_append, List.mem_cons, List.mem_singleton,
      List.not_mem_nil, or_false] at hx
    rcases hx with (rfl | rfl | rfl | rfl) | h
    · omega
    · omega
    · omega
    · omega
    · exact ih x h

theorem word_bytes_injective (v w : Nat) (hv : v < 4294967296) (hw : w < 4294967296)
    (h : word_bytes v = word_bytes w) : v = w := by
  simp only [word_bytes, List.cons.injEq, and_true] at h
  omega

theorem list20_split (w : List Nat) (h : w.length = 20) :
    w = w.take 19 ++ [w.getD 19 0] := by
  have h1 : w.drop 19 = [w.getD 19 0] := by
    apply List.ext_getElem
    · simp [h]
    · intro i h1 h2
      simp only [List.length_singleton] at h2
      have hi : i = 0 := by omega
      subst hi
      simp only [List.getElem_drop, List.getElem_singleton]
      rw [List.getD_eq_getElem _ _ (by omega)]
  rw [← h1, List.take_append_drop]

theorem system_config_words_of_words (w : List Nat) (hlen : w.length = 20) :
    system_config_words (system_config_of_words w) = w := by
  apply List.ext_getElem
  · rw [system_config_words_length, hlen]
  · intro i h1 h2
    rw [system_config_words_length] at h1
    have hd : ∀ j (hj : j < 20), w.getD j 0 = w[j] := fun j hj =>
      List.getD_eq_getElem _ _ (by omega)
    interval_cases i <;>
      simp only [system_config_words, system_config_of_words, List.getElem_cons_zero,
        List.getElem_cons_succ] <;>
      first
        | exact hd _ (by omega)
        | (rw [hd _ (by omega)]; omega)

theorem getD_mem_of_lt (l : List Nat) (i : Nat) (h : i < l.length) : l.getD i 0 ∈ l := by
  rw [List.getD_eq_getElem _ _ h]
  exact List.getElem_mem h

/-- A stored record in which one byte of the checksummed region was replaced
by a different value does not validate. -/
theorem corrupted_byte_invalid (m m' : Nat → Nat) (c : system_config_t) (k b : Nat)
    (hW : read_words m FLASH_CONFIG_OFFSET 20 = system_config_words c)
    (hsum : c.checksum = config_calculate_checksum c)
    (hk : k < 76) (hb : b < 256) (hne : b ≠ (config_region_bytes m).getD k 0)
    (hset : config_region_bytes m' = (config_region_bytes m).set k b) :
    config_validate_checksum (system_config_of_words (read_words m' FLASH_CONFIG_OFFSET 20))
      = false := by
  unfold config_region_bytes at hne hset
  generalize hWd : read_words m FLASH_CONFIG_OFFSET 20 = W at *
  generalize hWd' : read_words m' FLASH_CONFIG_OFFSET 20 = W' at *
  have hlen : W.length = 20 := by rw [← hWd, read_words_length]
  have hlen' : W'.length = 20 := by rw [← hWd', read_words_length]
  have hlt : ∀ x ∈ W, x < 4294967296 := by rw [← hWd]; exact read_words_lt _ _ _
  have hlt' : ∀ x ∈ W', x < 4294967296 := by rw [← hWd']; exact read_words_lt _ _ _
  have hA : (words_bytes (W.take 19)).length = 76 := by
    rw [words_bytes_length, List.length_take, hlen]; rfl
  have hA' : (words_bytes (W'.take 19)).length = 76 := by
    rw [words_bytes_length, List.length_take, hlen']; rfl
  have hs := list20_split W hlen
  have hs' := list20_split W' hlen'
  rw [hs, hs', words_bytes_append, words_bytes_append,
    List.set_append_left _ _ (by rw [hA]; exact hk)] at hset
  rw [hs, words_bytes_append, List.getD_append _ _ _ _ (by rw [hA]; exact hk)] at hne
  obtain ⟨h1, h2⟩ := List.append_inj hset (by rw [hA', List.length_set, hA])
  have h19 : W'.getD 19 0 = W.getD 19 0 := by
    simp only [words_bytes, List.append_nil] at h2
    exact word_bytes_injective _ _ (hlt' _ (getD_mem_of_lt _ _ (by omega)))
      (hlt _ (getD_mem_of_lt _ _ (by omega))) h2
  have hc19 : c.checksum = W.getD 19 0 := by rw [hW]; rfl
  have hcalc : config_calculate_checksum c
      = (words_bytes (W.take 19)).foldl checksum_step 0 := by
    rw [config_calculate_checksum_eq, ← hW]
  have hcalc' : config_calculate_checksum (system_config_of_words W')
      = ((words_bytes (W.take 19)).set k b).foldl checksum_step 0 := by
    rw [config_calculate_checksum_eq, system_config_words_of_words W' hlen', h1]
  have hsum' : (system_config_of_words W').checksum = W'.getD 19 0 := rfl
  have hfold := checksum_fold_set_ne (words_bytes (W.take 19)) k b 0 (by rw [hA]; exact hk)
    (by norm_num)
    (words_bytes_lt _ _ (getD_mem_of_lt _ _ (by rw [hA]; exact hk))) hb hne
  unfold config_validate_checksum
  simp only [beq_eq_false_iff_ne, ne_eq]
  rw [hcalc', hsum', h19, ← hc19, hsum, hcalc]
  exact hfold

/-- What a successful save leaves behind: an initialized store whose flash
and `system_config` hold the same well-typed record of the current version
with a validating checksum. -/
theorem config_save_success_stored (fuel : Nat) (s0 s1 : Store) (hwf : s0.system_config.WF)
    (hfuel : 5 ≤ fuel) (hsave : config_save_to_flash fuel s0 = some (FLASH_SUCCESS, s1)) :
    s1.flash_initialized = true ∧ s1.system_config.WF ∧
      s1.system_config.config_version = CONFIG_VERSION ∧
      s1.system_config.checksum = config_calculate_checksum s1.system_config ∧
      read_words s1.mem FLASH_CONFIG_OFFSET 20 = system_config_words s1.system_config := by
  obtain ⟨k, rfl⟩ := Nat.exists_eq_add_of_le hfuel
  rw [Nat.add_comm] at hsave
  by_cases hinit : s0.flash_initialized = true
  · by_cases hver : s0.system_config.config_version = CONFIG_VERSION
    · rw [config_save_valid (k + 3) s0 hinit hwf hver] at hsave
      simp only [Option.some.injEq, Prod.mk.injEq, true_and] at hsave
      subst hsave
      have hw := with_checksum_WF _ hwf
      exact ⟨hinit, hw, hver, with_checksum_valid _,
        read_words_write_words _ _ _ (system_config_words_lt _ hw)⟩
    · rw [config_save_invalid_version k s0 hinit hwf hver] at hsave
      simp only [Option.some.injEq, Prod.mk.injEq, true_and] at hsave
      subst hsave
      have hw := with_checksum_WF _ DEFAULT_CONFIG_WF
      exact ⟨hinit, hw, rfl, with_checksum_valid _,
        read_words_write_words _ _ _ (system_config_words_lt _ hw)⟩
  · rw [config_save_to_flash, if_pos (by simpa using hinit)] at hsave
    simp at hsave

theorem config_region_bytes_store_with_config (s : Store) (c : system_config_t) (h : c.WF) :
    config_region_bytes (store_with_config s c).mem = system_config_bytes c := by
  unfold config_region_bytes store_with_config system_config_bytes
  have := read_words_write_words s.mem FLASH_CONFIG_OFFSET (system_config_words c)
    (system_config_words_lt c h)
  rw [system_config_words_length] at this
  simp only [this]

/-! ## The detection log -/

theorem detection_result_of_words_words (r : detection_result_t) (h : r.WF) :
    detection_result_of_words (detection_result_words r) = r := by
  obtain ⟨h0, h1, h2, h3, h4, h5, h6, h7, h8, h9⟩ := h
  cases r
  simp only [detection_result_of_words, detection_result_words, List.getD_cons_zero,
    List.getD_cons_succ, detection_result_t.mk.injEq] at *
  refine ⟨?_, ?_, ?_, ?_, ?_, ?_, ?_, ?_, ?_, ?_⟩ <;> first | trivial | omega

theorem detection_result_words_lt (r : detection_result_t) (h : r.WF) :
    ∀ w ∈ detection_result_words r, w < 4294967296 := by
  obtain ⟨h0, h1, h2, h3, h4, h5, h6, h7, h8, h9⟩ := h
  intro w hw
  simp only [detection_result_words, List.mem_cons, List.mem_singleton, List.not_mem_nil,
    or_false] at hw
  rcases hw with rfl | rfl | rfl | rfl | rfl | rfl | rfl | rfl <;> omega

theorem MAX_LOG_ENTRIES_eq : MAX_LOG_ENTRIES = 117 := rfl

/-- The index `flash_write_detection_log` writes at. -/
theorem flash_write_detection_log_eq (s : Store) (r : detection_result_t)
    (hinit : s.flash_initialized = true) :
    flash_write_detection_log s (some r)
      = (FLASH_SUCCESS,
          { s with
            mem := write_words s.mem
              (FLASH_LOG_OFFSET
                + (if s.current_log_index ≥ MAX_LOG_ENTRIES then 0 else s.current_log_index)
                  * sizeof_detection_result_t) 0 (detection_result_words r)
            current_log_index :=
              ((if s.current_log_index ≥ MAX_LOG_ENTRIES then 0 else s.current_log_index) + 1)
                % 4294967296
            system_config :=
              { s.system_config with
                total_detections := (s.system_config.total_detections + 1) % 4294967296 } }) := by
  unfold flash_write_detection_log
  simp only [hinit, Bool.not_true, Bool.false_eq_true, if_false]
  rfl

theorem log_slot_write_same (mem : Nat → Nat) (i : Nat) (r : detection_result_t) (h : r.WF) :
    log_slot (write_words mem (FLASH_LOG_OFFSET + i * sizeof_detection_result_t) 0
      (detection_result_words r)) i = r := by
  unfold log_slot
  have := read_words_write_words mem (FLASH_LOG_OFFSET + i * sizeof_detection_result_t)
    (detection_result_words r) (detection_result_words_lt r h)
  rw [show (detection_result_words r).length = 8 from rfl] at this
  rw [this, detection_result_of_words_words r h]

theorem log_slot_write_other (mem : Nat → Nat) (i j : Nat) (r : detection_result_t)
    (h : j ≠ i) :
    log_slot (write_words mem (FLASH_LOG_OFFSET + i * sizeof_detection_result_t) 0
      (detection_result_words r)) j = log_slot mem j := by
  unfold log_slot
  rw [read_words_write_words_disjoint]
  rw [show (detection_result_words r).length = 8 from rfl]
  simp only [sizeof_detection_result_t]
  omega

theorem flash_read_detection_log_eq (s : Store) (i : Nat) (tmp : detection_result_t)
    (hinit : s.flash_initialized = true) (hi : i < MAX_LOG_ENTRIES) :
    flash_read_detection_log s i (some tmp) = (FLASH_SUCCESS, some (log_slot s.mem i)) := by
  unfold flash_read_detection_log
  have : ¬ i ≥ MAX_LOG_ENTRIES := by omega
  simp only [hinit, Bool.not_true, Option.isNone_some, Bool.or_self, Bool.false_or,
    decide_eq_true_eq, this, if_false]
  rfl

/-- Appending records while the log has room: every call succeeds, record `j`
lands in slot `current_log_index + j`, no other slot changes. -/
theorem flash_write_detection_logs_room (rs : List detection_result_t) :
    ∀ (s : Store), s.flash_initialized = true → (∀ r ∈ rs, r.WF) →
      s.current_log_index + rs.length ≤ MAX_LOG_ENTRIES →
      (flash_write_detection_logs s rs).1 = List.replicate rs.length FLASH_SUCCESS ∧
      (flash_write_detection_logs s rs).2.flash_initialized = true ∧
      (flash_write_detection_logs s rs).2.current_log_index
        = s.current_log_index + rs.length ∧
      (flash_write_detection_logs s rs).2.system_config.total_detections % 4294967296
        = (s.system_config.total_detections + rs.length) % 4294967296 ∧
      (∀ j, j < rs.length →
        some (log_slot (flash_write_detection_logs s rs).2.mem (s.current_log_index + j))
          = rs[j]?) ∧
      (∀ i, i < s.current_log_index ∨ s.current_log_index + rs.length ≤ i →
        log_slot (flash_write_detection_logs s rs).2.mem i = log_slot s.mem i) := by
  induction rs with
  | nil =>
    intro s hinit _ _
    simp [flash_write_detection_logs, hinit]
  | cons r rs ih =>
    intro s hinit hwf hroom
    simp only [List.length_cons] at hroom
    have hlt : ¬ s.current_log_index ≥ MAX_LOG_ENTRIES := by omega
    have hstep := flash_write_detection_log_eq s r hinit
    rw [if_neg hlt] at hstep
    have hmod : (s.current_log_index + 1) % 4294967296 = s.current_log_index + 1 := by
      rw [MAX_LOG_ENTRIES_eq] at hroom; omega
    rw [hmod] at hstep
    obtain ⟨s1, hs1⟩ : ∃ s1 : Store, s1 =
        { s with
          mem := write_words s.mem
            (FLASH_LOG_OFFSET + s.current_log_index * sizeof_detection_result_t) 0
            (detection_result_words r)
          current_log_index := s.current_log_index + 1
          system_config :=
            { s.system_config with
              total_detections := (s.system_config.total_detections + 1) % 4294967296 } } :=
      ⟨_, rfl⟩
    rw [← hs1] at hstep
    have hm : s1.mem = write_words s.mem
        (FLASH_LOG_OFFSET + s.current_log_index * sizeof_detection_result_t) 0
        (detection_result_words r) := by rw [hs1]
    have hc : s1.current_log_index = s.current_log_index + 1 := by rw [hs1]
    have ht : s1.system_config.total_detections
        = (s.system_config.total_detections + 1) % 4294967296 := by rw [hs1]
    have hi1 : s1.flash_initialized = true := by rw [hs1]; exact hinit
    have hlogs : flash_write_detection_logs s (r :: rs)
        = (FLASH_SUCCESS :: (flash_write_detection_logs s1 rs).1,
            (flash_write_detection_logs s1 rs).2) := by
      simp only [flash_write_detection_logs, hstep]
    obtain ⟨h1, h2, h3, h4, h5, h6⟩ := ih s1 hi1
      (fun x hx => hwf x (List.mem_cons_of_mem _ hx)) (by rw [hc]; omega)
    rw [hlogs]
    simp only [List.length_cons]
    rw [hc] at h3 h5 h6
    rw [ht] at h4
    rw [hm] at h6
    refine ⟨?_, h2, ?_, ?_, ?_, ?_⟩
    · rw [h1, List.replicate_succ]
    · rw [h3]; omega
    · rw [h4]; omega
    · intro j hj
      cases j with
      | zero =>
        rw [Nat.add_zero, h6 _ (Or.inl (by omega)),
          log_slot_write_same _ _ _ (hwf r (List.mem_cons_self _ _))]
        simp
      | succ j =>
        have := h5 j (by omega)
        rw [show s.current_log_index + 1 + j = s.current_log_index + (j + 1) by omega] at this
        rw [this, List.getElem?_cons_succ]
    · intro i hi
      rw [h6 i (by omega), log_slot_write_other]
      omega

theorem flash_write_detection_logs_append (l1 l2 : List detection_result_t) :
    ∀ s : Store, flash_write_detection_logs s (l1 ++ l2)
      = ((flash_write_detection_logs s l1).1
            ++ (flash_write_detection_logs (flash_write_detection_logs s l1).2 l2).1,
          (flash_write_detection_logs (flash_write_detection_logs s l1).2 l2).2) := by
  induction l1 with
  | nil => intro s; simp [flash_write_detection_logs]
  | cons r l1 ih =>
    intro s
    simp [flash_write_detection_logs, ih]

/-! ## The motherboard counter -/

theorem foldl_count_eq_countP {α : Type} (p : α → Bool) (l : List α) :
    ∀ c : Nat, l.foldl (fun count i => if p i then count + 1 else count) c
      = c + l.countP p := by
  induction l with
  | nil => intro c; simp
  | cons a l ih =>
    intro c
    rw [List.foldl_cons, ih, List.countP_cons]
    by_cases h : p a = true
    · simp [h]; omega
    · simp [h]

/-- The loop of `motherboard_counter_get_count_in_window` counts the stored
timestamps `t` with `window_start ≤ t ≤ now`, `window_start` being the
`uint32_t` difference. -/
theorem get_count_in_window_eq (mc : motherboard_counter_t) (now : Nat)
    (hen : mc.enabled = true) :
    motherboard_counter_get_count_in_window mc now
      = (stored_timestamps mc).countP
          (fun t => decide (t ≤ now) && decide (sub_u32 now mc.time_window_ms ≤ t)) := by
  unfold motherboard_counter_get_count_in_window stored_timestamps
  by_cases h0 : mc.buffer_count = 0
  · simp [hen, h0]
  · have hcond : (!mc.enabled || mc.buffer_count == 0) = false := by simp [hen, h0]
    rw [hcond]
    simp only [Bool.false_eq_true, if_false]
    have hf : (fun (count : Nat) (i : Nat) =>
          if mc.detection_timestamps.getD i 0 > now then count
          else if mc.detection_timestamps.getD i 0 ≥ sub_u32 now mc.time_window_ms
            then count + 1 else count)
        = (fun count i =>
            if (decide (mc.detection_timestamps.getD i 0 ≤ now) &&
                decide (sub_u32 now mc.time_window_ms ≤ mc.detection_timestamps.getD i 0))
              = true
            then count + 1 else count) := by
      funext count i
      simp only [Bool.and_eq_true, decide_eq_true_eq, gt_iff_lt, ge_iff_le]
      split_ifs <;> first | rfl | omega
    rw [hf, foldl_count_eq_countP
      (fun i => decide (mc.detection_timestamps.getD i 0 ≤ now) &&
        decide (sub_u32 now mc.time_window_ms ≤ mc.detection_timestamps.getD i 0)),
      Nat.zero_add, List.countP_map]
    rfl

theorem get_count_in_window_disabled (mc : motherboard_counter_t) (now : Nat)
    (hen : mc.enabled = false) : motherboard_counter_get_count_in_window mc now = 0 := by
  unfold motherboard_counter_get_count_in_window
  simp [hen]

theorem stored_timestamps_length (mc : motherboard_counter_t) :
    (stored_timestamps mc).length = mc.buffer_count := by
  simp [stored_timestamps]

theorem get_count_in_window_le (mc : motherboard_counter_t) (now : Nat) :
    motherboard_counter_get_count_in_window mc now ≤ mc.buffer_count := by
  cases hen : mc.enabled
  · rw [get_count_in_window_disabled mc now hen]; exact Nat.zero_le _
  · rw [get_count_in_window_eq mc now hen, ← stored_timestamps_length mc]
    exact List.countP_le_length _

theorem sub_u32_of_le (a b : Nat) (ha : a < 4294967296) (hb : b ≤ a) :
    sub_u32 a b = a - b := by
  unfold sub_u32; omega

theorem sub_u32_of_lt (a b : Nat) (hb : b < 4294967296) (hab : a < b) :
    sub_u32 a b = a + 4294967296 - b := by
  unfold sub_u32; omega

/-- When the window does not reach back before time 0 the loop computes the
count over the integers. -/
theorem get_count_in_window_eq_spec (mc : motherboard_counter_t) (now : Nat)
    (hen : mc.enabled = true) (hnow : now < 4294967296) (hw : mc.time_window_ms ≤ now) :
    motherboard_counter_get_count_in_window mc now = window_count_spec mc now := by
  rw [get_count_in_window_eq mc now hen, window_count_spec, sub_u32_of_le _ _ hnow hw]
  have hp : (fun t : Nat => decide (t ≤ now) && decide (now - mc.time_window_ms ≤ t))
      = (fun t : Nat => decide ((now : Int) - (mc.time_window_ms : Int) ≤ (t : Int))
          && decide (t ≤ now)) := by
    funext t
    rw [Bool.and_comm]
    congr 1
    apply decide_eq_decide.mpr
    omega
  rw [hp]

/-- The value of `motherboard_counter_check_trigger` is true exactly when the
counter is enabled, the window count reaches the threshold and the `uint32_t`
difference `now - last_lora_trigger_time` exceeds 30 000. -/
theorem check_trigger_true_iff (mc : motherboard_counter_t) (cfg : system_config_t)
    (now : Nat) :
    (motherboard_counter_check_trigger mc cfg now).1 = true ↔
      mc.enabled = true ∧
      mc.count_threshold ≤ motherboard_counter_get_count_in_window mc now ∧
      30000 < sub_u32 now mc.last_lora_trigger_time := by
  unfold motherboard_counter_check_trigger
  cases hen : mc.enabled
  · simp
  · by_cases h1 : motherboard_counter_get_count_in_window mc now ≥ mc.count_threshold
    · by_cases h2 : sub_u32 now mc.last_lora_trigger_time > 30000
      · simp [h1, h2]
      · simp [h1, h2]
    · simp [h1]

theorem check_trigger_of_true (mc : motherboard_counter_t) (cfg : system_config_t)
    (now : Nat) (h : (motherboard_counter_check_trigger mc cfg now).1 = true) :
    motherboard_counter_check_trigger mc cfg now
      = (true,
          { mc with
            last_lora_trigger_time := now
            lora_triggers_sent := (mc.lora_triggers_sent + 1) % 4294967296 },
          { cfg with
            total_motherboard_count_triggers :=
              (cfg.total_motherboard_count_triggers + 1) % 4294967296
            last_motherboard_trigger_time := now }) := by
  obtain ⟨hen, h1, h2⟩ := (check_trigger_true_iff mc cfg now).mp h
  unfold motherboard_counter_check_trigger
  simp [hen, h1, h2]

theorem check_trigger_of_false (mc : motherboard_counter_t) (cfg : system_config_t)
    (now : Nat) (h : (motherboard_counter_check_trigger mc cfg now).1 = false) :
    motherboard_counter_check_trigger mc cfg now = (false, mc, cfg) := by
  unfold motherboard_counter_check_trigger at h ⊢
  cases hen : mc.enabled
  · simp
  · by_cases h1 : motherboard_counter_get_count_in_window mc now ≥ mc.count_threshold
    · by_cases h2 : sub_u32 now mc.last_lora_trigger_time > 30000
      · simp [hen, h1, h2] at h
      · simp [h1, h2]
    · simp [h1]

/-! ## The ring while it is not full -/

/-- The settings and the trigger bookkeeping are not touched by
`motherboard_counter_add_detection`. -/
theorem add_detection_settings (mc : motherboard_counter_t) (t : Nat) :
    (motherboard_counter_add_detection mc t).enabled = mc.enabled ∧
    (motherboard_counter_add_detection mc t).count_threshold = mc.count_threshold ∧
    (motherboard_counter_add_detection mc t).time_window_ms = mc.time_window_ms ∧
    (motherboard_counter_add_detection mc t).last_lora_trigger_time
      = mc.last_lora_trigger_time ∧
    (motherboard_counter_add_detection mc t).lora_triggers_sent = mc.lora_triggers_sent := by
  unfold motherboard_counter_add_detection
  cases hen : mc.enabled <;> simp [hen]

theorem add_detection_buffer_count_le (mc : motherboard_counter_t) (t : Nat) :
    (motherboard_counter_add_detection mc t).buffer_count ≤ mc.buffer_count + 1 := by
  unfold motherboard_counter_add_detection
  cases hen : mc.enabled
  · simp
  · simp only [Bool.not_true, Bool.false_eq_true, if_false]
    split_ifs <;> omega

theorem add_detections_settings (ts : List Nat) :
    ∀ mc : motherboard_counter_t,
      (ts.foldl motherboard_counter_add_detection mc).enabled = mc.enabled ∧
      (ts.foldl motherboard_counter_add_detection mc).count_threshold = mc.count_threshold ∧
      (ts.foldl motherboard_counter_add_detection mc).time_window_ms = mc.time_window_ms ∧
      (ts.foldl motherboard_counter_add_detection mc).last_lora_trigger_time
        = mc.last_lora_trigger_time ∧
      (ts.foldl motherboard_counter_add_detection mc).lora_triggers_sent
        = mc.lora_triggers_sent := by
  induction ts with
  | nil => intro mc; simp
  | cons t ts ih =>
    intro mc
    obtain ⟨h1, h2, h3, h4, h5⟩ := ih (motherboard_counter_add_detection mc t)
    obtain ⟨g1, g2, g3, g4, g5⟩ := add_detection_settings mc t
    rw [List.foldl_cons]
    exact ⟨h1.trans g1, h2.trans g2, h3.trans g3, h4.trans g4, h5.trans g5⟩

/-- One detection added to an enabled ring that is not full and has been
filled from slot 0: the timestamp is appended to the stored ones. -/
theorem add_detection_room (mc : motherboard_counter_t) (t : Nat)
    (hen : mc.enabled = true) (hidx : mc.buffer_index = mc.buffer_count)
    (hlen : mc.detection_timestamps.length = 100) (hroom : mc.buffer_count + 1 < 100) :
    (motherboard_counter_add_detection mc t).buffer_count = mc.buffer_count + 1 ∧
    (motherboard_counter_add_detection mc t).buffer_index = mc.buffer_count + 1 ∧
    (motherboard_counter_add_detection mc t).detection_timestamps.length = 100 ∧
    stored_timestamps (motherboard_counter_add_detection mc t)
      = stored_timestamps mc ++ [t] := by
  unfold motherboard_counter_add_detection stored_timestamps
  simp only [hen, Bool.not_true, Bool.false_eq_true, if_false,
    MOTHERBOARD_DETECTION_BUFFER_SIZE, hidx]
  have h1 : mc.buffer_count < 100 := by omega
  refine ⟨?_, ?_, ?_, ?_⟩
  · rw [if_pos h1]
  · omega
  · rw [List.length_set, hlen]
  · rw [if_pos h1, List.range_succ, List.map_append, List.map_singleton]
    congr 1
    · apply List.map_congr_left
      intro i hi
      rw [List.mem_range] at hi
      rw [List.getD_eq_getElem?_getD, List.getD_eq_getElem?_getD,
        List.getElem?_set_ne (by omega)]
    · rw [List.getD_eq_getElem?_getD, List.getElem?_set_self (by omega)]
      rfl

theorem add_detections_room (ts : List Nat) :
    ∀ mc : motherboard_counter_t, mc.enabled = true → mc.buffer_index = mc.buffer_count →
      mc.detection_timestamps.length = 100 → mc.buffer_count + ts.length < 100 →
      (ts.foldl motherboard_counter_add_detection mc).buffer_count
        = mc.buffer_count + ts.length ∧
      (ts.foldl motherboard_counter_add_detection mc).buffer_index
        = mc.buffer_count + ts.length ∧
      (ts.foldl motherboard_counter_add_detection mc).detection_timestamps.length = 100 ∧
      stored_timestamps (ts.foldl motherboard_counter_add_detection mc)
        = stored_timestamps mc ++ ts := by
  induction ts with
  | nil => intro mc _ hidx hlen _; simp [hidx, hlen]
  | cons t ts ih =>
    intro mc hen hidx hlen hroom
    simp only [List.length_cons] at hroom
    obtain ⟨g1, g2, g3, g4⟩ := add_detection_room mc t hen hidx hlen (by omega)
    obtain ⟨h1, h2, h3, h4⟩ := ih (motherboard_counter_add_detection mc t)
      ((add_detection_settings mc t).1.trans hen) (g2.trans g1.symm) g3 (by rw [g1]; omega)
    rw [List.foldl_cons]
    refine ⟨?_, ?_, h3, ?_⟩
    · rw [h1, g1, List.length_cons]; omega
    · rw [h2, g1, List.length_cons]; omega
    · rw [h4, g4, List.append_assoc, List.singleton_append]

/-- The counter right after `motherboard_counter_reset`. -/
theorem reset_fresh (mc : motherboard_counter_t) (cfg : system_config_t) :
    (motherboard_counter_reset mc cfg).1.enabled = mc.enabled ∧
    (motherboard_counter_reset mc cfg).1.count_threshold = mc.count_threshold ∧
    (motherboard_counter_reset mc cfg).1.time_window_ms = mc.time_window_ms ∧
    (motherboard_counter_reset mc cfg).1.last_lora_trigger_time = 0 ∧
    (motherboard_counter_reset mc cfg).1.buffer_count = 0 ∧
    (motherboard_counter_reset mc cfg).1.buffer_index = 0 ∧
    (motherboard_counter_reset mc cfg).1.detection_timestamps.length = 100 ∧
    stored_timestamps (motherboard_counter_reset mc cfg).1 = [] := by
  unfold motherboard_counter_reset stored_timestamps
  simp [MOTHERBOARD_DETECTION_BUFFER_SIZE]

/-! ## Detections interleaved with trigger checks -/

theorem inject_and_check_all_append (l1 l2 : List Nat) :
    ∀ st : motherboard_counter_t × system_config_t,
      inject_and_check_all st (l1 ++ l2)
        = ((inject_and_check_all st l1).1
              ++ (inject_and_check_all (inject_and_check_all st l1).2 l2).1,
            (inject_and_check_all (inject_and_check_all st l1).2 l2).2) := by
  induction l1 with
  | nil => intro st; simp [inject_and_check_all]
  | cons t l1 ih =>
    intro st
    simp [inject_and_check_all, ih]

theorem inject_and_check_of_false (st : motherboard_counter_t × system_config_t) (t : Nat)
    (h : (motherboard_counter_check_trigger
      (motherboard_counter_add_detection st.1 t) st.2 t).1 = false) :
    inject_and_check st t = (false, (motherboard_counter_add_detection st.1 t, st.2)) := by
  unfold inject_and_check
  simp only []
  rw [check_trigger_of_false _ _ _ h]

/-- While fewer detections are stored than the threshold asks for, no check
fires. -/
theorem inject_and_check_all_below_threshold (ts : List Nat) :
    ∀ st : motherboard_counter_t × system_config_t,
      st.1.buffer_count + ts.length < st.1.count_threshold →
      inject_and_check_all st ts
        = (List.replicate ts.length false,
            (ts.foldl motherboard_counter_add_detection st.1, st.2)) := by
  induction ts with
  | nil => intro st _; rfl
  | cons t ts ih =>
    intro st h
    simp only [List.length_cons] at h
    have hle := add_detection_buffer_count_le st.1 t
    have hthr := (add_detection_settings st.1 t).2.1
    have hf : (motherboard_counter_check_trigger
        (motherboard_counter_add_detection st.1 t) st.2 t).1 = false := by
      cases hr : (motherboard_counter_check_trigger
        (motherboard_counter_add_detection st.1 t) st.2 t).1
      · rfl
      · obtain ⟨_, h2, _⟩ := (check_trigger_true_iff _ _ _).mp hr
        have := get_count_in_window_le (motherboard_counter_add_detection st.1 t) t
        omega
    rw [inject_and_check_all, inject_and_check_of_false st t hf]
    simp only []
    rw [ih (motherboard_counter_add_detection st.1 t, st.2) (by simp only []; omega)]
    simp [List.replicate_succ]

/-- While no more than 30 000 ms have passed since the last trigger, no check
fires. -/
theorem inject_and_check_all_in_cooldown (ts : List Nat) :
    ∀ st : motherboard_counter_t × system_config_t,
      (∀ t ∈ ts, sub_u32 t st.1.last_lora_trigger_time ≤ 30000) →
      inject_and_check_all st ts
        = (List.replicate ts.length false,
            (ts.foldl motherboard_counter_add_detection st.1, st.2)) := by
  induction ts with
  | nil => intro st _; rfl
  | cons t ts ih =>
    intro st h
    have hlast := (add_detection_settings st.1 t).2.2.2.1
    have hf : (motherboard_counter_check_trigger
        (motherboard_counter_add_detection st.1 t) st.2 t).1 = false := by
      cases hr : (motherboard_counter_check_trigger
        (motherboard_counter_add_detection st.1 t) st.2 t).1
      · rfl
      · obtain ⟨_, _, h3⟩ := (check_trigger_true_iff _ _ _).mp hr
        have := h t (List.mem_cons_self _ _)
        rw [hlast] at h3
        omega
    rw [inject_and_check_all, inject_and_check_of_false st t hf]
    simp only []
    rw [ih (motherboard_counter_add_detection st.1 t, st.2) (by
      intro t' ht'
      simp only [hlast]
      exact h t' (List.mem_cons_of_mem _ ht'))]
    simp [List.replicate_succ]

theorem split_at_24 (ts : List Nat) (hlen : ts.length = 30) :
    ∃ pre t post, ts = pre ++ t :: post ∧ pre.length = 24 ∧ post.length = 5 ∧
      ts.getD 24 0 = t := by
  refine ⟨ts.take 24, ts[24], ts.drop 25, ?_, ?_, ?_, ?_⟩
  · rw [← List.drop_eq_getElem_cons (by omega), List.take_append_drop]
  · simp [hlen]
  · simp [hlen]
  · exact List.getD_eq_getElem _ _ (by omega)

/-! ## The counter setters -/

theorem set_threshold_eq (mc : motherboard_counter_t) (cfg : system_config_t) (v : Nat) :
    motherboard_counter_set_threshold mc cfg v
      = (if 1 ≤ v ∧ v ≤ 1000 then
          (true, { mc with count_threshold := v },
            { cfg with motherboard_count_threshold := v })
        else (false, mc, cfg)) := by
  unfold motherboard_counter_set_threshold
  by_cases h : 1 ≤ v ∧ v ≤ 1000
  · have hc : (decide (v < 1) || decide (v > 1000)) = false := by simp; omega
    rw [hc, if_pos h]; rfl
  · have hc : (decide (v < 1) || decide (v > 1000)) = true := by simp; omega
    rw [hc, if_neg h]; rfl

theorem set_window_eq (mc : motherboard_counter_t) (cfg : system_config_t) (s : Nat) :
    motherboard_counter_set_window mc cfg s
      = (if 1 ≤ s ∧ s ≤ 300 then
          (true, { mc with time_window_ms := s * 1000 },
            { cfg with motherboard_count_window_ms := s * 1000 })
        else (false, mc, cfg)) := by
  unfold motherboard_counter_set_window
  by_cases h : 1 ≤ s ∧ s ≤ 300
  · have hc : (decide (s < 1) || decide (s > 300)) = false := by simp; omega
    have hm : s * 1000 % 4294967296 = s * 1000 := by omega
    rw [hc, if_pos h, hm]; rfl
  · have hc : (decide (s < 1) || decide (s > 300)) = true := by simp; omega
    rw [hc, if_neg h]; rfl

/-! ## The ring over a whole history of detections -/

/-- The state of an enabled counter that has received the detections `hist`
since a reset: each of the last 100 timestamps sits in slot `j % 100`. -/
theorem add_detection_history (mc : motherboard_counter_t) (hist : List Nat) (t : Nat)
    (hen : mc.enabled = true) (hlen : mc.detection_timestamps.length = 100)
    (hidx : mc.buffer_index = hist.length % 100)
    (hcnt : mc.buffer_count = min hist.length 100)
    (htot : mc.total_motherboard_detections = hist.length % 4294967296)
    (hslot : ∀ j, j < hist.length → hist.length ≤ j + 100 →
      mc.detection_timestamps.getD (j % 100) 0 = hist.getD j 0) :
    (motherboard_counter_add_detection mc t).enabled = true ∧
    (motherboard_counter_add_detection mc t).detection_timestamps.length = 100 ∧
    (motherboard_counter_add_detection mc t).buffer_index = (hist ++ [t]).length % 100 ∧
    (motherboard_counter_add_detection mc t).buffer_count = min (hist ++ [t]).length 100 ∧
    (motherboard_counter_add_detection mc t).total_motherboard_detections
      = (hist ++ [t]).length % 4294967296 ∧
    (∀ j, j < (hist ++ [t]).length → (hist ++ [t]).length ≤ j + 100 →
      (motherboard_counter_add_detection mc t).detection_timestamps.getD (j % 100) 0
        = (hist ++ [t]).getD j 0) := by
  unfold motherboard_counter_add_detection
  simp only [hen, Bool.not_true, Bool.false_eq_true, if_false,
    MOTHERBOARD_DETECTION_BUFFER_SIZE, hidx, hcnt, htot, List.length_append,
    List.length_singleton]
  refine ⟨trivial, ?_, ?_, ?_, ?_, ?_⟩
  · rw [List.length_set, hlen]
  · omega
  · split_ifs <;> omega
  · omega
  · intro j hj hj100
    have hm : hist.length % 100 < 100 := Nat.mod_lt _ (by norm_num)
    by_cases hjn : j = hist.length
    · subst hjn
      rw [List.getD_eq_getElem?_getD, List.getElem?_set_self (by omega),
        List.getD_append_right _ _ _ _ (Nat.le_refl _)]
      simp
    · have hj' : j < hist.length := by omega
      rw [List.getD_eq_getElem?_getD, List.getElem?_set_ne (by omega),
        ← List.getD_eq_getElem?_getD, hslot j hj' (by omega),
        List.getD_append _ _ _ _ hj']

theorem add_detections_history (ts : List Nat) :
    ∀ (mc : motherboard_counter_t) (hist : List Nat),
      mc.enabled = true → mc.detection_timestamps.length = 100 →
      mc.buffer_index = hist.length % 100 →
      mc.buffer_count = min hist.length 100 →
      mc.total_motherboard_detections = hist.length % 4294967296 →
      (∀ j, j < hist.length → hist.length ≤ j + 100 →
        mc.detection_timestamps.getD (j % 100) 0 = hist.getD j 0) →
      (ts.foldl motherboard_counter_add_detection mc).detection_timestamps.length = 100 ∧
      (ts.foldl motherboard_counter_add_detection mc).buffer_count
        = min (hist ++ ts).length 100 ∧
      (ts.foldl motherboard_counter_add_detection mc).total_motherboard_detections
        = (hist ++ ts).length % 4294967296 ∧
      (∀ j, j < (hist ++ ts).length → (hist ++ ts).length ≤ j + 100 →
        (ts.foldl motherboard_counter_add_detection mc).detection_timestamps.getD (j % 100) 0
          = (hist ++ ts).getD j 0) := by
  induction ts with
  | nil =>
    intro mc hist _ hlen _ hcnt htot hslot
    simp only [List.foldl_nil, List.append_nil]
    exact ⟨hlen, hcnt, htot, hslot⟩
  | cons t ts ih =>
    intro mc hist hen hlen hidx hcnt htot hslot
    obtain ⟨g1, g2, g3, g4, g5, g6⟩ := add_detection_history mc hist t hen hlen hidx hcnt htot hslot
    have := ih (motherboard_counter_add_detection mc t) (hist ++ [t]) g1 g2 g3 g4 g5 g6
    rw [List.append_assoc, List.singleton_append] at this
    rw [List.foldl_cons]
    exact this

/-- The slots an enabled counter looks at hold the last `min n 100` of the `n`
timestamps of its history, up to their order. -/
theorem stored_timestamps_perm (mc : motherboard_counter_t) (ts : List Nat)
    (hcnt : mc.buffer_count = min ts.length 100)
    (hslot : ∀ j, j < ts.length → ts.length ≤ j + 100 →
      mc.detection_timestamps.getD (j % 100) 0 = ts.getD j 0) :
    (stored_timestamps mc).Perm (ts.drop (ts.length - min ts.length 100)) := by
  unfold stored_timestamps
  rw [hcnt]
  by_cases hn : ts.length ≤ 100
  · rw [Nat.min_eq_left hn, Nat.sub_self, List.drop_zero]
    have : (List.range ts.length).map (fun i => mc.detection_timestamps.getD i 0) = ts := by
      apply List.ext_getElem
      · simp
      · intro i h1 h2
        simp only [List.getElem_map, List.getElem_range]
        have := hslot i h2 (by omega)
        rw [Nat.mod_eq_of_lt (by omega)] at this
        rw [this, List.getD_eq_getElem _ _ h2]
    rw [this]
  · have hn' : 100 < ts.length := by omega
    rw [Nat.min_eq_right (by omega)]
    have hL : ts.drop (ts.length - 100)
        = ((List.range 100).rotate ((ts.length - 100) % 100)).map
            (fun i => mc.detection_timestamps.getD i 0) := by
      apply List.ext_getElem
      · simp; omega
      · intro m h1 h2
        simp only [List.length_drop] at h1
        have hm : m < 100 := by omega
        simp only [List.getElem_drop, List.getElem_map, List.getElem_rotate,
          List.getElem_range, List.length_range]
        have := hslot (ts.length - 100 + m) (by omega) (by omega)
        rw [List.getD_eq_getElem ts 0 (show ts.length - 100 + m < ts.length by omega)] at this
        rw [← this]
        congr 1
        omega
    rw [hL]
    exact (List.Perm.map _ (List.rotate_perm _ _)).symm

/-- The ring of a freshly reset, enabled counter after the detections `ts`. -/
theorem add_detections_after_reset (mc0 : motherboard_counter_t) (cfg : system_config_t)
    (ts : List Nat) (hen : mc0.enabled = true) :
    (ts.foldl motherboard_counter_add_detection
      (motherboard_counter_reset mc0 cfg).1).buffer_count = min ts.length 100 ∧
    (ts.foldl motherboard_counter_add_detection
      (motherboard_counter_reset mc0 cfg).1).total_motherboard_detections
      = ts.length % 4294967296 ∧
    (∀ j, j < ts.length → ts.length ≤ j + 100 →
      (ts.foldl motherboard_counter_add_detection
        (motherboard_counter_reset mc0 cfg).1).detection_timestamps.getD (j % 100) 0
        = ts.getD j 0) := by
  obtain ⟨r1, _, _, _, r5, r6, r7, _⟩ := reset_fresh mc0 cfg
  have h := add_detections_history ts (motherboard_counter_reset mc0 cfg).1 []
    (r1.trans hen) r7 r6 r5 rfl (by intro j hj; simp at hj)
  rw [List.nil_append] at h
  exact ⟨h.2.1, h.2.2.1, h.2.2.2⟩

/-! ## Hexadecimal encoding -/

theorem hex_digit_mem (d : Nat) (h : d < 16) : hex_digit d ∈ ascii "0123456789ABCDEF" := by
  unfold hex_digit
  interval_cases d <;> decide

theorem hex_value_hex_digit (d : Nat) (h : d < 16) : hex_value (hex_digit d) = d := by
  unfold hex_value hex_digit
  split_ifs <;> omega

theorem string_to_hex_cons (c : Nat) (s : List Nat) (hc : c ≠ 0) :
    string_to_hex (c :: s)
      = hex_digit (c % 256 / 16) :: hex_digit (c % 16) :: string_to_hex s := by
  rw [string_to_hex, if_neg hc]
  rfl

theorem string_to_hex_length (s : List Nat) (h : ∀ b ∈ s, b ≠ 0) :
    (string_to_hex s).length = 2 * s.length := by
  induction s with
  | nil => rfl
  | cons c s ih =>
    rw [string_to_hex_cons c s (h c (List.mem_cons_self _ _)), List.length_cons,
      List.length_cons, ih (fun b hb => h b (List.mem_cons_of_mem _ hb)), List.length_cons]
    omega

theorem string_to_hex_chars (s : List Nat) (h : ∀ b ∈ s, b ≠ 0) :
    ∀ c ∈ string_to_hex s, c ∈ ascii "0123456789ABCDEF" := by
  induction s with
  | nil => intro c hc; simp [string_to_hex] at hc
  | cons b s ih =>
    intro c hc
    rw [string_to_hex_cons b s (h b (List.mem_cons_self _ _))] at hc
    rcases List.mem_cons.mp hc with rfl | hc
    · exact hex_digit_mem _ (by omega)
    · rcases List.mem_cons.mp hc with rfl | hc
      · exact hex_digit_mem _ (by omega)
      · exact ih (fun b hb => h b (List.mem_cons_of_mem _ hb)) c hc

theorem string_to_hex_nibbles (s : List Nat) (h : ∀ b ∈ s, b ≠ 0) :
    ∀ i, i < s.length →
      (string_to_hex s).getD (2 * i) 0 = hex_digit (s.getD i 0 % 256 / 16) ∧
      (string_to_hex s).getD (2 * i + 1) 0 = hex_digit (s.getD i 0 % 16) := by
  induction s with
  | nil => intro i hi; simp at hi
  | cons b s ih =>
    intro i hi
    rw [string_to_hex_cons b s (h b (List.mem_cons_self _ _))]
    cases i with
    | zero => simp
    | succ i =>
      have := ih (fun b hb => h b (List.mem_cons_of_mem _ hb)) i
        (by simp only [List.length_cons] at hi; omega)
      rw [show 2 * (i + 1) = 2 * i + 1 + 1 by omega,
        show 2 * i + 1 + 1 + 1 = (2 * i + 1) + 1 + 1 by omega]
      simp only [List.getD_cons_succ]
      exact this

theorem hex_decode_string_to_hex (s : List Nat) (h : is_byte_string s) :
    hex_decode (string_to_hex s) = s := by
  induction s with
  | nil => rfl
  | cons b s ih =>
    have hb := h b (List.mem_cons_self _ _)
    rw [string_to_hex_cons b s hb.1, hex_decode,
      ih (fun b hb => h b (List.mem_cons_of_mem _ hb)),
      hex_value_hex_digit _ (by omega), hex_value_hex_digit _ (by omega)]
    congr 1
    omega

/-! ## AT transactions -/

theorem c_str_of_nul_free (s : List Nat) (h : ∀ b ∈ s, b ≠ 0) : c_str s = s := by
  unfold c_str
  rw [List.takeWhile_eq_self_iff]
  intro b hb
  simpa using h b hb

theorem strlen_of_nul_free (s : List Nat) (h : ∀ b ∈ s, b ≠ 0) : strlen s = s.length := by
  unfold strlen
  rw [c_str_of_nul_free s h]

theorem hex_digit_ne_zero (d : Nat) : hex_digit d ≠ 0 := by
  unfold hex_digit
  split_ifs <;> omega

theorem string_to_hex_nul_free (s : List Nat) : ∀ c ∈ string_to_hex s, c ≠ 0 := by
  induction s with
  | nil => intro c hc; simp [string_to_hex] at hc
  | cons b s ih =>
    intro c hc
    rw [string_to_hex] at hc
    split_ifs at hc with hb
    · simp at hc
    · simp only [sprintf_02X, List.cons_append, List.nil_append, List.mem_cons] at hc
      rcases hc with rfl | rfl | hc
      · exact hex_digit_ne_zero _
      · exact hex_digit_ne_zero _
      · exact ih c hc

/-- The response loop touches nothing but the response buffer. -/
theorem lora_at_read_loop_frame (chunk : List Nat) :
    ∀ (m : lora_module_t) (response : Option (List Nat)) (got : Bool),
      same_but_response_buffer m (lora_at_read_loop chunk m response got).2.1 := by
  induction chunk with
  | nil => intro m response got; exact ⟨rfl, rfl, rfl, rfl, rfl, rfl, rfl⟩
  | cons c cs ih =>
    intro m response got
    rw [lora_at_read_loop]
    simp only []
    split_ifs
    · exact ⟨rfl, rfl, rfl, rfl, rfl, rfl, rfl⟩
    · exact ⟨rfl, rfl, rfl, rfl, rfl, rfl, rfl⟩
    · exact ih _ _ _
    · exact ih _ _ _
    · exact ih _ _ _
    · exact ih _ _ _

theorem lora_send_at_command_some (m : lora_module_t) (io : serial1_t) (command : List Nat)
    (response : Option (List Nat)) (timeout : Nat) :
    (lora_send_at_command m io (some command) response timeout).2.2.1
        = { tx := io.tx ++ [c_str command], rx := io.rx.tail } ∧
    same_but_response_buffer m
      (lora_send_at_command m io (some command) response timeout).2.1 := by
  unfold lora_send_at_command
  exact ⟨rfl, lora_at_read_loop_frame _ _ _ _⟩

/-! ## Sending a message -/

theorem send_command_text (payload : List Nat) (hlen : payload.length ≤ 20)
    (hnul : ∀ b ∈ payload, b ≠ 0) :
    c_str (snprintf 100 (ascii "AT+SEND=2:" ++ string_to_hex payload))
      = ascii "AT+SEND=2:" ++ string_to_hex payload := by
  have h1 : snprintf 100 (ascii "AT+SEND=2:" ++ string_to_hex payload)
      = ascii "AT+SEND=2:" ++ string_to_hex payload := by
    unfold snprintf
    apply List.take_of_length_le
    rw [List.length_append, string_to_hex_length payload hnul]
    have : (ascii "AT+SEND=2:").length = 10 := by decide
    omega
  rw [h1]
  apply c_str_of_nul_free
  intro b hb
  rcases List.mem_append.mp hb with h | h
  · have hlit : ∀ b ∈ ascii "AT+SEND=2:", b ≠ 0 := by decide
    exact hlit b h
  · exact string_to_hex_nul_free payload b h

/-- What `lora_send_message` does with a payload of at most 20 bytes. -/
theorem lora_send_message_accepted (m : lora_module_t) (io : serial1_t)
    (ty : lora_message_type_t) (payload : List Nat) (now : Nat)
    (hinit : m.initialization_complete = true) (hstate : m.state ≠ LORA_STATE_SENDING)
    (hnul : ∀ b ∈ payload, b ≠ 0) (hlen : payload.length ≤ 20) :
    (lora_send_message m io ty (some payload) now).1
      = (lora_send_at_command { m with state := LORA_STATE_SENDING } io
          (some (snprintf 100 (ascii "AT+SEND=2:" ++ string_to_hex payload))) none 5000).1 ∧
    (lora_send_message m io ty (some payload) now).2.2
      = { tx := io.tx ++ [ascii "AT+SEND=2:" ++ string_to_hex payload], rx := io.rx.tail } ∧
    (lora_send_message m io ty (some payload) now).2.1.state = LORA_STATE_CONNECTED ∧
    (lora_send_message m io ty (some payload) now).2.1.pending_message = m.pending_message ∧
    (lora_send_message m io ty (some payload) now).2.1.initialization_complete = true := by
  have h1 : (!lora_is_initialized m) = false := by simp [lora_is_initialized, hinit]
  have h2 : ¬ strlen payload > 20 := by rw [strlen_of_nul_free payload hnul]; omega
  have h3 : ¬ (string_to_hex payload).length > 40 := by
    rw [string_to_hex_length payload hnul]; omega
  obtain ⟨g1, g2⟩ := lora_send_at_command_some { m with state := LORA_STATE_SENDING } io
    (snprintf 100 (ascii "AT+SEND=2:" ++ string_to_hex payload)) none 5000
  rw [send_command_text payload hlen hnul] at g1
  obtain ⟨_, _, _, f4, _, f6, _⟩ := g2
  unfold lora_send_message
  simp only [h1, Bool.false_eq_true, if_false, if_neg hstate, if_neg h2, if_neg h3]
  refine ⟨trivial, g1, trivial, ?_, ?_⟩
  · split_ifs <;> exact f4
  · split_ifs <;> exact f6.trans hinit

/-- What `lora_send_message` does with a payload of more than 20 bytes. -/
theorem lora_send_message_too_long (m : lora_module_t) (io : serial1_t)
    (ty : lora_message_type_t) (payload : List Nat) (now : Nat)
    (hinit : m.initialization_complete = true) (hstate : m.state ≠ LORA_STATE_SENDING)
    (hlen : 20 < strlen payload) :
    lora_send_message m io ty (some payload) now
      = (LORA_ERROR_SEND, { m with state := LORA_STATE_CONNECTED }, io) := by
  have h1 : (!lora_is_initialized m) = false := by simp [lora_is_initialized, hinit]
  unfold lora_send_message
  simp only [h1, Bool.false_eq_true, if_false, if_neg hstate, if_pos hlen]

/-! ## Reading one response line -/

theorem lora_at_read_loop_line (raw : List Nat) :
    ∀ (m : lora_module_t) (response : Option (List Nat)) (got : Bool) (rest : List Nat),
      (∀ c ∈ raw, c ≠ 10) → m.response_index = m.response_buffer.length →
      m.response_buffer.length ≤ 255 →
      lora_at_read_loop (raw ++ rest) m response got
        = lora_at_read_loop rest
            { m with
              response_buffer :=
                (m.response_buffer ++ raw.filter (fun c => c != 13)).take 255
              response_index :=
                ((m.response_buffer ++ raw.filter (fun c => c != 13)).take 255).length }
            response got := by
  induction raw with
  | nil =>
    intro m response got rest _ hidx hlen
    have h1 : (m.response_buffer ++ List.filter (fun c => c != 13) []).take 255
        = m.response_buffer := by
      rw [List.filter_nil, List.append_nil, List.take_of_length_le hlen]
    rw [h1, ← hidx, List.nil_append]
  | cons c raw ih =>
    intro m response got rest hraw hidx hlen
    have hc : c ≠ 10 := hraw c (List.mem_cons_self _ _)
    have hraw' : ∀ c ∈ raw, c ≠ 10 := fun x hx => hraw x (List.mem_cons_of_mem _ hx)
    rw [List.cons_append, lora_at_read_loop, if_neg hc]
    by_cases hstore : c ≠ 13 ∧ m.response_index < 256 - 1
    · rw [if_pos hstore]
      have hf : List.filter (fun c => c != 13) (c :: raw)
          = c :: List.filter (fun c => c != 13) raw := by
        rw [List.filter_cons_of_pos]; simpa using hstore.1
      rw [ih _ response got rest hraw' (by simp [hidx]) (by simp; omega), hf]
      simp only [List.append_assoc, List.singleton_append]
    · rw [if_neg hstore, ih m response got rest hraw' hidx hlen]
      by_cases h13 : c = 13
      · have hf : List.filter (fun c => c != 13) (c :: raw)
            = List.filter (fun c => c != 13) raw := by
          rw [List.filter_cons_of_neg]; simp [h13]
        rw [hf]
      · have hfull : m.response_buffer.length = 255 := by omega
        have hf : List.filter (fun c => c != 13) (c :: raw)
            = c :: List.filter (fun c => c != 13) raw := by
          rw [List.filter_cons_of_pos]; simpa using h13
        have t1 : ∀ l : List Nat, (m.response_buffer ++ l).take 255 = m.response_buffer := by
          intro l
          rw [List.take_append_of_le_length (by omega), List.take_of_length_le (by omega)]
        rw [hf, t1, t1]

theorem contains_bytes_self (s : List Nat) : contains_bytes s s = true := by
  cases s with
  | nil => rfl
  | cons c s => simp [contains_bytes]

/-- The outcome of a transaction whose first line is `raw`, in terms of the
text the code classifies. -/
theorem lora_send_at_command_first_line (m : lora_module_t) (io : serial1_t)
    (command : List Nat) (response : Option (List Nat)) (timeout : Nat)
    (raw rest : List Nat) (htime : timeout ≠ 0) (hrx : io.rx.headD [] = raw ++ 10 :: rest)
    (hraw : ∀ c ∈ raw, c ≠ 10) (hne : buffered_line raw ≠ [])
    (hclass :
      (response_text raw == ascii "OK" || contains_bytes (response_text raw) (ascii "OK") ||
        (ascii "+").isPrefixOf (response_text raw) ||
        contains_bytes (response_text raw) (ascii "EVT:")) = true ∨
      (contains_bytes (response_text raw) (ascii "ERROR") ||
        contains_bytes (response_text raw) (ascii "FAIL")) = true) :
    (lora_send_at_command m io (some command) response timeout).1
      = (if (response_text raw == ascii "OK" ||
              contains_bytes (response_text raw) (ascii "OK") ||
              (ascii "+").isPrefixOf (response_text raw) ||
              contains_bytes (response_text raw) (ascii "EVT:")) = true
          then LORA_SUCCESS else LORA_ERROR_AT_COMMAND) := by
  unfold lora_send_at_command
  simp only [if_neg htime, hrx]
  rw [lora_at_read_loop_line raw (lora_clear_response_buffer m) response false (10 :: rest)
    hraw rfl (by simp [lora_clear_response_buffer])]
  have hb : (lora_clear_response_buffer m).response_buffer = [] := rfl
  rw [hb, List.nil_append]
  have hpos : (List.take 255 (List.filter (fun c => c != 13) raw)).length > 0 :=
    List.length_pos.mpr hne
  rw [lora_at_read_loop, if_pos rfl]
  simp only []
  rw [if_pos hpos]
  unfold response_text buffered_line at hclass ⊢
  by_cases hs : (string_trim (c_str (List.take 255 (List.filter (fun c => c != 13) raw)))
        == ascii "OK" ||
      contains_bytes (string_trim (c_str (List.take 255 (List.filter (fun c => c != 13) raw))))
        (ascii "OK") ||
      (ascii "+").isPrefixOf
        (string_trim (c_str (List.take 255 (List.filter (fun c => c != 13) raw)))) ||
      contains_bytes (string_trim (c_str (List.take 255 (List.filter (fun c => c != 13) raw))))
        (ascii "EVT:")) = true
  · rw [if_pos hs, if_pos hs]
  · rw [if_neg hs, if_neg hs, if_pos (hclass.resolve_left hs)]

/-! ## The engine state does not influence a transaction -/

theorem lora_at_read_loop_result (chunk : List Nat) :
    ∀ (m m' : lora_module_t) (response : Option (List Nat)) (got : Bool),
      m.response_buffer = m'.response_buffer → m.response_index = m'.response_index →
      (lora_at_read_loop chunk m response got).1
        = (lora_at_read_loop chunk m' response got).1 := by
  induction chunk with
  | nil => intro m m' response got _ _; rfl
  | cons c cs ih =>
    intro m m' response got hb hi
    rw [lora_at_read_loop, lora_at_read_loop]
    simp only [hb, hi]
    split_ifs
    · rfl
    · rfl
    · exact ih _ _ _ _ rfl rfl
    · exact ih _ _ _ _ hb hi
    · exact ih _ _ _ _ (by simp [hb]) (by simp [hi])
    · exact ih _ _ _ _ hb hi

theorem lora_send_at_command_result (m m' : lora_module_t) (io : serial1_t)
    (command : Option (List Nat)) (response : Option (List Nat)) (timeout : Nat) :
    (lora_send_at_command m io command response timeout).1
      = (lora_send_at_command m' io command response timeout).1 := by
  cases command with
  | none => rfl
  | some command =>
    unfold lora_send_at_command
    exact lora_at_read_loop_result _ _ _ _ _ rfl rfl

theorem lora_send_at_command_c_str_ascii :
    c_str (ascii "AT") = ascii "AT" ∧ c_str (ascii "AT+VER=?") = ascii "AT+VER=?" ∧
    c_str (ascii "AT+NWM=1") = ascii "AT+NWM=1" := by decide

/-- `lora_send_message` never touches the pending slot. -/
theorem lora_send_message_pending (m : lora_module_t) (io : serial1_t)
    (ty : lora_message_type_t) (payload : Option (List Nat)) (now : Nat) :
    (lora_send_message m io ty payload now).2.1.pending_message = m.pending_message := by
  cases payload with
  | none => rfl
  | some payload =>
    unfold lora_send_message
    simp only []
    have f := (lora_send_at_command_some { m with state := LORA_STATE_SENDING } io
      (snprintf 100 (ascii "AT+SEND=2:" ++ string_to_hex payload)) none 5000).2.2.2.2.1
    split_ifs <;> first | rfl | exact f

/-! ## The pending message -/

theorem process_pending_sent (m : lora_module_t) (io : serial1_t) (now : Nat)
    (hp : m.pending_message.pending = true)
    (hs : (lora_send_message m io m.pending_message.type (some m.pending_message.payload)
      now).1 = LORA_SUCCESS) :
    lora_process_pending_messages m io now
      = (LORA_SUCCESS,
          { (lora_send_message m io m.pending_message.type (some m.pending_message.payload)
              now).2.1 with
            pending_message := { m.pending_message with pending := false, retry_count := 0 } },
          (lora_send_message m io m.pending_message.type (some m.pending_message.payload)
            now).2.2) := by
  unfold lora_process_pending_messages
  rw [if_pos hp]
  simp only []
  rw [if_pos hs, lora_send_message_pending]

theorem process_pending_retry (m : lora_module_t) (io : serial1_t) (now : Nat)
    (hp : m.pending_message.pending = true)
    (hs : (lora_send_message m io m.pending_message.type (some m.pending_message.payload)
      now).1 ≠ LORA_SUCCESS)
    (hrc : (m.pending_message.retry_count + 1) % 256 < 3) :
    lora_process_pending_messages m io now
      = (LORA_SUCCESS,
          { (lora_send_message m io m.pending_message.type (some m.pending_message.payload)
              now).2.1 with
            pending_message := { m.pending_message with
              retry_count := (m.pending_message.retry_count + 1) % 256 } },
          (lora_send_message m io m.pending_message.type (some m.pending_message.payload)
            now).2.2) := by
  unfold lora_process_pending_messages
  rw [if_pos hp]
  simp only []
  rw [if_neg hs, lora_send_message_pending, if_neg (by unfold LORA_MAX_RETRY_COUNT; omega)]

theorem process_pending_dropped (m : lora_module_t) (io : serial1_t) (now : Nat)
    (hp : m.pending_message.pending = true)
    (hs : (lora_send_message m io m.pending_message.type (some m.pending_message.payload)
      now).1 ≠ LORA_SUCCESS)
    (hrc : 3 ≤ (m.pending_message.retry_count + 1) % 256) :
    lora_process_pending_messages m io now
      = (LORA_ERROR_SEND,
          { (lora_send_message m io m.pending_message.type (some m.pending_message.payload)
              now).2.1 with
            pending_message := { m.pending_message with pending := false, retry_count := 0 }
            stats := { (lora_send_message m io m.pending_message.type
                (some m.pending_message.payload) now).2.1.stats with
              messages_failed := ((lora_send_message m io m.pending_message.type
                (some m.pending_message.payload) now).2.1.stats.messages_failed + 1)
                  % 4294967296 } },
          (lora_send_message m io m.pending_message.type (some m.pending_message.payload)
            now).2.2) := by
  unfold lora_process_pending_messages
  rw [if_pos hp]
  simp only []
  rw [if_neg hs, lora_send_message_pending, if_pos (by unfold LORA_MAX_RETRY_COUNT; omega)]

/-! ## Substrings -/

/-- The search `contains_bytes` finds `needle` exactly when it is a run of
consecutive bytes of `s`. -/
theorem contains_bytes_iff_infix (s needle : List Nat) :
    contains_bytes s needle = true ↔ needle <:+: s := by
  induction s with
  | nil =>
    rw [contains_bytes, List.isPrefixOf_iff_prefix, List.prefix_nil, List.infix_nil]
  | cons c s ih =>
    rw [contains_bytes, Bool.or_eq_true, List.isPrefixOf_iff_prefix, ih, List.infix_cons_iff]

theorem strstr_iff_infix (data needle : List Nat) (hn : c_str needle = needle) :
    strstr data needle = true ↔ needle <:+: c_str data := by
  unfold strstr
  rw [hn, contains_bytes_iff_infix]

theorem lora_parse_reset_command_iff (data : List Nat) :
    lora_parse_reset_command (some data) = true ↔
      (ascii "RESET" <:+: c_str data ∨ ascii "reset" <:+: c_str data ∨
        ascii "\"cmd\":\"reset\"" <:+: c_str data ∨
        ascii "\"command\":\"reset\"" <:+: c_str data ∨
        ascii "52455345" <:+: c_str data ∨ ascii "52657365" <:+: c_str data) := by
  rw [← strstr_iff_infix data (ascii "RESET") (by decide),
    ← strstr_iff_infix data (ascii "reset") (by decide),
    ← strstr_iff_infix data (ascii "\"cmd\":\"reset\"") (by decide),
    ← strstr_iff_infix data (ascii "\"command\":\"reset\"") (by decide),
    ← strstr_iff_infix data (ascii "52455345") (by decide),
    ← strstr_iff_infix data (ascii "52657365") (by decide)]
  unfold lora_parse_reset_command
  simp only [Bool.or_eq_true]
  split_ifs <;> tauto

/-! ## Saving always comes back -/

theorem config_load_from_flash_returns (fuel : Nat) (s : Store) :
    ∃ r s', config_load_from_flash (fuel + 4) s = some (r, s') := by
  by_cases hinit : s.flash_initialized = true
  · by_cases hbad : (stored_config s).config_version ≠ CONFIG_VERSION ∨
        config_validate_checksum (stored_config s) = false
    · exact ⟨_, _, config_load_invalid fuel s hinit hbad⟩
    · rw [not_or] at hbad
      obtain ⟨hv, hc⟩ := hbad
      unfold stored_config at hv hc
      have h20 : (sizeof_system_config_t + 3) / 4 = 20 := rfl
      rw [config_load_from_flash, if_neg (by simp [hinit])]
      simp only [h20]
      rw [if_neg hv, if_neg (by simpa using hc)]
      exact ⟨_, _, rfl⟩
  · rw [config_load_from_flash, if_pos (by simpa using hinit)]
    exact ⟨_, _, rfl⟩

theorem config_save_to_flash_returns (fuel : Nat) (s : Store) :
    ∃ r s', config_save_to_flash (fuel + 5) s = some (r, s') := by
  rw [config_save_to_flash]
  by_cases hinit : s.flash_initialized = true
  · rw [if_neg (by simp [hinit])]
    simp only []
    obtain ⟨r, s', h⟩ := config_load_from_flash_returns fuel
      { s with
        system_config := { s.system_config with
          checksum := config_calculate_checksum s.system_config }
        mem := write_words s.mem FLASH_CONFIG_OFFSET 0
          ((system_config_words { s.system_config with
            checksum := config_calculate_checksum s.system_config }).take
              ((sizeof_system_config_t + 3) / 4)) }
    rw [h]
    simp only []
    split_ifs
    · exact ⟨_, _, rfl⟩
    · exact ⟨_, _, rfl⟩
  · rw [if_pos (by simpa using hinit)]
    exact ⟨_, _, rfl⟩

/-! ## The downlink command handler -/

theorem lora_process_downlink_command_reset (fuel : Nat) (w : firmware_t) (data : List Nat)
    (now now_sent : Nat) (h : lora_parse_reset_command (some data) = true) :
    ∃ r flash, config_save_to_flash (fuel + 5) w.flash = some (r, flash) ∧
      lora_process_downlink_command (fuel + 5) w (some data) now now_sent
        = some (downlink_exit_t.system_reset
            { lora_module := (lora_send_alert w.lora_module w.Serial1
                (some (ascii "Reset command received, executing reset")) now now_sent).2.1
              Serial1 := (lora_send_alert w.lora_module w.Serial1
                (some (ascii "Reset command received, executing reset")) now now_sent).2.2
              flash := flash
              gpio_module := { w.gpio_module with
                reset_control := { w.gpio_module.reset_control with
                  current_state := false, state := GPIO_STATE_OFF } }
              pins := w.pins ++ [(PIN_RESET_CONTROL, HIGH), (PIN_RESET_CONTROL, LOW)] }) := by
  obtain ⟨r, flash, hs⟩ := config_save_to_flash_returns fuel w.flash
  refine ⟨r, flash, hs, ?_⟩
  unfold lora_process_downlink_command lora_execute_reset_command
  simp only [h, if_true, hs, Option.map_some']
  simp [gpio_trigger_system_reset, digitalWrite]

theorem lora_process_downlink_command_ignored (fuel : Nat) (w : firmware_t) (data : List Nat)
    (now now_sent : Nat) (h : lora_parse_reset_command (some data) = false) :
    lora_process_downlink_command fuel w (some data) now now_sent
      = some (downlink_exit_t.returned LORA_SUCCESS w) := by
  unfold lora_process_downlink_command
  simp only [h, Bool.false_eq_true, if_false]

/-! ## The fan -/

theorem sub_u32_add_mod (a j : Nat) :
    sub_u32 ((a + j) % 4294967296) a = j % 4294967296 := by
  unfold sub_u32
  omega

theorem sub_u32_add_mod_mod (a j : Nat) :
    sub_u32 ((a + j) % 4294967296) (a % 4294967296) = j % 4294967296 := by
  unfold sub_u32
  omega

theorem gpio_fan_process_idle (g : gpio_module_t) (pins : List (Nat × Bool)) (now : Nat)
    (hen : g.fan.enabled = true)
    (h : sub_u32 now g.fan.last_toggle_time < g.fan.cycle_interval) :
    gpio_fan_process g pins now = (g, pins) := by
  unfold gpio_fan_process
  rw [if_neg (by simp [hen])]
  simp only []
  rw [if_neg (by omega)]

theorem gpio_fan_process_on (g : gpio_module_t) (pins : List (Nat × Bool)) (now : Nat)
    (hen : g.fan.enabled = true) (hoff : g.fan.current_state = false)
    (h : g.fan.cycle_interval ≤ sub_u32 now g.fan.last_toggle_time) :
    gpio_fan_process g pins now
      = ({ g with fan := { g.fan with
            current_state := true, state := GPIO_STATE_ON
            total_cycles := (g.fan.total_cycles + 1) % 4294967296
            last_toggle_time := now } },
          pins ++ [(PIN_FAN, HIGH)]) := by
  unfold gpio_fan_process
  rw [if_neg (by simp [hen])]
  simp only []
  rw [if_pos h]
  simp [hoff, digitalWrite]

theorem gpio_fan_process_off (g : gpio_module_t) (pins : List (Nat × Bool)) (now : Nat)
    (hen : g.fan.enabled = true) (hon : g.fan.current_state = true)
    (h : g.fan.cycle_interval ≤ sub_u32 now g.fan.last_toggle_time) :
    gpio_fan_process g pins now
      = ({ g with fan := { g.fan with
            current_state := false, state := GPIO_STATE_OFF
            total_on_time :=
              (g.fan.total_on_time + sub_u32 now g.fan.last_toggle_time) % 4294967296
            last_toggle_time := now } },
          pins ++ [(PIN_FAN, LOW)]) := by
  unfold gpio_fan_process
  rw [if_neg (by simp [hen])]
  simp only []
  rw [if_pos h]
  simp [hon, digitalWrite]

theorem gpio_fan_process_each_ms_eq (g0 : gpio_module_t) (p0 : List (Nat × Bool))
    (t0 C : Nat) (hen : g0.fan.enabled = true) (hoff : g0.fan.current_state = false)
    (hlast : g0.fan.last_toggle_time = t0) (hcyc : g0.fan.cycle_interval = C)
    (hon : g0.fan.total_on_time = 0) (htc : g0.fan.total_cycles = 0)
    (hC : 1 ≤ C) (hC32 : C < 4294967296) :
    ∀ k, k < 3 * C → gpio_fan_process_each_ms t0 k (g0, p0) = fan_expected g0 p0 t0 C k := by
  intro k
  induction k with
  | zero =>
    intro _
    rw [gpio_fan_process_each_ms, fan_expected, if_pos (by omega)]
  | succ k ih =>
    intro hk
    rw [gpio_fan_process_each_ms, ih (by omega)]
    by_cases h1 : k + 1 < C
    · -- before the first toggle
      rw [fan_expected, if_pos (by omega), fan_expected, if_pos h1]
      refine gpio_fan_process_idle _ _ _ (by exact hen) ?_
      rw [hlast, hcyc, sub_u32_add_mod]
      omega
    · by_cases h2 : k + 1 = C
      · -- the fan is switched on
        rw [fan_expected, if_pos (by omega), fan_expected, if_neg h1, if_pos (by omega)]
        rw [gpio_fan_process_on _ _ _ (by exact hen) (by exact hoff)
          (by rw [hlast, hcyc, sub_u32_add_mod]; omega), htc, h2]
      · by_cases h3 : k + 1 < 2 * C
        · -- the fan stays on
          rw [fan_expected, if_neg (by omega), if_pos (by omega), fan_expected, if_neg h1,
            if_pos h3]
          refine gpio_fan_process_idle _ _ _ (by exact hen) ?_
          show sub_u32 _ ((t0 + C) % 4294967296) < g0.fan.cycle_interval
          rw [hcyc]
          unfold sub_u32
          omega
        · by_cases h4 : k + 1 = 2 * C
          · -- the fan is switched off
            rw [fan_expected, if_neg (by omega), if_pos (by omega), fan_expected,
              if_neg h1, if_neg h3]
            have hel : sub_u32 ((t0 + (k + 1)) % 4294967296) ((t0 + C) % 4294967296) = C := by
              unfold sub_u32
              omega
            rw [gpio_fan_process_off _ _ _ (by exact hen) (by rfl)
              (by show g0.fan.cycle_interval ≤ sub_u32 _ ((t0 + C) % 4294967296)
                  rw [hel, hcyc])]
            rw [h4] at hel
            simp only [h4, hel, hon, Nat.zero_add, Nat.mod_eq_of_lt hC32, List.append_assoc,
              List.singleton_append]
          · -- the fan stays off
            rw [fan_expected, if_neg (by omega), if_neg (by omega), fan_expected,
              if_neg h1, if_neg h3]
            refine gpio_fan_process_idle _ _ _ (by exact hen) ?_
            show sub_u32 _ ((t0 + 2 * C) % 4294967296) < g0.fan.cycle_interval
            rw [hcyc]
            unfold sub_u32
            omega

/-! ## The checksum in the words of the specification -/

theorem checksum_step_eq_spec :
    checksum_step = fun c b => let s := (c + b) % 4294967296; s ^^^ ((s * 2) % 4294967296) := by
  funext c b
  simp only [checksum_step, Nat.shiftLeft_eq, pow_one]

theorem system_config_bytes_drop (c : system_config_t) :
    (system_config_bytes c).drop 76 = word_bytes c.checksum := rfl

theorem system_config_bytes_length (c : system_config_t) :
    (system_config_bytes c).length = 80 := rfl

theorem word_bytes_mod (v w : Nat) (h : word_bytes v = word_bytes w) :
    v % 4294967296 = w % 4294967296 := by
  simp only [word_bytes, List.cons.injEq, and_true] at h
  omega

/-- Two records whose bytes differ in exactly one place of the checksummed
region have different checksums, and the same checksum field modulo `2^32`. -/
theorem checksum_single_byte (c c' : system_config_t) (k b : Nat) (hk : k < 76)
    (hne : b ≠ (system_config_bytes c).getD k 0)
    (hset : system_config_bytes c' = (system_config_bytes c).set k b) :
    config_calculate_checksum c' ≠ config_calculate_checksum c ∧
    c'.checksum % 4294967296 = c.checksum % 4294967296 := by
  have hlen := system_config_bytes_length c
  have hlt : k < (system_config_bytes c).length := by rw [hlen]; omega
  have hlt' : k < (system_config_bytes c').length := by
    rw [system_config_bytes_length]; omega
  have hltt : k < ((system_config_bytes c).take 76).length := by
    rw [List.length_take, hlen]; omega
  have hb : b < 256 := by
    have h1 : (system_config_bytes c').getD k 0 = b := by
      rw [hset, List.getD_eq_getElem _ _ (by rw [List.length_set]; exact hlt),
        List.getElem_set_self]
    rw [← h1]
    exact words_bytes_lt (system_config_words c') _ (getD_mem_of_lt _ _ hlt')
  have hold : ((system_config_bytes c).take 76).getD k 0 < 256 := by
    apply words_bytes_lt (system_config_words c)
    exact List.mem_of_mem_take (getD_mem_of_lt _ _ hltt)
  have hget : ((system_config_bytes c).take 76).getD k 0 = (system_config_bytes c).getD k 0 := by
    rw [List.getD_eq_getElem _ _ hltt, List.getD_eq_getElem _ _ hlt, List.getElem_take]
  constructor
  · show ((system_config_bytes c').take 76).foldl checksum_step 0
      ≠ ((system_config_bytes c).take 76).foldl checksum_step 0
    rw [hset, List.set_take]
    exact checksum_fold_set_ne _ k b 0 hltt (by norm_num) hold hb (by rw [hget]; exact hne)
  · apply word_bytes_mod
    rw [← system_config_bytes_drop, ← system_config_bytes_drop, hset,
      List.drop_set_of_lt _ _ (by omega)]

/-! ## Counting and tallying the log -/

/-- What the length of the longest prefix satisfying `p` is. -/
theorem takeWhile_range'_spec (p : Nat → Bool) :
    ∀ n i, ((List.range' i n).takeWhile p).length ≤ n ∧
      (∀ j, i ≤ j → j < i + ((List.range' i n).takeWhile p).length → p j = true) ∧
      (((List.range' i n).takeWhile p).length < n →
        p (i + ((List.range' i n).takeWhile p).length) = false) := by
  intro n
  induction n with
  | zero =>
    intro i
    refine ⟨by simp, ?_, by simp⟩
    intro j h1 h2
    simp at h2
    omega
  | succ n ih =>
    intro i
    rw [List.range'_succ, List.takeWhile_cons]
    by_cases hp : p i = true
    · obtain ⟨h1, h2, h3⟩ := ih (i + 1)
      simp only [hp, if_true, List.length_cons]
      refine ⟨by omega, ?_, ?_⟩
      · intro j hj1 hj2
        by_cases hji : j = i
        · rw [hji]; exact hp
        · exact h2 j (by omega) (by omega)
      · intro hlt
        have := h3 (by omega)
        rw [show i + (((List.range' (i + 1) n).takeWhile p).length + 1)
          = i + 1 + ((List.range' (i + 1) n).takeWhile p).length by omega]
        exact this
    · simp only [hp, Bool.false_eq_true, if_false, List.length_nil]
      refine ⟨by omega, ?_, ?_⟩
      · intro j hj1 hj2; omega
      · intro _; simpa using hp

theorem flash_get_log_count_loop_eq (s : Store) (hinit : s.flash_initialized = true) :
    ∀ n i temp count, i + n ≤ MAX_LOG_ENTRIES →
      flash_get_log_count_loop s n i temp count
        = count + ((List.range' i n).takeWhile
            (fun j => (log_slot s.mem j).valid == 1)).length := by
  intro n
  induction n with
  | zero => intro i temp count _; simp [flash_get_log_count_loop]
  | succ n ih =>
    intro i temp count hi
    rw [flash_get_log_count_loop, flash_read_detection_log_eq s i temp hinit (by omega),
      List.range'_succ, List.takeWhile_cons]
    simp only []
    by_cases hv : (log_slot s.mem i).valid = 1
    · rw [if_pos hv, ih _ _ _ (by omega)]
      simp only [hv, beq_self_eq_true, if_true, List.length_cons]
      omega
    · rw [if_neg hv]
      have : ((log_slot s.mem i).valid == 1) = false := by simpa using hv
      simp only [this, Bool.false_eq_true, if_false, List.length_nil, Nat.add_zero]

/-- `flash_get_log_count` on an initialized store is the number of leading
valid slots. -/
theorem flash_get_log_count_eq (s : Store) (hinit : s.flash_initialized = true) :
    flash_get_log_count s = leading_valid_slots s.mem := by
  unfold flash_get_log_count leading_valid_slots
  rw [if_neg (by simp [hinit]), flash_get_log_count_loop_eq s hinit _ _ _ _ (by omega),
    List.range_eq_range', Nat.zero_add]

theorem leading_valid_slots_spec (mem : Nat → Nat) :
    leading_valid_slots mem ≤ MAX_LOG_ENTRIES ∧
    (∀ j, j < leading_valid_slots mem → (log_slot mem j).valid = 1) ∧
    (leading_valid_slots mem < MAX_LOG_ENTRIES →
      (log_slot mem (leading_valid_slots mem)).valid ≠ 1) := by
  have h := takeWhile_range'_spec (fun j => (log_slot mem j).valid == 1) MAX_LOG_ENTRIES 0
  unfold leading_valid_slots
  rw [List.range_eq_range']
  obtain ⟨h1, h2, h3⟩ := h
  refine ⟨h1, ?_, ?_⟩
  · intro j hj
    have := h2 j (by omega) (by omega)
    simpa using this
  · intro hlt
    have := h3 hlt
    simpa using this

theorem flash_get_log_stats_loop_eq (s : Store) (hinit : s.flash_initialized = true) :
    ∀ n i temp t l m, i + n ≤ MAX_LOG_ENTRIES →
      (∀ j, i ≤ j → j < i + n → (log_slot s.mem j).valid = 1) →
      t + n < 4294967296 → l + n < 4294967296 → m + n < 4294967296 →
      flash_get_log_stats_loop s n i temp (t, l, m)
        = (t + n,
            l + (List.range' i n).countP
              (fun j => (log_slot s.mem j).object_class == CLASS_LED_ON),
            m + (List.range' i n).countP
              (fun j => (log_slot s.mem j).object_class == CLASS_MOTHERBOARD)) := by
  intro n
  induction n with
  | zero => intro i temp t l m _ _ _ _ _; simp [flash_get_log_stats_loop]
  | succ n ih =>
    intro i temp t l m hi hv ht hl hm
    have hvi : (log_slot s.mem i).valid = 1 := hv i (by omega) (by omega)
    have hv' : ∀ j, i + 1 ≤ j → j < i + 1 + n → (log_slot s.mem j).valid = 1 :=
      fun j h1 h2 => hv j (by omega) (by omega)
    rw [flash_get_log_stats_loop, flash_read_detection_log_eq s i temp hinit (by omega),
      List.range'_succ, List.countP_cons, List.countP_cons]
    simp only []
    rw [if_pos hvi, Nat.mod_eq_of_lt (by omega : t + 1 < 4294967296)]
    by_cases hled : (log_slot s.mem i).object_class = CLASS_LED_ON
    · have hmb : ¬ (log_slot s.mem i).object_class = CLASS_MOTHERBOARD := by
        rw [hled]; decide
      rw [if_pos hled, Nat.mod_eq_of_lt (by omega : l + 1 < 4294967296),
        ih _ _ _ _ _ (by omega) hv' (by omega) (by omega) (by omega)]
      simp only [hled, beq_self_eq_true, if_true, Prod.mk.injEq]
      refine ⟨by omega, by omega, ?_⟩
      have : (CLASS_LED_ON == CLASS_MOTHERBOARD) = false := by decide
      simp only [this, Bool.false_eq_true, if_false, Nat.add_zero]
    · rw [if_neg hled]
      have hledb : ((log_slot s.mem i).object_class == CLASS_LED_ON) = false := by
        simpa using hled
      by_cases hmb : (log_slot s.mem i).object_class = CLASS_MOTHERBOARD
      · rw [if_pos hmb, Nat.mod_eq_of_lt (by omega : m + 1 < 4294967296),
          ih _ _ _ _ _ (by omega) hv' (by omega) (by omega) (by omega)]
        have hml : (CLASS_MOTHERBOARD == CLASS_LED_ON) = false := by decide
        simp only [hmb, hml, beq_self_eq_true, if_true, Bool.false_eq_true, if_false,
          Prod.mk.injEq, Nat.add_zero]
        refine ⟨by omega, trivial, by omega⟩
      · have hmbb : ((log_slot s.mem i).object_class == CLASS_MOTHERBOARD) = false := by
          simpa using hmb
        rw [if_neg hmb, ih _ _ _ _ _ (by omega) hv' (by omega) (by omega) (by omega)]
        simp only [hledb, hmbb, Bool.false_eq_true, if_false, Nat.add_zero]
        congr 1
        omega

/-- Two disjoint tallies over a list do not exceed its length. -/
theorem countP_add_le (p q : Nat → Bool) (hpq : ∀ j, p j = true → q j = false) :
    ∀ l : List Nat, l.countP p + l.countP q ≤ l.length := by
  intro l
  induction l with
  | nil => simp
  | cons a l ih =>
    rw [List.countP_cons, List.countP_cons, List.length_cons]
    by_cases hp : p a = true
    · simp only [hp, hpq a hp, if_true, Bool.false_eq_true, if_false]; omega
    · have hp0 : (if p a = true then 1 else 0) = 0 := if_neg hp
      have hq1 : (if q a = true then 1 else 0) ≤ 1 := by split_ifs <;> omega
      omega

/-! ## Clearing the log -/

theorem read_words_cleared (mem : Nat → Nat) (i : Nat) (hi : i < MAX_LOG_ENTRIES) :
    read_words (write_words mem FLASH_LOG_OFFSET 0
        (List.replicate ((MAX_LOG_ENTRIES * sizeof_detection_result_t + 3) / 4) 0))
      (FLASH_LOG_OFFSET + i * sizeof_detection_result_t) 8 = List.replicate 8 0 := by
  have hM : MAX_LOG_ENTRIES = 117 := rfl
  have hS : sizeof_detection_result_t = 32 := rfl
  rw [hM] at hi
  apply List.ext_getElem
  · simp [read_words]
  · intro j h1 h2
    simp only [read_words_length] at h1
    simp only [read_words, List.getElem_map, List.getElem_range, readWord, List.getElem_replicate]
    rw [write_words_apply, List.length_replicate, hM, hS]
    rw [if_pos (by omega)]
    rw [List.getD_eq_getElem _ _ (by rw [List.length_replicate]; omega), List.getElem_replicate]

theorem log_slot_cleared (mem : Nat → Nat) (i : Nat) (hi : i < MAX_LOG_ENTRIES) :
    log_slot (write_words mem FLASH_LOG_OFFSET 0
        (List.replicate ((MAX_LOG_ENTRIES * sizeof_detection_result_t + 3) / 4) 0)) i
      = ⟨0, 0, 0, 0, 0, 0, 0, 0, 0, 0⟩ := by
  unfold log_slot
  rw [read_words_cleared mem i hi]
  rfl

theorem flash_clear_logs_eq (s : Store) (hinit : s.flash_initialized = true) :
    flash_clear_logs s
      = (FLASH_SUCCESS,
          { s with
            mem := write_words s.mem FLASH_LOG_OFFSET 0
              (List.replicate ((MAX_LOG_ENTRIES * sizeof_detection_result_t + 3) / 4) 0)
            current_log_index := 0
            system_config := { s.system_config with total_detections := 0 } }) := by
  unfold flash_clear_logs
  rw [if_neg (by simp [hinit])]

theorem leading_valid_slots_of_first_invalid (mem : Nat → Nat)
    (h : (log_slot mem 0).valid ≠ 1) : leading_valid_slots mem = 0 := by
  by_contra hne
  exact h ((leading_valid_slots_spec mem).2.1 0 (by omega))

/-! ## A transaction that runs into the timeout -/

theorem success_test_eq (text : List Nat) :
    (text == ascii "OK" || contains_bytes text (ascii "OK") ||
      (ascii "+").isPrefixOf text || contains_bytes text (ascii "EVT:")) = success_line text := by
  unfold success_line
  by_cases h : text = ascii "OK"
  · rw [h]; decide
  · have : (text == ascii "OK") = false := by simpa using h
    rw [this, Bool.false_or]

theorem lora_at_read_loop_unclassified (rest : List Nat) (hrest : ∀ c ∈ rest, c ≠ 10)
    (lines : List (List Nat)) :
    ∀ (m : lora_module_t) (response : Option (List Nat)) (got : Bool),
      m.response_buffer = [] → m.response_index = 0 →
      (∀ l ∈ lines, ∀ c ∈ l, c ≠ 10) →
      (∀ l ∈ lines, buffered_line l ≠ [] →
        success_line (response_text l) = false ∧ failure_line (response_text l) = false) →
      (lora_at_read_loop (line_bytes lines rest) m response got).1
        = if (got || lines.any (fun l => decide (buffered_line l ≠ []))) = true
          then LORA_SUCCESS else LORA_ERROR_TIMEOUT := by
  induction lines with
  | nil =>
    intro m response got hb hi _ _
    have h := lora_at_read_loop_line rest m response got [] hrest (by rw [hb, hi]; rfl)
      (by rw [hb]; exact Nat.zero_le _)
    unfold line_bytes
    rw [List.map_nil, List.flatten_nil, List.nil_append]
    rw [List.append_nil] at h
    rw [h, lora_at_read_loop, List.any_nil, Bool.or_false]
  | cons l ls ih =>
    intro m response got hb hi hl hnone
    have hl1 : ∀ c ∈ l, c ≠ 10 := hl l (List.mem_cons_self _ _)
    have hls : ∀ l ∈ ls, ∀ c ∈ l, c ≠ 10 := fun x hx => hl x (List.mem_cons_of_mem _ hx)
    have hnone' : ∀ l ∈ ls, buffered_line l ≠ [] →
        success_line (response_text l) = false ∧ failure_line (response_text l) = false :=
      fun x hx => hnone x (List.mem_cons_of_mem _ hx)
    have hsplit : line_bytes (l :: ls) rest = l ++ 10 :: line_bytes ls rest := by
      unfold line_bytes
      simp only [List.map_cons, List.flatten_cons, List.append_assoc, List.singleton_append,
        List.cons_append, List.nil_append]
    have h := lora_at_read_loop_line l m response got (10 :: line_bytes ls rest) hl1
      (by rw [hb, hi]; rfl) (by rw [hb]; exact Nat.zero_le _)
    rw [hsplit, h, hb, List.nil_append, lora_at_read_loop, if_pos rfl, List.any_cons]
    simp only []
    by_cases hne : buffered_line l ≠ []
    · have hpos : (List.take 255 (List.filter (fun c => c != 13) l)).length > 0 :=
        List.length_pos.mpr hne
      obtain ⟨hs, hf⟩ := hnone l (List.mem_cons_self _ _) hne
      unfold response_text buffered_line at hs hf
      unfold failure_line at hf
      rw [if_pos hpos, success_test_eq, hs, hf]
      simp only [Bool.false_eq_true, if_false]
      rw [ih _ _ true rfl rfl hls hnone']
      rw [if_pos (by simp), if_pos (by simp [hne])]
    · have hnil : List.take 255 (List.filter (fun c => c != 13) l) = [] := by
        simpa [buffered_line] using hne
      rw [hnil, if_neg (by simp)]
      rw [ih _ _ got rfl rfl hls hnone']
      have hd : decide (buffered_line l ≠ []) = false := by simpa using hne
      rw [hd, Bool.false_or]

/-! ## The laser -/

theorem gpio_laser_update_detection_qualifying (g : gpio_module_t) (cfg : system_config_t)
    (conf d : Nat) (hq : float_ge conf cfg.motherboard_threshold = true) :
    gpio_laser_update_detection g cfg conf d
      = { g with crosshair_laser := { g.crosshair_laser with
            motherboard_confidence := conf, last_detection_time := d } } := by
  unfold gpio_laser_update_detection
  simp only [hq, if_true]

theorem gpio_laser_process_suppressed (g : gpio_module_t) (pins : List (Nat × Bool))
    (now : Nat) (hen : g.crosshair_laser.enabled = true)
    (hd : 0 < g.crosshair_laser.last_detection_time)
    (hwin : sub_u32 now g.crosshair_laser.last_detection_time
      ≤ g.crosshair_laser.detection_timeout) :
    gpio_laser_process g pins now
      = (if g.crosshair_laser.current_state = true then
          ({ g with crosshair_laser := { g.crosshair_laser with
              should_blink := false, current_state := false, state := GPIO_STATE_OFF } },
            pins ++ [(PIN_CROSSHAIR_LASER, LOW)])
        else
          ({ g with crosshair_laser := { g.crosshair_laser with should_blink := false } },
            pins)) := by
  unfold gpio_laser_process
  rw [if_neg (by simp [hen])]
  simp only []
  rw [if_pos hd, if_neg (not_lt.mpr hwin)]
  simp only [Bool.false_eq_true, if_false]
  by_cases hc : g.crosshair_laser.current_state = true
  · rw [if_pos hc, if_pos hc]; rfl
  · rw [if_neg hc, if_neg hc]

theorem gpio_laser_process_free (g : gpio_module_t) (pins : List (Nat × Bool))
    (now : Nat) (hen : g.crosshair_laser.enabled = true)
    (hno : g.crosshair_laser.last_detection_time = 0 ∨
      g.crosshair_laser.detection_timeout
        < sub_u32 now g.crosshair_laser.last_detection_time) :
    gpio_laser_process g pins now
      = (if g.crosshair_laser.blink_interval ≤ sub_u32 now g.crosshair_laser.last_blink_time
        then
          ({ g with crosshair_laser := { g.crosshair_laser with
              should_blink := true, current_state := !g.crosshair_laser.current_state
              state := GPIO_STATE_BLINKING, last_blink_time := now } },
            pins ++ [(PIN_CROSSHAIR_LASER, !g.crosshair_laser.current_state)])
        else
          ({ g with crosshair_laser := { g.crosshair_laser with should_blink := true } },
            pins)) := by
  have hcase : ¬ g.crosshair_laser.last_detection_time > 0 ∨
      (g.crosshair_laser.last_detection_time > 0 ∧
        sub_u32 now g.crosshair_laser.last_detection_time
          > g.crosshair_laser.detection_timeout) := by
    rcases hno with h0 | hout
    · exact Or.inl (by omega)
    · by_cases hpos : g.crosshair_laser.last_detection_time > 0
      · exact Or.inr ⟨hpos, hout⟩
      · exact Or.inl hpos
  unfold gpio_laser_process
  rw [if_neg (by simp [hen])]
  simp only []
  by_cases hint : g.crosshair_laser.blink_interval
      ≤ sub_u32 now g.crosshair_laser.last_blink_time
  · rw [if_pos hint]
    rcases hcase with h0 | ⟨hpos, hout⟩
    · rw [if_neg h0]
      simp only [if_true, ge_iff_le, hint, digitalWrite, HIGH, LOW]
      cases g.crosshair_laser.current_state <;> rfl
    · rw [if_pos hpos, if_pos hout]
      simp only [if_true, ge_iff_le, hint, digitalWrite, HIGH, LOW]
      cases g.crosshair_laser.current_state <;> rfl
  · rw [if_neg hint]
    rcases hcase with h0 | ⟨hpos, hout⟩
    · rw [if_neg h0]
      simp only [if_true, ge_iff_le, hint, if_false]
    · rw [if_pos hpos, if_pos hout]
      simp only [if_true, ge_iff_le, hint, if_false]

/-! ## The on-time of the fan -/

theorem pin_level_write (pins : List (Nat × Bool)) (pin : Nat) (level : Bool) :
    pin_level (pins ++ [(pin, level)]) pin = level := by
  unfold pin_level
  simp

/-- One call of `gpio_fan_process` at a time `t` not before the last toggle:
the pin follows `current_state`, and the on-time accounted so far, the open
on-interval included, grows by the time the fan was on since `tc`. -/
theorem gpio_fan_process_accounting (g : gpio_module_t) (pins : List (Nat × Bool))
    (tc t : Nat) (hen : g.fan.enabled = true)
    (hpin : pin_level pins PIN_FAN = g.fan.current_state)
    (hL : g.fan.last_toggle_time ≤ tc) (htc : tc ≤ t) (ht : t < 4294967296)
    (hacc : g.fan.total_on_time
      + (if g.fan.current_state = true then tc - g.fan.last_toggle_time else 0) ≤ tc) :
    (gpio_fan_process g pins t).1.fan.enabled = true ∧
    pin_level (gpio_fan_process g pins t).2 PIN_FAN
      = (gpio_fan_process g pins t).1.fan.current_state ∧
    (gpio_fan_process g pins t).1.fan.last_toggle_time ≤ t ∧
    (gpio_fan_process g pins t).1.fan.total_on_time
      + (if (gpio_fan_process g pins t).1.fan.current_state = true
          then t - (gpio_fan_process g pins t).1.fan.last_toggle_time else 0)
      = g.fan.total_on_time
        + (if g.fan.current_state = true then tc - g.fan.last_toggle_time else 0)
        + (if g.fan.current_state = true then t - tc else 0) := by
  have hsub : sub_u32 t g.fan.last_toggle_time = t - g.fan.last_toggle_time :=
    sub_u32_of_le t _ ht (by omega)
  by_cases hint : g.fan.cycle_interval ≤ sub_u32 t g.fan.last_toggle_time
  · by_cases hc : g.fan.current_state = true
    · rw [gpio_fan_process_off g pins t hen hc hint, hsub]
      rw [if_pos hc] at hacc
      dsimp only
      simp only [if_pos hc, Bool.false_eq_true, if_false]
      refine ⟨hen, pin_level_write _ _ _, le_refl _, ?_⟩
      rw [Nat.mod_eq_of_lt (by omega)]
      omega
    · have hc' : g.fan.current_state = false := by simpa using hc
      rw [gpio_fan_process_on g pins t hen hc' hint]
      dsimp only
      simp only [if_neg hc, if_true]
      refine ⟨hen, pin_level_write _ _ _, le_refl _, ?_⟩
      omega
  · rw [gpio_fan_process_idle g pins t hen (by omega)]
    dsimp only
    refine ⟨hen, hpin, by omega, ?_⟩
    by_cases hc : g.fan.current_state = true
    · simp only [if_pos hc] at hacc ⊢
      omega
    · simp only [if_neg hc]

theorem gpio_fan_get_on_time_eq (times : List Nat) :
    ∀ (g : gpio_module_t) (pins : List (Nat × Bool)) (tc now : Nat),
      g.fan.enabled = true → pin_level pins PIN_FAN = g.fan.current_state →
      g.fan.last_toggle_time ≤ tc → List.Chain (fun a b => a ≤ b) tc times →
      (∀ t ∈ times, t ≤ now) → tc ≤ now → now < 4294967296 →
      g.fan.total_on_time
        + (if g.fan.current_state = true then tc - g.fan.last_toggle_time else 0) ≤ tc →
      gpio_fan_get_on_time (gpio_fan_process_trace times (g, pins)).1.1 now
        = g.fan.total_on_time
          + (if g.fan.current_state = true then tc - g.fan.last_toggle_time else 0)
          + high_time tc (pin_level pins PIN_FAN) (gpio_fan_process_trace times (g, pins)).2
              now := by
  induction times with
  | nil =>
    intro g pins tc now hen hpin hL _ _ htn hnow hacc
    have hsub : sub_u32 now g.fan.last_toggle_time = now - g.fan.last_toggle_time :=
      sub_u32_of_le now _ hnow (by omega)
    simp only [gpio_fan_process_trace, high_time, gpio_fan_get_on_time, hpin, hsub]
    by_cases hc : g.fan.current_state = true
    · simp only [hc, if_true] at hacc ⊢
      rw [Nat.mod_eq_of_lt (by omega)]
      omega
    · have hc' : g.fan.current_state = false := by simpa using hc
      simp only [hc', Bool.false_eq_true, if_false]
      omega
  | cons t ts ih =>
    intro g pins tc now hen hpin hL hchain hall htn hnow hacc
    rw [List.chain_cons] at hchain
    obtain ⟨htc, hchain'⟩ := hchain
    have htnow : t ≤ now := hall t (List.mem_cons_self _ _)
    obtain ⟨e1, e2, e3, e4⟩ := gpio_fan_process_accounting g pins tc t hen hpin hL htc
      (by omega) hacc
    have hacc' : (gpio_fan_process g pins t).1.fan.total_on_time
        + (if (gpio_fan_process g pins t).1.fan.current_state = true
            then t - (gpio_fan_process g pins t).1.fan.last_toggle_time else 0) ≤ t := by
      rw [e4]
      by_cases hc : g.fan.current_state = true
      · simp only [if_pos hc] at hacc ⊢; omega
      · simp only [if_neg hc] at hacc ⊢; omega
    have h := ih (gpio_fan_process g pins t).1 (gpio_fan_process g pins t).2 t now e1 e2 e3
      hchain' (fun x hx => hall x (List.mem_cons_of_mem _ hx)) htnow hnow hacc'
    simp only [Prod.mk.eta] at h
    simp only [gpio_fan_process_trace, high_time]
    rw [h, e4, hpin]
    omega

/-! ## The burst patterns of the status LED -/

theorem toggle_writes_succ (pin : Nat) (level : Bool) (n : Nat) :
    toggle_writes pin level (n + 1)
      = toggle_writes pin level n ++ [(pin, if n % 2 = 0 then !level else level)] := by
  unfold toggle_writes
  rw [List.range_succ, List.map_append]
  rfl

/-- Nothing happens in a burst pattern before an eighth of the interval. -/
theorem gpio_status_led_process_burst_wait (LED : Nat) (g : gpio_module_t)
    (pins : List (Nat × Bool)) (now : Nat) (hen : g.status_led.enabled = true)
    (hpat : g.status_led.blink_pattern = LED_PATTERN_DOUBLE_BLINK ∨
      g.status_led.blink_pattern = LED_PATTERN_TRIPLE_BLINK)
    (h : sub_u32 now g.status_led.last_blink_time < g.status_led.blink_interval / 8) :
    gpio_status_led_process LED g pins now = (g, pins) := by
  unfold gpio_status_led_process
  rw [if_neg (by simp [hen])]
  simp only []
  rw [if_neg (by rcases hpat with h | h <;> rw [h] <;> decide),
    if_neg (by rcases hpat with h | h <;> rw [h] <;> decide),
    if_neg (by rcases hpat with h | h <;> rw [h] <;> decide),
    if_neg (by rcases hpat with h | h <;> rw [h] <;> decide),
    if_pos hpat, if_neg (by omega)]

/-- One toggle of a burst. -/
theorem gpio_status_led_process_burst_toggle (LED : Nat) (g : gpio_module_t)
    (pins : List (Nat × Bool)) (now B : Nat) (hen : g.status_led.enabled = true)
    (hpat : g.status_led.blink_pattern = LED_PATTERN_DOUBLE_BLINK ∨
      g.status_led.blink_pattern = LED_PATTERN_TRIPLE_BLINK)
    (hB : (if g.status_led.blink_pattern = LED_PATTERN_DOUBLE_BLINK then 4 else 6) = B)
    (h : g.status_led.blink_interval / 8 ≤ sub_u32 now g.status_led.last_blink_time)
    (hidx : g.status_led.pattern_index < B) :
    gpio_status_led_process LED g pins now
      = ({ g with status_led := { g.status_led with
            current_state := !g.status_led.current_state
            pattern_index := (g.status_led.pattern_index + 1) % 256 } },
          pins ++ [(LED, !g.status_led.current_state)]) := by
  unfold gpio_status_led_process
  rw [if_neg (by simp [hen])]
  simp only []
  rw [if_neg (by rcases hpat with h | h <;> rw [h] <;> decide),
    if_neg (by rcases hpat with h | h <;> rw [h] <;> decide),
    if_neg (by rcases hpat with h | h <;> rw [h] <;> decide),
    if_neg (by rcases hpat with h | h <;> rw [h] <;> decide),
    if_pos hpat, if_pos h, hB, if_pos hidx]
  simp only [digitalWrite, HIGH, LOW]
  cases g.status_led.current_state <;> rfl

/-- After the burst: nothing until the interval has elapsed, then the index
returns to 0 and the timer restarts. -/
theorem gpio_status_led_process_burst_done (LED : Nat) (g : gpio_module_t)
    (pins : List (Nat × Bool)) (now B : Nat) (hen : g.status_led.enabled = true)
    (hpat : g.status_led.blink_pattern = LED_PATTERN_DOUBLE_BLINK ∨
      g.status_led.blink_pattern = LED_PATTERN_TRIPLE_BLINK)
    (hB : (if g.status_led.blink_pattern = LED_PATTERN_DOUBLE_BLINK then 4 else 6) = B)
    (h : g.status_led.blink_interval / 8 ≤ sub_u32 now g.status_led.last_blink_time)
    (hidx : B ≤ g.status_led.pattern_index) :
    gpio_status_led_process LED g pins now
      = (if g.status_led.blink_interval ≤ sub_u32 now g.status_led.last_blink_time then
          ({ g with status_led := { g.status_led with
              pattern_index := 0, last_blink_time := now } }, pins)
        else (g, pins)) := by
  unfold gpio_status_led_process
  rw [if_neg (by simp [hen])]
  simp only []
  rw [if_neg (by rcases hpat with h | h <;> rw [h] <;> decide),
    if_neg (by rcases hpat with h | h <;> rw [h] <;> decide),
    if_neg (by rcases hpat with h | h <;> rw [h] <;> decide),
    if_neg (by rcases hpat with h | h <;> rw [h] <;> decide),
    if_pos hpat, if_pos h, hB, if_neg (by omega)]

/-- One burst period, millisecond by millisecond. -/
theorem led_burst_period (LED : Nat) (g : gpio_module_t) (p : List (Nat × Bool))
    (T I B : Nat) (hen : g.status_led.enabled = true)
    (hpat : g.status_led.blink_pattern = LED_PATTERN_DOUBLE_BLINK ∨
      g.status_led.blink_pattern = LED_PATTERN_TRIPLE_BLINK)
    (hB : (if g.status_led.blink_pattern = LED_PATTERN_DOUBLE_BLINK then 4 else 6) = B)
    (hI : g.status_led.blink_interval = I) (hI8 : 8 ≤ I) (hI32 : I < 4294967296)
    (hidx : g.status_led.pattern_index = 0)
    (hlast : g.status_led.last_blink_time = T % 4294967296) :
    ∀ k, k ≤ I →
      gpio_status_led_process_each_ms LED T k (g, p) = led_burst_expected LED g p T I B k := by
  have hB46 : B = 4 ∨ B = 6 := by
    rcases hpat with h | h
    · left; rw [← hB, if_pos h]
    · right; rw [← hB, if_neg (by rw [h]; decide)]
  have hBe : B % 2 = 0 := by rcases hB46 with h | h <;> rw [h]
  intro k
  induction k with
  | zero =>
    intro _
    rw [gpio_status_led_process_each_ms, led_burst_expected, if_pos (by omega)]
  | succ k ih =>
    intro hk
    have hel : sub_u32 ((T + (k + 1)) % 4294967296) (T % 4294967296) = k + 1 := by
      rw [sub_u32_add_mod_mod, Nat.mod_eq_of_lt (by omega)]
    rw [gpio_status_led_process_each_ms, ih (by omega)]
    by_cases h1 : k + 1 < I / 8
    · -- still waiting for the burst
      rw [led_burst_expected, if_pos (by omega), led_burst_expected, if_pos h1]
      refine gpio_status_led_process_burst_wait LED _ _ _ (by exact hen) (by exact hpat) ?_
      rw [hlast, hel, hI]
      exact h1
    · by_cases h2 : k < I / 8
      · -- the first toggle
        have hmin : min (k + 1 - I / 8 + 1) B = 1 := by omega
        rw [led_burst_expected, if_pos h2, led_burst_expected, if_neg h1, if_pos (by omega),
          hmin]
        rw [gpio_status_led_process_burst_toggle LED _ _ _ B (by exact hen) (by exact hpat)
          (by exact hB) (by rw [hlast, hel, hI]; omega) (by rw [hidx]; omega)]
        rw [hidx]
        rfl
      · by_cases h3 : k + 1 < I
        · by_cases h4 : k - I / 8 + 1 < B
          · -- a further toggle
            have hmin : min (k - I / 8 + 1) B = k - I / 8 + 1 := by omega
            have hmin' : min (k + 1 - I / 8 + 1) B = k - I / 8 + 1 + 1 := by omega
            rw [led_burst_expected, if_neg h2, if_pos (by omega), led_burst_expected,
              if_neg h1, if_pos h3, hmin, hmin']
            rw [gpio_status_led_process_burst_toggle LED _ _ _ B (by exact hen)
              (by exact hpat) (by exact hB)
              (by show g.status_led.blink_interval / 8 ≤ sub_u32 _ g.status_led.last_blink_time
                  rw [hlast, hel, hI]; omega)
              (by exact h4)]
            dsimp only
            rw [Nat.mod_eq_of_lt (by omega : k - I / 8 + 1 + 1 < 256),
              toggle_writes_succ LED g.status_led.current_state (k - I / 8 + 1),
              List.append_assoc]
            by_cases hp : (k - I / 8 + 1) % 2 = 0
            · have hp' : ¬ (k - I / 8 + 1 + 1) % 2 = 0 := by omega
              simp only [if_pos hp, if_neg hp']
            · have hp' : (k - I / 8 + 1 + 1) % 2 = 0 := by omega
              simp only [if_neg hp, if_pos hp', Bool.not_not]
          · -- the burst is over, the interval not yet
            have hmin : min (k - I / 8 + 1) B = B := by omega
            have hmin' : min (k + 1 - I / 8 + 1) B = B := by omega
            rw [led_burst_expected, if_neg h2, if_pos (by omega), led_burst_expected,
              if_neg h1, if_pos h3, hmin, hmin']
            rw [gpio_status_led_process_burst_done LED _ _ _ B (by exact hen)
              (by exact hpat) (by exact hB)
              (by show g.status_led.blink_interval / 8 ≤ sub_u32 _ g.status_led.last_blink_time
                  rw [hlast, hel, hI]; omega)
              (by exact le_refl B)]
            rw [if_neg (by
              show ¬ g.status_led.blink_interval ≤ sub_u32 _ g.status_led.last_blink_time
              rw [hlast, hel, hI]; omega)]
        · -- the interval has elapsed
          have hkI : k + 1 = I := by omega
          have hmin : min (k - I / 8 + 1) B = B := by
            rcases hB46 with h | h <;> omega
          rw [led_burst_expected, if_neg h2, if_pos (by omega), led_burst_expected,
            if_neg h1, if_neg h3, hmin]
          rw [gpio_status_led_process_burst_done LED _ _ _ B (by exact hen)
            (by exact hpat) (by exact hB)
            (by show g.status_led.blink_interval / 8 ≤ sub_u32 _ g.status_led.last_blink_time
                rw [hlast, hel, hI]; omega)
            (by exact le_refl B)]
          rw [if_pos (by
            show g.status_led.blink_interval ≤ sub_u32 _ g.status_led.last_blink_time
            rw [hlast, hel, hI]; omega)]
          dsimp only
          simp only [if_pos hBe, hkI]

theorem gpio_status_led_process_each_ms_add (LED T a : Nat)
    (st : gpio_module_t × List (Nat × Bool)) :
    ∀ b, gpio_status_led_process_each_ms LED T (a + b) st
      = gpio_status_led_process_each_ms LED (T + a) b
          (gpio_status_led_process_each_ms LED T a st) := by
  intro b
  induction b with
  | zero => rfl
  | succ b ih =>
    rw [← Nat.add_assoc, gpio_status_led_process_each_ms, ih, gpio_status_led_process_each_ms,
      show T + (a + b + 1) = T + a + (b + 1) by omega]

theorem toggle_writes_length (pin : Nat) (level : Bool) (n : Nat) :
    (toggle_writes pin level n).length = n := by
  simp [toggle_writes]

/-- The state after `n` whole burst periods. -/
theorem led_burst_periods (LED : Nat) (g : gpio_module_t) (p : List (Nat × Bool))
    (pattern t I B : Nat) (hen : g.status_led.enabled = true)
    (hpat : (pattern = LED_PATTERN_DOUBLE_BLINK ∧ B = 4) ∨
      (pattern = LED_PATTERN_TRIPLE_BLINK ∧ B = 6))
    (hI : g.status_led.blink_interval = I) (hI8 : 8 ≤ I) (hI32 : I < 4294967296) :
    ∀ n, gpio_status_led_process_each_ms LED t (n * I) (led_period_start g pattern t I 0, p)
      = (led_period_start g pattern t I n,
          p ++ (List.replicate n (toggle_writes LED g.status_led.current_state B)).flatten) := by
  have hpat' : pattern = LED_PATTERN_DOUBLE_BLINK ∨ pattern = LED_PATTERN_TRIPLE_BLINK := by
    rcases hpat with h | h
    · exact Or.inl h.1
    · exact Or.inr h.1
  have hB : (if pattern = LED_PATTERN_DOUBLE_BLINK then 4 else 6) = B := by
    rcases hpat with h | h
    · rw [if_pos h.1, h.2]
    · rw [if_neg (by rw [h.1]; decide), h.2]
  intro n
  induction n with
  | zero =>
    rw [Nat.zero_mul, gpio_status_led_process_each_ms, List.replicate_zero, List.flatten_nil,
      List.append_nil]
  | succ n ih =>
    rw [Nat.succ_mul, gpio_status_led_process_each_ms_add, ih,
      led_burst_period LED (led_period_start g pattern t I n) _ (t + n * I) I B
        (by exact hen) (by exact hpat') (by exact hB) (by exact hI) hI8 hI32 rfl rfl I
        (le_refl _),
      led_burst_expected, if_neg (by omega), if_neg (by omega)]
    have hrep : (List.replicate (n + 1) (toggle_writes LED g.status_led.current_state B)).flatten
        = (List.replicate n (toggle_writes LED g.status_led.current_state B)).flatten
          ++ toggle_writes LED g.status_led.current_state B := by
      rw [List.replicate_succ', List.flatten_append, List.flatten_singleton]
    rw [hrep, List.append_assoc]
    unfold led_period_start
    rw [show t + (n + 1) * I = t + n * I + I by rw [Nat.succ_mul]; omega]

/-! ## The console setters -/

theorem int_to_u32_of_range (x : Int) (h0 : 0 ≤ x) (h1 : x < 4294967296) :
    int_to_u32 x = x.toNat := by
  unfold int_to_u32
  rw [Int.emod_eq_of_lt h0 h1]

theorem int_to_u32_mul_1000 (x : Int) (h0 : 0 ≤ x) (h1 : x ≤ 3600) :
    int_to_u32 (x * 1000) = x.toNat * 1000 := by
  rw [int_to_u32_of_range _ (by omega) (by omega)]
  omega

theorem set_motherboard_count_threshold_eq (mc : motherboard_counter_t)
    (cfg : system_config_t) (value : Option (List Nat)) :
    set_motherboard_count_threshold mc cfg value
      = (if is_numeric_value value = true ∧ 1 ≤ parse_int_value value ∧
            parse_int_value value ≤ 1000 then
          (CMD_SUCCESS, { mc with count_threshold := (parse_int_value value).toNat },
            { cfg with motherboard_count_threshold := (parse_int_value value).toNat })
        else (CMD_ERROR_INVALID_VALUE, mc, cfg)) := by
  unfold set_motherboard_count_threshold
  by_cases hn : is_numeric_value value = true
  · rw [if_neg (by simp [hn])]
    simp only []
    by_cases hr : 1 ≤ parse_int_value value ∧ parse_int_value value ≤ 1000
    · rw [if_neg (by omega), int_to_u32_of_range _ (by omega) (by omega), set_threshold_eq,
        if_pos (show 1 ≤ (parse_int_value value).toNat ∧ (parse_int_value value).toNat ≤ 1000
          by omega)]
      dsimp only
      rw [if_pos rfl, if_pos ⟨hn, hr⟩]
    · rw [if_pos (by omega), if_neg (fun h => hr h.2)]
  · rw [if_pos (by simpa using hn), if_neg (fun h => hn h.1)]

theorem set_motherboard_count_window_eq (mc : motherboard_counter_t)
    (cfg : system_config_t) (value : Option (List Nat)) :
    set_motherboard_count_window mc cfg value
      = (if is_numeric_value value = true ∧ 1 ≤ parse_int_value value ∧
            parse_int_value value ≤ 300 then
          (CMD_SUCCESS, { mc with time_window_ms := (parse_int_value value).toNat * 1000 },
            { cfg with
              motherboard_count_window_ms := (parse_int_value value).toNat * 1000 })
        else (CMD_ERROR_INVALID_VALUE, mc, cfg)) := by
  unfold set_motherboard_count_window
  by_cases hn : is_numeric_value value = true
  · rw [if_neg (by simp [hn])]
    simp only []
    by_cases hr : 1 ≤ parse_int_value value ∧ parse_int_value value ≤ 300
    · rw [if_neg (by omega), int_to_u32_of_range _ (by omega) (by omega), set_window_eq,
        if_pos (show 1 ≤ (parse_int_value value).toNat ∧ (parse_int_value value).toNat ≤ 300
          by omega)]
      dsimp only
      rw [if_pos rfl, if_pos ⟨hn, hr⟩]
    · rw [if_pos (by omega), if_neg (fun h => hr h.2)]
  · rw [if_pos (by simpa using hn), if_neg (fun h => hn h.1)]

/-! ## The ring invariant and checks that cannot fire -/

theorem ring_invariant_add_detection (mc : motherboard_counter_t) (t : Nat)
    (h : ring_invariant mc) : ring_invariant (motherboard_counter_add_detection mc t) := by
  obtain ⟨h1, h2, h3⟩ := h
  unfold MOTHERBOARD_DETECTION_BUFFER_SIZE at h1 h2 h3
  unfold motherboard_counter_add_detection ring_invariant MOTHERBOARD_DETECTION_BUFFER_SIZE
  by_cases hen : mc.enabled = true
  · rw [if_neg (by simp [hen])]
    refine ⟨Nat.mod_lt _ (by norm_num), ?_, ?_⟩
    · show (if mc.buffer_count < 100 then mc.buffer_count + 1 else mc.buffer_count) ≤ 100
      split_ifs <;> omega
    · show (mc.detection_timestamps.set mc.buffer_index t).length = 100
      rw [List.length_set]; exact h3
  · rw [if_pos (by simpa using hen)]
    exact ⟨h1, h2, h3⟩

theorem ring_invariant_check_trigger (mc : motherboard_counter_t) (cfg : system_config_t)
    (now : Nat) (h : ring_invariant mc) :
    ring_invariant (motherboard_counter_check_trigger mc cfg now).2.1 := by
  by_cases hr : (motherboard_counter_check_trigger mc cfg now).1 = true
  · rw [check_trigger_of_true mc cfg now hr]
    exact h
  · rw [check_trigger_of_false mc cfg now (by simpa using hr)]
    exact h

/-- A check that has to return false whatever happens before it. -/
theorem run_counter_events_all_false (I : motherboard_counter_t → Prop)
    (ok : Nat → Prop)
    (hadd : ∀ mc t, I mc → I (motherboard_counter_add_detection mc t))
    (hcheck : ∀ mc cfg now, I mc → ok now →
      (motherboard_counter_check_trigger mc cfg now).1 = false)
    (es : List counter_event) :
    ∀ st : motherboard_counter_t × system_config_t, I st.1 →
      (∀ now, counter_event.check now ∈ es → ok now) →
      (∀ b ∈ (run_counter_events st es).1, b = false) ∧
      (run_counter_events st es).2
        = ((event_detections es).foldl motherboard_counter_add_detection st.1, st.2) := by
  induction es with
  | nil => intro st _ _; exact ⟨by simp [run_counter_events], rfl⟩
  | cons e es ih =>
    intro st hI hok
    cases e with
    | detection t =>
      have h := ih (motherboard_counter_add_detection st.1 t, st.2) (hadd _ _ hI)
        (fun now hn => hok now (List.mem_cons_of_mem _ hn))
      rw [run_counter_events, event_detections, List.foldl_cons]
      exact h
    | check now =>
      have hf := hcheck st.1 st.2 now hI (hok now (List.mem_cons_self _ _))
      have he := check_trigger_of_false st.1 st.2 now hf
      have h := ih st hI (fun n hn => hok n (List.mem_cons_of_mem _ hn))
      rw [run_counter_events, event_detections, he]
      dsimp only
      refine ⟨?_, h.2⟩
      intro b hb
      rcases List.mem_cons.mp hb with hb | hb
      · exact hb
      · exact h.1 b hb

theorem digitChar_toNat_ne_zero : ∀ d, d < 10 → (Nat.digitChar d).toNat ≠ 0 := by
  decide

theorem toDigitsCore_nul_free (fuel : Nat) :
    ∀ (n : Nat) (ds : List Char), (∀ c ∈ ds, c.toNat ≠ 0) →
      ∀ c ∈ Nat.toDigitsCore 10 fuel n ds, c.toNat ≠ 0 := by
  induction fuel with
  | zero =>
    intro n ds h c hc
    simp only [Nat.toDigitsCore] at hc
    exact h c hc
  | succ fuel ih =>
    intro n ds h c hc
    have hds : ∀ c ∈ Nat.digitChar (n % 10) :: ds, c.toNat ≠ 0 := by
      intro c hc
      rcases List.mem_cons.mp hc with h1 | h1
      · rw [h1]
        exact digitChar_toNat_ne_zero _ (Nat.mod_lt _ (by omega))
      · exact h c h1
    simp only [Nat.toDigitsCore] at hc
    split_ifs at hc
    · exact hds c hc
    · exact ih _ _ hds c hc

theorem format_lu_nul_free (n : Nat) : ∀ b ∈ format_lu n, b ≠ 0 := by
  intro b hb
  unfold format_lu ascii at hb
  rw [List.mem_map] at hb
  obtain ⟨c, hc, rfl⟩ := hb
  exact toDigitsCore_nul_free _ _ [] (by simp) c hc

theorem format_lu_length_le (n e : Nat) (he : 0 < e) (h : n % 4294967296 < 10 ^ e) :
    (format_lu n).length ≤ e := by
  unfold format_lu ascii
  rw [List.length_map]
  exact Nat.repr_length _ e he h

theorem format_lu_seconds_length (now : Nat) (hnow : now < 4294967296) :
    (format_lu (now / 1000)).length ≤ 7 := by
  apply format_lu_length_le _ 7 (by omega)
  have : now / 1000 % 4294967296 ≤ now / 1000 := Nat.mod_le _ _
  have : now / 1000 < 10000000 := by omega
  norm_num
  omega

theorem lora_state_to_int_lt (s : lora_state_t) : lora_state_to_int s < 5 := by
  cases s <;> decide

theorem c_str_nul_free (s : List Nat) : ∀ b ∈ c_str s, b ≠ 0 := by
  intro b hb
  unfold c_str at hb
  simpa using (List.mem_takeWhile_imp hb)

theorem status_payload_fits (now total : Nat) (hnow : now < 4294967296) :
    (status_payload now total).length ≤ 20 ∧ ∀ b ∈ status_payload now total, b ≠ 0 := by
  have h1 := format_lu_seconds_length now hnow
  have h2 : (format_lu total).length ≤ 10 :=
    format_lu_length_le total 10 (by omega) (by have := Nat.mod_lt total (show 0 < 4294967296 by omega); norm_num; omega)
  have ha : (ascii "S,").length = 2 := rfl
  have hb : (ascii ",").length = 1 := rfl
  constructor
  · unfold status_payload
    simp only [List.length_append, ha, hb]
    omega
  · intro b hb
    unfold status_payload at hb
    simp only [List.mem_append] at hb
    rcases hb with ((hb | hb) | hb) | hb
    · revert b; decide
    · exact format_lu_nul_free _ b hb
    · revert b; decide
    · exact format_lu_nul_free _ b hb

theorem heartbeat_payload_fits (now : Nat) (s : lora_state_t) (hnow : now < 4294967296) :
    (heartbeat_payload now s).length ≤ 11 ∧ ∀ b ∈ heartbeat_payload now s, b ≠ 0 := by
  have h1 := format_lu_seconds_length now hnow
  have h2 : (format_lu (lora_state_to_int s)).length ≤ 1 :=
    format_lu_length_le _ 1 (by omega) (by
      have := lora_state_to_int_lt s
      have := Nat.mod_le (lora_state_to_int s) 4294967296
      norm_num
      omega)
  have ha : (ascii "H,").length = 2 := rfl
  have hb : (ascii ",").length = 1 := rfl
  constructor
  · unfold heartbeat_payload
    simp only [List.length_append, ha, hb]
    omega
  · intro b hb
    unfold heartbeat_payload at hb
    simp only [List.mem_append] at hb
    rcases hb with ((hb | hb) | hb) | hb
    · revert b; decide
    · exact format_lu_nul_free _ b hb
    · revert b; decide
    · exact format_lu_nul_free _ b hb

theorem alert_payload_fits (now : Nat) (text : List Nat) (hnow : now < 4294967296) :
    (alert_payload now text).length ≤ 20 ∧ ∀ b ∈ alert_payload now text, b ≠ 0 := by
  have h1 := format_lu_seconds_length now hnow
  have h2 : ((c_str text).take 10).length ≤ 10 := by
    rw [List.length_take]
    omega
  have ha : (ascii "A,").length = 2 := rfl
  have hb : (ascii ",").length = 1 := rfl
  constructor
  · unfold alert_payload
    simp only [List.length_append, ha, hb]
    omega
  · intro b hb
    unfold alert_payload at hb
    simp only [List.mem_append] at hb
    rcases hb with ((hb | hb) | hb) | hb
    · revert b; decide
    · exact format_lu_nul_free _ b hb
    · revert b; decide
    · exact c_str_nul_free text b (List.mem_of_mem_take hb)

theorem snprintf_of_short (size : Nat) (text : List Nat) (h : text.length < size) :
    snprintf size text = text := by
  unfold snprintf
  exact List.take_of_length_le (by omega)

theorem lora_send_status_update_eq (m : lora_module_t) (io : serial1_t)
    (system_config : system_config_t) (now now_sent : Nat) (hnow : now < 4294967296) :
    lora_send_status_update m io system_config now now_sent
      = lora_send_message m io LORA_MSG_STATUS
          (some (status_payload now system_config.total_detections)) now_sent := by
  have hl := (status_payload_fits now system_config.total_detections hnow).1
  have hs := snprintf_of_short LORA_MAX_PAYLOAD_SIZE
    (status_payload now system_config.total_detections)
    (by rw [show LORA_MAX_PAYLOAD_SIZE = 200 from rfl]; omega)
  unfold status_payload at hs
  unfold lora_send_status_update lora_format_status_message
  simp only [hs, ne_eq, not_true_eq_false, if_false]
  rfl

theorem lora_send_heartbeat_eq (m : lora_module_t) (io : serial1_t)
    (now now_beat now_sent : Nat) (hnow : now < 4294967296) :
    lora_send_heartbeat m io now now_beat now_sent
      = lora_send_message { m with last_heartbeat := now_beat } io LORA_MSG_HEARTBEAT
          (some (heartbeat_payload now m.state)) now_sent := by
  have hl := (heartbeat_payload_fits now m.state hnow).1
  have hs := snprintf_of_short LORA_MAX_PAYLOAD_SIZE (heartbeat_payload now m.state)
    (by rw [show LORA_MAX_PAYLOAD_SIZE = 200 from rfl]; omega)
  unfold heartbeat_payload at hs
  unfold lora_send_heartbeat lora_format_heartbeat_message
  simp only [hs, ne_eq, not_true_eq_false, if_false]
  rfl

theorem lora_send_alert_eq (m : lora_module_t) (io : serial1_t) (text : List Nat)
    (now now_sent : Nat) (hnow : now < 4294967296) :
    lora_send_alert m io (some text) now now_sent
      = lora_send_message m io LORA_MSG_ALERT (some (alert_payload now text)) now_sent := by
  have hl := (alert_payload_fits now text hnow).1
  have hs := snprintf_of_short LORA_MAX_PAYLOAD_SIZE (alert_payload now text)
    (by rw [show LORA_MAX_PAYLOAD_SIZE = 200 from rfl]; omega)
  unfold alert_payload at hs
  unfold lora_send_alert
  simp only [hs]
  rfl

theorem lora_at_read_loop_strcpy_fits_congr (capacity : Nat) (chunk : List Nat) :
    ∀ (m m' : lora_module_t),
      m.response_buffer = m'.response_buffer → m.response_index = m'.response_index →
      lora_at_read_loop_strcpy_fits capacity chunk m
        = lora_at_read_loop_strcpy_fits capacity chunk m' := by
  induction chunk with
  | nil => intro m m' _ _; rfl
  | cons c cs ih =>
    intro m m' hb hi
    rw [lora_at_read_loop_strcpy_fits, lora_at_read_loop_strcpy_fits]
    simp only [hb, hi]
    split_ifs <;>
      first
      | rfl
      | exact ih _ _ rfl rfl
      | exact ih _ _ hb hi

theorem strlen_le_length (s : List Nat) : strlen s ≤ s.length := by
  unfold strlen c_str
  exact (List.takeWhile_prefix _).length_le

theorem lora_at_read_loop_strcpy_fits_of_short (capacity : Nat) (chunk : List Nat) :
    ∀ (m : lora_module_t), m.response_buffer.length + chunk.length < capacity →
      lora_at_read_loop_strcpy_fits capacity chunk m = true := by
  induction chunk with
  | nil => intro m _; rfl
  | cons c cs ih =>
    intro m h
    have hs := strlen_le_length m.response_buffer
    simp only [List.length_cons] at h
    rw [lora_at_read_loop_strcpy_fits]
    dsimp only
    split_ifs <;>
      first
      | rfl
      | omega
      | exact ih _ (by simp only [lora_clear_response_buffer, List.length_nil]; omega)
      | exact ih _ (by simp only [List.length_append, List.length_singleton]; omega)
      | exact ih _ (by omega)

/-! # Properties of the specification -/

/-- C1 (config round trip). On an initialized store, for every well-typed
configuration record whose `config_version` is `CONFIG_VERSION`,
`config_save_to_flash` returns `FLASH_SUCCESS` and a following
`config_load_from_flash` returns `FLASH_SUCCESS`; after both, `system_config`
is the saved record (the pre-call record with only its checksum recomputed),
field for field and byte for byte, the flash holds the same record, and its
checksum is `config_calculate_checksum` of the record. -/
theorem config_save_load_round_trip (fuel : Nat) (s : Store)
    (hinit : s.flash_initialized = true) (hwf : s.system_config.WF)
    (hver : s.system_config.config_version = CONFIG_VERSION) (hfuel : 2 ≤ fuel) :
    ∃ s1 s2,
      config_save_to_flash fuel s = some (FLASH_SUCCESS, s1) ∧
      config_load_from_flash fuel s1 = some (FLASH_SUCCESS, s2) ∧
      s2.system_config
        = { s.system_config with checksum := config_calculate_checksum s.system_config } ∧
      system_config_bytes s2.system_config
        = system_config_bytes
            { s.system_config with checksum := config_calculate_checksum s.system_config } ∧
      stored_config s2 = s2.system_config ∧
      s2.system_config.checksum = config_calculate_checksum s2.system_config := by
  obtain ⟨k, rfl⟩ := Nat.exists_eq_add_of_le hfuel
  have hw := with_checksum_WF _ hwf
  refine ⟨store_with_config s (with_checksum s.system_config),
    store_with_config s (with_checksum s.system_config), ?_, ?_, rfl, rfl, ?_, ?_⟩
  · rw [Nat.add_comm]; exact config_save_valid k s hinit hwf hver
  · rw [Nat.add_comm]
    exact config_load_stored (k + 1) s _ hw hinit hver (with_checksum_valid _)
  · exact stored_config_store_with_config s _ hw
  · exact with_checksum_valid _

/-- Witness for C1: the default configuration saved on `example_store`. -/
theorem config_save_load_round_trip_witness :
    ∃ s1 s2,
      config_save_to_flash 2 example_store = some (FLASH_SUCCESS, s1) ∧
      config_load_from_flash 2 s1 = some (FLASH_SUCCESS, s2) ∧
      s2.system_config
        = { example_store.system_config with
            checksum := config_calculate_checksum example_store.system_config } ∧
      system_config_bytes s2.system_config
        = system_config_bytes
            { example_store.system_config with
              checksum := config_calculate_checksum example_store.system_config } ∧
      stored_config s2 = s2.system_config ∧
      s2.system_config.checksum = config_calculate_checksum s2.system_config :=
  config_save_load_round_trip 2 example_store rfl (by decide) rfl (by decide)

/-- C2 (corruption handling). Let the flash hold a record written by a
successful `config_save_to_flash`. If the flash content is then replaced by one
whose stored version field differs, or by one in which a single byte of the
checksummed region (bytes 0 to 75 of the record) has a different value,
`config_load_from_flash` returns with `system_config` equal to `DEFAULT_CONFIG`
with its checksum recomputed, and the configuration region of the flash holds
exactly that record. -/
theorem config_load_corrupted_resets_to_defaults (fuel1 fuel2 : Nat) (s0 s1 : Store)
    (m : Nat → Nat) (hwf : s0.system_config.WF) (hfuel1 : 5 ≤ fuel1) (hfuel2 : 4 ≤ fuel2)
    (hsave : config_save_to_flash fuel1 s0 = some (FLASH_SUCCESS, s1))
    (hcorrupt :
      (stored_config { s1 with mem := m }).config_version
          ≠ (stored_config s1).config_version ∨
      ∃ k b, k < sizeof_system_config_t - 4 ∧ b < 256 ∧
        b ≠ (config_region_bytes s1.mem).getD k 0 ∧
        config_region_bytes m = (config_region_bytes s1.mem).set k b) :
    ∃ s2, config_load_from_flash fuel2 { s1 with mem := m } = some (FLASH_SUCCESS, s2) ∧
      s2.system_config
        = { DEFAULT_CONFIG with checksum := config_calculate_checksum DEFAULT_CONFIG } ∧
      stored_config s2 = s2.system_config ∧
      config_region_bytes s2.mem = system_config_bytes s2.system_config := by
  obtain ⟨hinit, hw1, hver1, hsum1, hmem1⟩ :=
    config_save_success_stored fuel1 s0 s1 hwf hfuel1 hsave
  obtain ⟨k, rfl⟩ := Nat.exists_eq_add_of_le hfuel2
  have hwd := with_checksum_WF _ DEFAULT_CONFIG_WF
  have hstored1 : stored_config s1 = s1.system_config := by
    unfold stored_config
    rw [hmem1, system_config_of_words_words _ hw1]
  have hbad : (stored_config { s1 with mem := m }).config_version ≠ CONFIG_VERSION ∨
      config_validate_checksum (stored_config { s1 with mem := m }) = false := by
    rcases hcorrupt with hv | ⟨j, b, hj, hb, hne, hset⟩
    · left
      rw [hstored1, hver1] at hv
      exact hv
    · right
      exact corrupted_byte_invalid s1.mem m s1.system_config j b hmem1 hsum1 hj hb hne hset
  refine ⟨store_with_config { s1 with mem := m } (with_checksum DEFAULT_CONFIG), ?_, rfl,
    stored_config_store_with_config _ _ hwd, config_region_bytes_store_with_config _ _ hwd⟩
  rw [Nat.add_comm]
  exact config_load_invalid k { s1 with mem := m } hinit hbad

set_option maxRecDepth 1000000 in
/-- Witness for C2: after the default configuration was saved on
`example_store`, the version field is overwritten with 3, and (separately) byte
56 of the record, `debug_level`, is changed from 2 to 7. -/
theorem config_load_corrupted_resets_to_defaults_witness :
    (∃ s2, config_load_from_flash 4
        { example_saved_store with
          mem := writeWord example_saved_store.mem FLASH_CONFIG_OFFSET 3 }
          = some (FLASH_SUCCESS, s2) ∧
      s2.system_config
        = { DEFAULT_CONFIG with checksum := config_calculate_checksum DEFAULT_CONFIG } ∧
      stored_config s2 = s2.system_config ∧
      config_region_bytes s2.mem = system_config_bytes s2.system_config) ∧
    (∃ s2, config_load_from_flash 4
        { example_saved_store with
          mem := writeWord example_saved_store.mem (FLASH_CONFIG_OFFSET + 56) 263 }
          = some (FLASH_SUCCESS, s2) ∧
      s2.system_config
        = { DEFAULT_CONFIG with checksum := config_calculate_checksum DEFAULT_CONFIG } ∧
      stored_config s2 = s2.system_config ∧
      config_region_bytes s2.mem = system_config_bytes s2.system_config) :=
  ⟨config_load_corrupted_resets_to_defaults 5 4 example_store example_saved_store
      (writeWord example_saved_store.mem FLASH_CONFIG_OFFSET 3) DEFAULT_CONFIG_WF
      (by decide) (by decide) (config_save_valid 3 example_store rfl DEFAULT_CONFIG_WF rfl)
      (Or.inl (by decide)),
   config_load_corrupted_resets_to_defaults 5 4 example_store example_saved_store
      (writeWord example_saved_store.mem (FLASH_CONFIG_OFFSET + 56) 263) DEFAULT_CONFIG_WF
      (by decide) (by decide) (config_save_valid 3 example_store rfl DEFAULT_CONFIG_WF rfl)
      (Or.inr ⟨56, 7, by decide, by decide, by decide, by decide⟩)⟩

/-- C3 (save verification), what the code does when the record to save does not
carry `CONFIG_VERSION`: on an initialized store `config_save_to_flash` returns
`FLASH_SUCCESS`, not `FLASH_ERROR_VERIFY`, although afterwards `system_config`
and the flash hold `DEFAULT_CONFIG` with its checksum and not the intended
record (the pre-call record with its checksum recomputed). -/
theorem config_save_wrong_version_succeeds_with_defaults (fuel : Nat) (s : Store)
    (hinit : s.flash_initialized = true) (hwf : s.system_config.WF)
    (hver : s.system_config.config_version ≠ CONFIG_VERSION) (hfuel : 5 ≤ fuel) :
    ∃ s1, config_save_to_flash fuel s = some (FLASH_SUCCESS, s1) ∧
      s1.system_config
        = { DEFAULT_CONFIG with checksum := config_calculate_checksum DEFAULT_CONFIG } ∧
      stored_config s1 = s1.system_config ∧
      s1.system_config
        ≠ { s.system_config with checksum := config_calculate_checksum s.system_config } := by
  obtain ⟨k, rfl⟩ := Nat.exists_eq_add_of_le hfuel
  have hwd := with_checksum_WF _ DEFAULT_CONFIG_WF
  refine ⟨_, by rw [Nat.add_comm]; exact config_save_invalid_version k s hinit hwf hver, rfl,
    stored_config_store_with_config _ _ hwd, ?_⟩
  intro h
  have hv := congrArg system_config_t.config_version h
  exact hver hv.symm

/-- Witness for C3: saving a record of version 3 with `debug_level` 4 reports
success and leaves the defaults. -/
theorem config_save_wrong_version_succeeds_with_defaults_witness :
    ∃ s1, config_save_to_flash 5 example_store_version_3 = some (FLASH_SUCCESS, s1) ∧
      s1.system_config
        = { DEFAULT_CONFIG with checksum := config_calculate_checksum DEFAULT_CONFIG } ∧
      stored_config s1 = s1.system_config ∧
      s1.system_config
        ≠ { example_store_version_3.system_config with
            checksum := config_calculate_checksum example_store_version_3.system_config } :=
  config_save_wrong_version_succeeds_with_defaults 5 example_store_version_3 rfl
    (by decide) (by decide) (by decide)

/-- C4 (init establishes the write index), what the code does: `flash_init`
calls `flash_get_log_count` before it sets `flash_initialized`, and
`flash_get_log_count` returns 0 on a store that is not initialized. On every
store that was not yet initialized `flash_init` therefore returns
`FLASH_SUCCESS` with `current_log_index = 0`, whatever the log region holds. -/
theorem flash_init_uninitialized_index_zero (s : Store) (h : s.flash_initialized = false) :
    flash_init s
      = (FLASH_SUCCESS,
          { s with
            mem := writeWord s.mem 0x100 0xDEADBEEF
            current_log_index := 0
            flash_initialized := true }) := by
  unfold flash_init
  have hr : readWord (writeWord s.mem 0x100 0xDEADBEEF) 0x100 = 0xDEADBEEF := by
    simp [readWord, writeWord]
  simp only [hr, ne_eq, not_true_eq_false, if_false, flash_get_log_count, h, Bool.not_false,
    if_true]

set_option maxRecDepth 1000000 in
/-- Witness for C4: the flash holds one valid entry in slot 0, so one leading
slot is valid, yet `flash_init` leaves the write index at 0 and the next
`flash_write_detection_log` overwrites that entry. -/
theorem flash_init_uninitialized_index_zero_witness :
    flash_init example_store_after_reboot
      = (FLASH_SUCCESS,
          { example_store_after_reboot with
            mem := writeWord example_store_after_reboot.mem 0x100 0xDEADBEEF
            current_log_index := 0
            flash_initialized := true }) ∧
    leading_valid_slots (flash_init example_store_after_reboot).2.mem = 1 ∧
    (flash_init example_store_after_reboot).2.current_log_index = 0 ∧
    log_slot (flash_init example_store_after_reboot).2.mem 0 = example_detection 5000 ∧
    log_slot (flash_write_detection_log (flash_init example_store_after_reboot).2
        (some (example_detection 9000))).2.mem 0 = example_detection 9000 :=
  ⟨flash_init_uninitialized_index_zero example_store_after_reboot rfl,
    by decide, by decide, by decide, by decide⟩

/-- C5 (log wraparound). On an initialized store with write index 0, after
`MAX_LOG_ENTRIES + 1` calls of `flash_write_detection_log` with well-typed
records `rs[0], …, rs[MAX_LOG_ENTRIES]` (all of which return `FLASH_SUCCESS`),
`flash_read_detection_log(0)` returns the last record `rs[MAX_LOG_ENTRIES]`,
`flash_read_detection_log(i)` returns `rs[i]` for every `1 ≤ i < MAX_LOG_ENTRIES`,
and `system_config.total_detections` has grown by `MAX_LOG_ENTRIES + 1` in
`uint32_t` arithmetic (by exactly that number when the counter does not pass
`2^32`). -/
theorem flash_log_wraparound (s : Store) (rs : List detection_result_t)
    (tmp : detection_result_t) (hinit : s.flash_initialized = true)
    (hidx : s.current_log_index = 0) (hlen : rs.length = MAX_LOG_ENTRIES + 1)
    (hwf : ∀ r ∈ rs, r.WF) :
    (flash_write_detection_logs s rs).1 = List.replicate (MAX_LOG_ENTRIES + 1) FLASH_SUCCESS ∧
    flash_read_detection_log (flash_write_detection_logs s rs).2 0 (some tmp)
      = (FLASH_SUCCESS, rs[MAX_LOG_ENTRIES]?) ∧
    (∀ i, 1 ≤ i → i < MAX_LOG_ENTRIES →
      flash_read_detection_log (flash_write_detection_logs s rs).2 i (some tmp)
        = (FLASH_SUCCESS, rs[i]?)) ∧
    (flash_write_detection_logs s rs).2.system_config.total_detections
      = (s.system_config.total_detections + (MAX_LOG_ENTRIES + 1)) % 4294967296 ∧
    (s.system_config.total_detections + (MAX_LOG_ENTRIES + 1) < 4294967296 →
      (flash_write_detection_logs s rs).2.system_config.total_detections
        = s.system_config.total_detections + (MAX_LOG_ENTRIES + 1)) := by
  rw [MAX_LOG_ENTRIES_eq] at hlen ⊢
  have hx : 117 < rs.length := by omega
  have hd : rs.drop 117 = [rs[117]] := by
    rw [List.drop_eq_getElem_cons hx, List.drop_eq_nil_of_le (by omega)]
  have hsplit : rs = rs.take 117 ++ [rs[117]] := by rw [← hd, List.take_append_drop]
  have hlenA : (rs.take 117).length = 117 := by simp [hlen]
  obtain ⟨h1, h2, h3, h4, h5, h6⟩ := flash_write_detection_logs_room (rs.take 117) s hinit
    (fun r hr => hwf r (List.mem_of_mem_take hr)) (by simp [hidx, hlenA, MAX_LOG_ENTRIES_eq])
  simp only [hlenA, hidx] at h3 h5 h6
  rw [hlenA] at h1 h4
  obtain ⟨s1, hs1⟩ : ∃ s1, s1 = (flash_write_detection_logs s (rs.take 117)).2 := ⟨_, rfl⟩
  rw [← hs1] at h2 h3 h4 h5 h6
  have hstep := flash_write_detection_log_eq s1 rs[117] h2
  rw [if_pos (by simp [h3, MAX_LOG_ENTRIES_eq])] at hstep
  obtain ⟨s2, hs2⟩ : ∃ s2 : Store, s2 =
      { s1 with
        mem := write_words s1.mem (FLASH_LOG_OFFSET + 0 * sizeof_detection_result_t) 0
          (detection_result_words rs[117])
        current_log_index := (0 + 1) % 4294967296
        system_config :=
          { s1.system_config with
            total_detections := (s1.system_config.total_detections + 1) % 4294967296 } } :=
    ⟨_, rfl⟩
  rw [← hs2] at hstep
  have hm : s2.mem = write_words s1.mem (FLASH_LOG_OFFSET + 0 * sizeof_detection_result_t) 0
      (detection_result_words rs[117]) := by rw [hs2]
  have ht : s2.system_config.total_detections
      = (s1.system_config.total_detections + 1) % 4294967296 := by rw [hs2]
  have hi2 : s2.flash_initialized = true := by rw [hs2]; exact h2
  have hall : flash_write_detection_logs s rs
      = (List.replicate 117 FLASH_SUCCESS ++ [FLASH_SUCCESS], s2) := by
    rw [hsplit, flash_write_detection_logs_append, ← hs1, h1]
    simp only [flash_write_detection_logs, hstep]
  have hwx : rs[117].WF := hwf _ (List.getElem_mem hx)
  rw [hall]
  simp only []
  refine ⟨(List.replicate_succ' _ _).symm, ?_, ?_, ?_, ?_⟩
  · rw [flash_read_detection_log_eq s2 0 tmp hi2 (by rw [MAX_LOG_ENTRIES_eq]; omega), hm,
      log_slot_write_same _ _ _ hwx, List.getElem?_eq_getElem hx]
  · intro i hi1 hi2'
    rw [flash_read_detection_log_eq s2 i tmp hi2 (by rw [MAX_LOG_ENTRIES_eq]; omega), hm,
      log_slot_write_other _ _ _ _ (by omega)]
    have := h5 i hi2'
    rw [Nat.zero_add, List.getElem?_take_of_lt hi2'] at this
    rw [this]
  · rw [ht]; omega
  · intro hno
    rw [ht]; omega

set_option maxRecDepth 1000000 in
/-- Witness for C5: 118 records written to `example_store`. -/
theorem flash_log_wraparound_witness :
    (flash_write_detection_logs example_store example_log_records).1
      = List.replicate (MAX_LOG_ENTRIES + 1) FLASH_SUCCESS ∧
    flash_read_detection_log (flash_write_detection_logs example_store example_log_records).2 0
        (some (example_detection 0))
      = (FLASH_SUCCESS, example_log_records[MAX_LOG_ENTRIES]?) ∧
    (∀ i, 1 ≤ i → i < MAX_LOG_ENTRIES →
      flash_read_detection_log (flash_write_detection_logs example_store example_log_records).2
          i (some (example_detection 0))
        = (FLASH_SUCCESS, example_log_records[i]?)) ∧
    (flash_write_detection_logs example_store example_log_records).2.system_config.total_detections
      = (example_store.system_config.total_detections + (MAX_LOG_ENTRIES + 1)) % 4294967296 ∧
    (example_store.system_config.total_detections + (MAX_LOG_ENTRIES + 1) < 4294967296 →
      (flash_write_detection_logs example_store
          example_log_records).2.system_config.total_detections
        = example_store.system_config.total_detections + (MAX_LOG_ENTRIES + 1)) :=
  flash_log_wraparound example_store example_log_records (example_detection 0) rfl rfl
    (by decide) (by decide)

/-- C6 (window count definition), what the code does while `now` is smaller
than the window length: `window_start = now - time_window_ms` is computed in
`uint32_t` and wraps to a value above `now`, so no stored timestamp passes both
tests and the count is 0, whatever the ring holds. -/
theorem get_count_in_window_zero_before_first_window (mc : motherboard_counter_t)
    (now : Nat) (hw : mc.time_window_ms < 4294967296) (hnow : now < mc.time_window_ms) :
    motherboard_counter_get_count_in_window mc now = 0 := by
  cases hen : mc.enabled
  · exact get_count_in_window_disabled mc now hen
  · rw [get_count_in_window_eq mc now hen, sub_u32_of_lt _ _ hw hnow, List.countP_eq_zero]
    intro t _
    simp only [Bool.and_eq_true, decide_eq_true_eq]
    omega

/-- Witness for C6: window 10 000 ms, one detection stored at time 1000, clock
at 5000. The detection lies in `[5000 - 10000, 5000]` over the integers, so the
count over the integers is 1; the code returns 0. -/
theorem get_count_in_window_zero_before_first_window_witness :
    motherboard_counter_get_count_in_window example_counter_one_detection 5000 = 0 ∧
    window_count_spec example_counter_one_detection 5000 = 1 :=
  ⟨get_count_in_window_zero_before_first_window example_counter_one_detection 5000
      (by decide) (by decide), by decide⟩

/-- C8 (trigger condition), what the code does when exactly 30 000 ms have
elapsed since `last_lora_trigger_time`: the test is `now - last > 30000`, so
`motherboard_counter_check_trigger` returns false and changes nothing, also for
an enabled counter whose window count reaches the threshold. -/
theorem check_trigger_false_at_exact_cooldown (mc : motherboard_counter_t)
    (cfg : system_config_t) (now : Nat)
    (hnow : now < 4294967296) (hlast : mc.last_lora_trigger_time + 30000 = now) :
    motherboard_counter_check_trigger mc cfg now = (false, mc, cfg) := by
  apply check_trigger_of_false
  cases hr : (motherboard_counter_check_trigger mc cfg now).1
  · rfl
  · obtain ⟨_, _, h3⟩ := (check_trigger_true_iff mc cfg now).mp hr
    rw [sub_u32_of_le _ _ hnow (by omega)] at h3
    omega

/-- Witness for C8: threshold 1, one detection at 30 000 in the window, last
trigger time 0, clock at 30 000. All three conditions of the claim hold
(enabled, count 1 ≥ 1, 30 000 - 0 ≥ 30 000) and the code returns false; one
millisecond later it returns true. -/
theorem check_trigger_false_at_exact_cooldown_witness :
    example_counter_threshold_1.enabled = true ∧
    example_counter_threshold_1.count_threshold
      ≤ motherboard_counter_get_count_in_window example_counter_threshold_1 30000 ∧
    example_counter_threshold_1.last_lora_trigger_time + 30000 = 30000 ∧
    motherboard_counter_check_trigger example_counter_threshold_1 DEFAULT_CONFIG 30000
      = (false, example_counter_threshold_1, DEFAULT_CONFIG) ∧
    (motherboard_counter_check_trigger example_counter_threshold_1 DEFAULT_CONFIG 30001).1
      = true :=
  ⟨by decide, by decide, by decide,
    check_trigger_false_at_exact_cooldown example_counter_threshold_1 DEFAULT_CONFIG 30000
      (by decide) (by decide), by decide⟩

/-- C10 (a suppressed trigger leaves the state alone). Whenever
`motherboard_counter_check_trigger` returns false, the counter state (ring,
indices, totals, last trigger time, trigger count, settings) and
`system_config` are unchanged. -/
theorem check_trigger_false_unchanged (mc : motherboard_counter_t) (cfg : system_config_t)
    (now : Nat) (h : (motherboard_counter_check_trigger mc cfg now).1 = false) :
    (motherboard_counter_check_trigger mc cfg now).2 = (mc, cfg) := by
  rw [check_trigger_of_false mc cfg now h]

/-- Witness for C10: a disabled counter, an enabled counter below its
threshold, and an enabled counter at its threshold inside the cooldown. -/
theorem check_trigger_false_unchanged_witness :
    (motherboard_counter_check_trigger example_counter_disabled DEFAULT_CONFIG 40000).2
      = (example_counter_disabled, DEFAULT_CONFIG) ∧
    (motherboard_counter_check_trigger example_counter_one_detection DEFAULT_CONFIG 40000).2
      = (example_counter_one_detection, DEFAULT_CONFIG) ∧
    (motherboard_counter_check_trigger example_counter_threshold_1 DEFAULT_CONFIG 30000).2
      = (example_counter_threshold_1, DEFAULT_CONFIG) :=
  ⟨check_trigger_false_unchanged example_counter_disabled DEFAULT_CONFIG 40000 (by decide),
    check_trigger_false_unchanged example_counter_one_detection DEFAULT_CONFIG 40000
      (by decide),
    check_trigger_false_unchanged example_counter_threshold_1 DEFAULT_CONFIG 30000
      (by decide)⟩

/-- C7 (sliding-window scenario). For an enabled, freshly reset counter with a
10 000 ms window, after adding 30 strictly increasing timestamps
`t_1 < … < t_30` with `t_30 - t_1 = 10 000` (times below `2^32`), the window
count at `now = t_30` is 30; for `now ≥ t_30` the count does not increase as
`now` grows; and it is 0 for every `now > t_30 + 10 000`. -/
theorem sliding_window_scenario (mc0 : motherboard_counter_t) (cfg : system_config_t)
    (ts : List Nat) (hen : mc0.enabled = true) (hwin : mc0.time_window_ms = 10000)
    (hlen : ts.length = 30) (hinc : ts.Pairwise (fun a b => a < b))
    (hspan : ts.getD 29 0 = ts.getD 0 0 + 10000) (hbound : ts.getD 29 0 < 4294967296) :
    motherboard_counter_get_count_in_window
        (ts.foldl motherboard_counter_add_detection (motherboard_counter_reset mc0 cfg).1)
        (ts.getD 29 0) = 30 ∧
    (∀ now1 now2, ts.getD 29 0 ≤ now1 → now1 ≤ now2 → now2 < 4294967296 →
      motherboard_counter_get_count_in_window
          (ts.foldl motherboard_counter_add_detection (motherboard_counter_reset mc0 cfg).1)
          now2
        ≤ motherboard_counter_get_count_in_window
          (ts.foldl motherboard_counter_add_detection (motherboard_counter_reset mc0 cfg).1)
          now1) ∧
    (∀ now, ts.getD 29 0 + 10000 < now → now < 4294967296 →
      motherboard_counter_get_count_in_window
          (ts.foldl motherboard_counter_add_detection (motherboard_counter_reset mc0 cfg).1)
          now = 0) := by
  obtain ⟨r1, _, r3, _, r5, r6, r7, r8⟩ := reset_fresh mc0 cfg
  obtain ⟨_, _, _, a4⟩ := add_detections_room ts (motherboard_counter_reset mc0 cfg).1
    (r1.trans hen) (r6.trans r5.symm) r7 (by rw [r5, hlen]; omega)
  obtain ⟨s1, _, s3, _, _⟩ := add_detections_settings ts (motherboard_counter_reset mc0 cfg).1
  generalize ts.foldl motherboard_counter_add_detection (motherboard_counter_reset mc0 cfg).1
    = mc at a4 s1 s3 ⊢
  have henm : mc.enabled = true := s1.trans (r1.trans hen)
  have hwinm : mc.time_window_ms = 10000 := s3.trans (r3.trans hwin)
  have hst : stored_timestamps mc = ts := by rw [a4, r8, List.nil_append]
  have h0 : ts.getD 0 0 = ts[0] := List.getD_eq_getElem _ _ (by omega)
  have h29 : ts.getD 29 0 = ts[29] := List.getD_eq_getElem _ _ (by omega)
  have hrange : ∀ t ∈ ts, ts.getD 0 0 ≤ t ∧ t ≤ ts.getD 29 0 := by
    intro t ht
    obtain ⟨k, hk, rfl⟩ := List.getElem_of_mem ht
    rw [List.pairwise_iff_getElem] at hinc
    rw [h0, h29]
    constructor
    · by_cases hk0 : k = 0
      · subst hk0; exact Nat.le_refl _
      · exact Nat.le_of_lt (hinc 0 k (by omega) hk (by omega))
    · by_cases hk29 : k = 29
      · subst hk29; exact Nat.le_refl _
      · exact Nat.le_of_lt (hinc k 29 hk (by omega) (by omega))
  refine ⟨?_, ?_, ?_⟩
  · rw [get_count_in_window_eq mc _ henm, hst, hwinm,
      sub_u32_of_le _ _ hbound (by omega), ← hlen, List.countP_eq_length]
    intro t ht
    have := hrange t ht
    simp only [Bool.and_eq_true, decide_eq_true_eq]
    omega
  · intro now1 now2 h1 h12 h2
    rw [get_count_in_window_eq mc _ henm, get_count_in_window_eq mc _ henm, hst, hwinm,
      sub_u32_of_le _ _ h2 (by omega), sub_u32_of_le _ _ (by omega) (by omega)]
    apply List.countP_mono_left
    intro t ht
    have := hrange t ht
    simp only [Bool.and_eq_true, decide_eq_true_eq]
    omega
  · intro now h1 h2
    rw [get_count_in_window_eq mc _ henm, hst, hwinm, sub_u32_of_le _ _ h2 (by omega),
      List.countP_eq_zero]
    intro t ht
    have := hrange t ht
    simp only [Bool.and_eq_true, decide_eq_true_eq]
    omega

set_option maxRecDepth 1000000 in
/-- Witness for C7: the times of `example_window_times` added to the default
counter after a reset. -/
theorem sliding_window_scenario_witness :
    motherboard_counter_get_count_in_window
        (example_window_times.foldl motherboard_counter_add_detection
          (motherboard_counter_reset example_counter DEFAULT_CONFIG).1)
        (example_window_times.getD 29 0) = 30 ∧
    (∀ now1 now2, example_window_times.getD 29 0 ≤ now1 → now1 ≤ now2 → now2 < 4294967296 →
      motherboard_counter_get_count_in_window
          (example_window_times.foldl motherboard_counter_add_detection
            (motherboard_counter_reset example_counter DEFAULT_CONFIG).1)
          now2
        ≤ motherboard_counter_get_count_in_window
          (example_window_times.foldl motherboard_counter_add_detection
            (motherboard_counter_reset example_counter DEFAULT_CONFIG).1)
          now1) ∧
    (∀ now, example_window_times.getD 29 0 + 10000 < now → now < 4294967296 →
      motherboard_counter_get_count_in_window
          (example_window_times.foldl motherboard_counter_add_detection
            (motherboard_counter_reset example_counter DEFAULT_CONFIG).1)
          now = 0) :=
  sliding_window_scenario example_counter DEFAULT_CONFIG example_window_times
    (by decide) (by decide) (by decide) (by decide) (by decide) (by decide)

/-- C9: on a freshly reset counter the cooldown of
`motherboard_counter_check_trigger` is measured from
`last_lora_trigger_time = 0`, the value that stands for "never triggered", so
for every threshold and window, detections whose times are all at most
30 000 ms, each followed by a check at its own time, yield no true at all: the
results are all false and the counter only records the detections. A burst of
30 detections that starts and ends in the first 30 s therefore yields true zero
times where the scenario asks for exactly once. -/
theorem trigger_debounce_first_burst_suppressed (mc0 : motherboard_counter_t)
    (cfg0 : system_config_t) (ts : List Nat) (hearly : ∀ t ∈ ts, t ≤ 30000) :
    (motherboard_counter_reset mc0 cfg0).1.last_lora_trigger_time = 0 ∧
    (inject_and_check_all (motherboard_counter_reset mc0 cfg0) ts).1
      = List.replicate ts.length false ∧
    (inject_and_check_all (motherboard_counter_reset mc0 cfg0) ts).1.count true = 0 ∧
    (inject_and_check_all (motherboard_counter_reset mc0 cfg0) ts).2
      = (ts.foldl motherboard_counter_add_detection (motherboard_counter_reset mc0 cfg0).1,
          (motherboard_counter_reset mc0 cfg0).2) := by
  have hlast : (motherboard_counter_reset mc0 cfg0).1.last_lora_trigger_time = 0 := rfl
  have hrun := inject_and_check_all_in_cooldown ts (motherboard_counter_reset mc0 cfg0) (by
    intro t ht
    have h := hearly t ht
    rw [hlast, sub_u32_of_le t 0 (by omega) (Nat.zero_le _)]
    omega)
  rw [hrun]
  refine ⟨hlast, rfl, ?_, rfl⟩
  show List.count true (List.replicate ts.length false) = 0
  rw [List.count_eq_zero]
  intro h
  exact absurd (List.eq_of_mem_replicate h) (by decide)

set_option maxRecDepth 1000000 in
/-- C9 on a freshly reset enabled counter with threshold 25 and a 10 s
window: thirty detections one millisecond apart from time 10 000, each
followed by a check, yield thirty times false, although from the 25th
detection on the window holds at least 25 detections (30 at the last
check). -/
theorem trigger_debounce_first_burst_suppressed_witness :
    (inject_and_check_all (motherboard_counter_reset example_counter_25 DEFAULT_CONFIG)
      example_burst_early).1 = List.replicate 30 false ∧
    (inject_and_check_all (motherboard_counter_reset example_counter_25 DEFAULT_CONFIG)
      example_burst_early).1.count true = 0 ∧
    (motherboard_counter_reset example_counter_25 DEFAULT_CONFIG).1.enabled = true ∧
    (motherboard_counter_reset example_counter_25 DEFAULT_CONFIG).1.count_threshold = 25 ∧
    (motherboard_counter_reset example_counter_25 DEFAULT_CONFIG).1.time_window_ms = 10000 ∧
    motherboard_counter_get_count_in_window
      ((example_burst_early.take 25).foldl motherboard_counter_add_detection
        (motherboard_counter_reset example_counter_25 DEFAULT_CONFIG).1) 10024 = 25 ∧
    motherboard_counter_get_count_in_window
      (inject_and_check_all (motherboard_counter_reset example_counter_25 DEFAULT_CONFIG)
        example_burst_early).2.1 10029 = 30 :=
  ⟨(trigger_debounce_first_burst_suppressed example_counter_25 DEFAULT_CONFIG
      example_burst_early (by decide)).2.1,
    (trigger_debounce_first_burst_suppressed example_counter_25 DEFAULT_CONFIG
      example_burst_early (by decide)).2.2.1,
    by decide, by decide, by decide, by decide, by decide⟩

/-- The scenario of C9 on a burst that starts after the first 30 s, where the
code does what the scenario says. With threshold 25 and window 10 s on a
freshly reset enabled counter, for every start time later than 30 000 ms
(times below `2^32`, detections in time order, each check made at the time of
the detection before it): 30 detections inside one window yield true exactly
once, at the 25th; 5 more detections within the next 1 s yield no further true;
and after any further detections a check made more than 30 s after the first
trigger, at a time when at least 25 stored detections lie in the window, yields
true again. -/
theorem trigger_debounce_scenario (mc0 : motherboard_counter_t) (cfg0 : system_config_t)
    (start now : Nat) (ts1 ts2 more : List Nat)
    (hen : mc0.enabled = true) (hthr : mc0.count_threshold = 25)
    (hwin : mc0.time_window_ms = 10000) (hstart : 30000 < start)
    (hlen1 : ts1.length = 30) (hlen2 : ts2.length = 5)
    (hmono : (ts1 ++ ts2).Pairwise (fun a b => a ≤ b))
    (hfirst : ts1.getD 0 0 = start) (hlast : ts1.getD 29 0 ≤ start + 10000)
    (hnext : ∀ t ∈ ts2, t ≤ ts1.getD 29 0 + 1000)
    (hbound : ∀ t ∈ ts1 ++ ts2, t < 4294967296)
    (hnow : now < 4294967296) (hlate : ts1.getD 24 0 + 30000 < now)
    (hcount : 25 ≤ motherboard_counter_get_count_in_window
      (more.foldl motherboard_counter_add_detection
        (inject_and_check_all
          (inject_and_check_all (motherboard_counter_reset mc0 cfg0) ts1).2 ts2).2.1) now) :
    (inject_and_check_all (motherboard_counter_reset mc0 cfg0) ts1).1
      = List.replicate 24 false ++ true :: List.replicate 5 false ∧
    (inject_and_check_all (motherboard_counter_reset mc0 cfg0) ts1).1.count true = 1 ∧
    (inject_and_check_all
      (inject_and_check_all (motherboard_counter_reset mc0 cfg0) ts1).2 ts2).1
      = List.replicate 5 false ∧
    (motherboard_counter_check_trigger
      (more.foldl motherboard_counter_add_detection
        (inject_and_check_all
          (inject_and_check_all (motherboard_counter_reset mc0 cfg0) ts1).2 ts2).2.1)
      (inject_and_check_all
        (inject_and_check_all (motherboard_counter_reset mc0 cfg0) ts1).2 ts2).2.2
      now).1 = true := by
  -- the times of the first burst lie between `start` and its last element
  obtain ⟨hpw1, _, hpw12⟩ := List.pairwise_append.mp hmono
  have h0 : ts1.getD 0 0 = ts1[0] := List.getD_eq_getElem _ _ (by omega)
  have h29 : ts1.getD 29 0 = ts1[29] := List.getD_eq_getElem _ _ (by omega)
  have hrange : ∀ t ∈ ts1, start ≤ t ∧ t ≤ ts1.getD 29 0 := by
    intro t ht
    obtain ⟨k, hk, rfl⟩ := List.getElem_of_mem ht
    have hp := List.pairwise_iff_getElem.mp hpw1
    rw [← hfirst, h0, h29]
    constructor
    · by_cases hk0 : k = 0
      · subst hk0; exact Nat.le_refl _
      · exact hp 0 k (by omega) hk (by omega)
    · by_cases hk29 : k = 29
      · subst hk29; exact Nat.le_refl _
      · exact hp k 29 hk (by omega) (by omega)
  have hlastmem : ts1.getD 29 0 ∈ ts1 := getD_mem_of_lt _ _ (by omega)
  generalize ts1.getD 29 0 = last1 at hlast hnext hrange hlastmem
  -- split the first burst at the 25th detection
  obtain ⟨pre, t25, post, hsplit, hprelen, hpostlen, h24⟩ := split_at_24 ts1 hlen1
  rw [h24] at hlate
  clear h0 h29 h24 hfirst
  subst hsplit
  have hpw := List.pairwise_append.mp hpw1
  have hpre_le : ∀ a ∈ pre, a ≤ t25 := fun a ha => hpw.2.2 a ha t25 (List.mem_cons_self _ _)
  have hpost_ge : ∀ b ∈ post, t25 ≤ b := fun b hb => (List.pairwise_cons.mp hpw.2.1).1 b hb
  have ht25mem : t25 ∈ pre ++ t25 :: post := by simp
  have ht25 := hrange t25 ht25mem
  have ht25b : t25 < 4294967296 := hbound t25 (List.mem_append_left _ ht25mem)
  -- the state after the reset and after the first 24 detections
  obtain ⟨r1, r2, r3, r4, r5, r6, r7, r8⟩ := reset_fresh mc0 cfg0
  generalize motherboard_counter_reset mc0 cfg0 = st0 at *
  have hA := inject_and_check_all_below_threshold pre st0 (by rw [r5, r2, hthr, hprelen]; omega)
  obtain ⟨a1, a2, a3, a4⟩ := add_detections_room pre st0.1 (r1.trans hen) (r6.trans r5.symm) r7
    (by rw [r5, hprelen]; omega)
  obtain ⟨s1, s2, s3, s4, _⟩ := add_detections_settings pre st0.1
  generalize pre.foldl motherboard_counter_add_detection st0.1 = mcA at *
  rw [r5, hprelen] at a1 a2
  rw [r8, List.nil_append] at a4
  -- the 25th detection fires
  obtain ⟨b1, _, _, b4⟩ := add_detection_room mcA t25 (s1.trans (r1.trans hen))
    (a2.trans a1.symm) a3 (by rw [a1]; omega)
  obtain ⟨e1, e2, e3, e4, _⟩ := add_detection_settings mcA t25
  have hfire : (motherboard_counter_check_trigger
      (motherboard_counter_add_detection mcA t25) st0.2 t25).1 = true := by
    rw [check_trigger_true_iff]
    refine ⟨e1.trans (s1.trans (r1.trans hen)), ?_, ?_⟩
    · rw [e2, s2, r2, hthr, get_count_in_window_eq _ _ (e1.trans (s1.trans (r1.trans hen))),
        b4, a4, e3, s3, r3, hwin, sub_u32_of_le _ _ ht25b (by omega)]
      have hall : List.countP (fun t => decide (t ≤ t25) && decide (t25 - 10000 ≤ t))
          (pre ++ [t25]) = (pre ++ [t25]).length := by
        rw [List.countP_eq_length]
        intro t ht
        simp only [Bool.and_eq_true, decide_eq_true_eq]
        rcases List.mem_append.mp ht with hp | hp
        · have := hpre_le t hp
          have := hrange t (List.mem_append_left _ hp)
          omega
        · rw [List.mem_singleton] at hp
          subst hp
          omega
      rw [hall, List.length_append, hprelen]
      simp
    · rw [e4, s4, r4, sub_u32_of_le _ _ ht25b (Nat.zero_le _)]
      omega
  have hstep := check_trigger_of_true _ _ _ hfire
  generalize hB : motherboard_counter_add_detection mcA t25 = mcB at *
  -- the state after the trigger
  obtain ⟨stC, hstC⟩ : ∃ stC : motherboard_counter_t × system_config_t, stC =
      ({ mcB with
          last_lora_trigger_time := t25
          lora_triggers_sent := (mcB.lora_triggers_sent + 1) % 4294967296 },
        { st0.2 with
          total_motherboard_count_triggers :=
            (st0.2.total_motherboard_count_triggers + 1) % 4294967296
          last_motherboard_trigger_time := t25 }) := ⟨_, rfl⟩
  have c1 : stC.1.enabled = true := by rw [hstC]; exact e1.trans (s1.trans (r1.trans hen))
  have c2 : stC.1.count_threshold = 25 := by
    rw [hstC]; exact e2.trans (s2.trans (r2.trans hthr))
  have c4 : stC.1.last_lora_trigger_time = t25 := by rw [hstC]
  have hinj : inject_and_check (mcA, st0.2) t25 = (true, stC) := by
    unfold inject_and_check
    simp only []
    rw [hB, hstep, hstC]
  -- the last five detections of the burst and the five that follow are in the cooldown
  have hP := inject_and_check_all_in_cooldown post stC (by
    intro t ht
    rw [c4]
    have h1 := hpost_ge t ht
    have h2 := hrange t (List.mem_append_right _ (List.mem_cons_of_mem _ ht))
    have h3 := hbound t (List.mem_append_left _ (List.mem_append_right _
      (List.mem_cons_of_mem _ ht)))
    rw [sub_u32_of_le _ _ h3 h1]
    omega)
  obtain ⟨p1, p2, _, p4, _⟩ := add_detections_settings post stC.1
  have hrun1 : inject_and_check_all st0 (pre ++ t25 :: post)
      = (List.replicate 24 false ++ true :: List.replicate 5 false,
          (post.foldl motherboard_counter_add_detection stC.1, stC.2)) := by
    rw [inject_and_check_all_append, hA, hprelen]
    simp only []
    rw [inject_and_check_all, hinj]
    simp only []
    rw [hP, hpostlen]
  generalize post.foldl motherboard_counter_add_detection stC.1 = mcD at *
  have hQ := inject_and_check_all_in_cooldown ts2 (mcD, stC.2) (by
    intro t ht
    simp only []
    rw [p4, c4]
    have h1 := hpw12 t25 ht25mem t ht
    have h2 := hnext t ht
    have h3 := hbound t (List.mem_append_right _ ht)
    rw [sub_u32_of_le _ _ h3 h1]
    omega)
  simp only [] at hQ
  obtain ⟨q1, q2, _, q4, _⟩ := add_detections_settings ts2 mcD
  obtain ⟨m1, m2, _, m4, _⟩ := add_detections_settings more
    (ts2.foldl motherboard_counter_add_detection mcD)
  rw [hrun1]
  simp only []
  rw [hQ, hlen2]
  simp only []
  rw [hrun1] at hcount
  simp only [] at hcount
  rw [hQ] at hcount
  simp only [] at hcount
  refine ⟨trivial, by decide, trivial, ?_⟩
  rw [check_trigger_true_iff]
  refine ⟨?_, ?_, ?_⟩
  · rw [m1, q1, p1, c1]
  · rw [m2, q2, p2, c2]; exact hcount
  · rw [m4, q4, p4, c4, sub_u32_of_le _ _ hnow (by omega)]
    omega

set_option maxRecDepth 1000000 in
/-- The scenario of C9 after the first 30 s at a burst of 30 detections from
time 40 000, five more from 43 000, then 25 detections around 80 000 and a
check at 80 030. -/
theorem trigger_debounce_scenario_witness :
    (inject_and_check_all (motherboard_counter_reset example_counter_25 DEFAULT_CONFIG)
        example_burst).1
      = List.replicate 24 false ++ true :: List.replicate 5 false ∧
    (inject_and_check_all (motherboard_counter_reset example_counter_25 DEFAULT_CONFIG)
        example_burst).1.count true = 1 ∧
    (inject_and_check_all
      (inject_and_check_all (motherboard_counter_reset example_counter_25 DEFAULT_CONFIG)
        example_burst).2 example_burst_next).1
      = List.replicate 5 false ∧
    (motherboard_counter_check_trigger
      (example_burst_later.foldl motherboard_counter_add_detection
        (inject_and_check_all
          (inject_and_check_all (motherboard_counter_reset example_counter_25 DEFAULT_CONFIG)
            example_burst).2 example_burst_next).2.1)
      (inject_and_check_all
        (inject_and_check_all (motherboard_counter_reset example_counter_25 DEFAULT_CONFIG)
          example_burst).2 example_burst_next).2.2
      80030).1 = true :=
  trigger_debounce_scenario example_counter_25 DEFAULT_CONFIG 40000 80030
    example_burst example_burst_next example_burst_later
    (by decide) (by decide) (by decide) (by decide) (by decide) (by decide) (by decide)
    (by decide) (by decide) (by decide) (by decide) (by decide) (by decide) (by decide)

/-- C11 (counter setters validate ranges). `motherboard_counter_set_threshold(v)`
returns true exactly when `1 ≤ v ≤ 1000` and then stores `v` in the counter and
in `system_config`; `motherboard_counter_set_window(s)` returns true exactly when
`1 ≤ s ≤ 300` and then stores `s * 1000` milliseconds in both; for every other
value the setter returns false and leaves the counter and `system_config`
unchanged. -/
theorem counter_setters_validate_ranges (mc : motherboard_counter_t)
    (cfg : system_config_t) (v s : Nat) :
    ((motherboard_counter_set_threshold mc cfg v).1 = true ↔ 1 ≤ v ∧ v ≤ 1000) ∧
    motherboard_counter_set_threshold mc cfg v
      = (if 1 ≤ v ∧ v ≤ 1000 then
          (true, { mc with count_threshold := v },
            { cfg with motherboard_count_threshold := v })
        else (false, mc, cfg)) ∧
    ((motherboard_counter_set_window mc cfg s).1 = true ↔ 1 ≤ s ∧ s ≤ 300) ∧
    motherboard_counter_set_window mc cfg s
      = (if 1 ≤ s ∧ s ≤ 300 then
          (true, { mc with time_window_ms := s * 1000 },
            { cfg with motherboard_count_window_ms := s * 1000 })
        else (false, mc, cfg)) := by
  refine ⟨?_, set_threshold_eq mc cfg v, ?_, set_window_eq mc cfg s⟩
  · rw [set_threshold_eq]
    by_cases h : 1 ≤ v ∧ v ≤ 1000
    · rw [if_pos h]; exact ⟨fun _ => h, fun _ => rfl⟩
    · rw [if_neg h]; exact ⟨fun hf => absurd hf (by simp), fun hh => absurd hh h⟩
  · rw [set_window_eq]
    by_cases h : 1 ≤ s ∧ s ≤ 300
    · rw [if_pos h]; exact ⟨fun _ => h, fun _ => rfl⟩
    · rw [if_neg h]; exact ⟨fun hf => absurd hf (by simp), fun hh => absurd hh h⟩

/-- C12 as stated fails for histories of `2^32` or more detections: the lifetime
total is a `uint32_t`, so after `2^32` detections on a freshly reset enabled
counter it reads 0, not `2^32`. -/
theorem ring_lifetime_total_wraps_counterexample :
    (List.replicate 4294967296 0).length = 4294967296 ∧
    ((List.replicate 4294967296 0).foldl motherboard_counter_add_detection
      (motherboard_counter_reset example_counter DEFAULT_CONFIG).1).total_motherboard_detections
      = 0 := by
  refine ⟨List.length_replicate _ _, ?_⟩
  have h := (add_detections_after_reset example_counter DEFAULT_CONFIG
    (List.replicate 4294967296 0) (by decide)).2.1
  rw [List.length_replicate] at h
  exact h

/-- C12, amended (the ring keeps the newest entries). For every sequence of `n`
timestamps added with `motherboard_counter_add_detection` to a freshly reset,
enabled counter: `buffer_count = min n 100`; `total_motherboard_detections` is
`n` modulo `2^32`, hence `n` whenever `n < 2^32`; and the first `buffer_count`
ring slots hold, up to order, exactly the last `min n 100` timestamps added.
On a disabled counter `motherboard_counter_add_detection` changes nothing. -/
theorem ring_keeps_newest_entries (mc0 : motherboard_counter_t) (cfg : system_config_t)
    (ts : List Nat) (hen : mc0.enabled = true) :
    (ts.foldl motherboard_counter_add_detection
      (motherboard_counter_reset mc0 cfg).1).buffer_count = min ts.length 100 ∧
    (ts.foldl motherboard_counter_add_detection
      (motherboard_counter_reset mc0 cfg).1).total_motherboard_detections
      = ts.length % 4294967296 ∧
    (ts.length < 4294967296 →
      (ts.foldl motherboard_counter_add_detection
        (motherboard_counter_reset mc0 cfg).1).total_motherboard_detections = ts.length) ∧
    (stored_timestamps (ts.foldl motherboard_counter_add_detection
      (motherboard_counter_reset mc0 cfg).1)).Perm
        (ts.drop (ts.length - min ts.length 100)) ∧
    (∀ (mc : motherboard_counter_t) (t : Nat), mc.enabled = false →
      motherboard_counter_add_detection mc t = mc) := by
  obtain ⟨h1, h2, h3⟩ := add_detections_after_reset mc0 cfg ts hen
  refine ⟨h1, h2, ?_, stored_timestamps_perm _ ts h1 h3, ?_⟩
  · intro hlt
    rw [h2, Nat.mod_eq_of_lt hlt]
  · intro mc t hdis
    unfold motherboard_counter_add_detection
    simp [hdis]

/-- Witness for C12 (amended): 105 detections added to the default counter
after a reset. -/
theorem ring_keeps_newest_entries_witness :
    (example_long_history.foldl motherboard_counter_add_detection
      (motherboard_counter_reset example_counter DEFAULT_CONFIG).1).buffer_count
      = min example_long_history.length 100 ∧
    (example_long_history.foldl motherboard_counter_add_detection
      (motherboard_counter_reset example_counter DEFAULT_CONFIG).1).total_motherboard_detections
      = example_long_history.length % 4294967296 ∧
    (example_long_history.length < 4294967296 →
      (example_long_history.foldl motherboard_counter_add_detection
        (motherboard_counter_reset example_counter
          DEFAULT_CONFIG).1).total_motherboard_detections = example_long_history.length) ∧
    (stored_timestamps (example_long_history.foldl motherboard_counter_add_detection
      (motherboard_counter_reset example_counter DEFAULT_CONFIG).1)).Perm
        (example_long_history.drop
          (example_long_history.length - min example_long_history.length 100)) ∧
    (∀ (mc : motherboard_counter_t) (t : Nat), mc.enabled = false →
      motherboard_counter_add_detection mc t = mc) :=
  ring_keeps_newest_entries example_counter DEFAULT_CONFIG example_long_history (by decide)

/-- C14 (hex encoding). For every NUL-free byte string `s`, `string_to_hex s`
has length `2 * |s|`, consists only of the characters `0`–`9` and `A`–`F`, its
characters `2i` and `2i + 1` are the high and the low nibble of byte `i` of `s`,
and decoding it pairwise as hexadecimal gives back `s`, so the encoding is
one-to-one; `"HELLO"` encodes to `"48454C4C4F"`. -/
theorem string_to_hex_encoding (s : List Nat) (hs : is_byte_string s) :
    (string_to_hex s).length = 2 * s.length ∧
    (∀ c ∈ string_to_hex s, c ∈ ascii "0123456789ABCDEF") ∧
    (∀ i, i < s.length →
      (string_to_hex s).getD (2 * i) 0 = hex_digit (s.getD i 0 / 16) ∧
      (string_to_hex s).getD (2 * i + 1) 0 = hex_digit (s.getD i 0 % 16)) ∧
    hex_decode (string_to_hex s) = s ∧
    (∀ s', is_byte_string s' → string_to_hex s' = string_to_hex s → s' = s) ∧
    string_to_hex (ascii "HELLO") = ascii "48454C4C4F" := by
  have hnul : ∀ b ∈ s, b ≠ 0 := fun b hb => (hs b hb).1
  refine ⟨string_to_hex_length s hnul, string_to_hex_chars s hnul, ?_,
    hex_decode_string_to_hex s hs, ?_, by decide⟩
  · intro i hi
    have h := string_to_hex_nibbles s hnul i hi
    have hlt : s.getD i 0 < 256 := (hs _ (getD_mem_of_lt s i hi)).2
    rw [Nat.mod_eq_of_lt hlt] at h
    exact h
  · intro s' hs' heq
    rw [← hex_decode_string_to_hex s' hs', heq, hex_decode_string_to_hex s hs]

/-- Witness for C14: the string `"D,M,87"`. -/
theorem string_to_hex_encoding_witness :
    (string_to_hex (ascii "D,M,87")).length = 2 * (ascii "D,M,87").length ∧
    (∀ c ∈ string_to_hex (ascii "D,M,87"), c ∈ ascii "0123456789ABCDEF") ∧
    (∀ i, i < (ascii "D,M,87").length →
      (string_to_hex (ascii "D,M,87")).getD (2 * i) 0
        = hex_digit ((ascii "D,M,87").getD i 0 / 16) ∧
      (string_to_hex (ascii "D,M,87")).getD (2 * i + 1) 0
        = hex_digit ((ascii "D,M,87").getD i 0 % 16)) ∧
    hex_decode (string_to_hex (ascii "D,M,87")) = ascii "D,M,87" ∧
    (∀ s', is_byte_string s' →
      string_to_hex s' = string_to_hex (ascii "D,M,87") → s' = ascii "D,M,87") ∧
    string_to_hex (ascii "HELLO") = ascii "48454C4C4F" :=
  string_to_hex_encoding (ascii "D,M,87") (by decide)

/-- C13 (payload limit). On an initialized engine that is not in the Sending
state, for every NUL-free payload of at most 20 bytes `lora_send_message` issues
exactly one AT transaction, whose command line is `AT+SEND=2:` followed by the
hex encoding of the payload (two characters per byte, so 40 for 20 bytes), and
returns the result of that transaction; for every NUL-free payload of more than
20 bytes it returns `LORA_ERROR_SEND`, leaves the serial channel untouched and
the engine in the Connected state. -/
theorem lora_send_message_payload_limit (m : lora_module_t) (io : serial1_t)
    (ty : lora_message_type_t) (payload : List Nat) (now : Nat)
    (hinit : m.initialization_complete = true) (hstate : m.state ≠ LORA_STATE_SENDING)
    (hnul : ∀ b ∈ payload, b ≠ 0) :
    (payload.length ≤ 20 →
      (lora_send_message m io ty (some payload) now).2.2.tx
        = io.tx ++ [ascii "AT+SEND=2:" ++ string_to_hex payload] ∧
      (lora_send_message m io ty (some payload) now).2.2.rx = io.rx.tail ∧
      (string_to_hex payload).length = 2 * payload.length ∧
      (lora_send_message m io ty (some payload) now).1
        = (lora_send_at_command { m with state := LORA_STATE_SENDING } io
            (some (ascii "AT+SEND=2:" ++ string_to_hex payload)) none 5000).1 ∧
      (lora_send_message m io ty (some payload) now).2.1.state = LORA_STATE_CONNECTED) ∧
    (20 < payload.length →
      lora_send_message m io ty (some payload) now
        = (LORA_ERROR_SEND, { m with state := LORA_STATE_CONNECTED }, io)) := by
  constructor
  · intro hlen
    obtain ⟨h1, h2, h3, _, _⟩ :=
      lora_send_message_accepted m io ty payload now hinit hstate hnul hlen
    have hs : snprintf 100 (ascii "AT+SEND=2:" ++ string_to_hex payload)
        = ascii "AT+SEND=2:" ++ string_to_hex payload := by
      unfold snprintf
      apply List.take_of_length_le
      rw [List.length_append, string_to_hex_length payload hnul]
      have : (ascii "AT+SEND=2:").length = 10 := by decide
      omega
    rw [hs] at h1
    refine ⟨?_, ?_, string_to_hex_length payload hnul, h1, h3⟩
    · rw [h2]
    · rw [h2]
  · intro hlen
    exact lora_send_message_too_long m io ty payload now hinit hstate
      (by rw [strlen_of_nul_free payload hnul]; exact hlen)

set_option maxRecDepth 1000000 in
/-- Witness for C13: the 20-byte payload `S,4294967,4294967295` is sent as one
command with 40 hex characters, the 21-byte payload `MT,100,100,300,100000` is
rejected. -/
theorem lora_send_message_payload_limit_witness :
    ((lora_send_message example_lora_module example_serial1 LORA_MSG_STATUS
        (some (ascii "S,4294967,4294967295")) 0).2.2.tx
      = example_serial1.tx
          ++ [ascii "AT+SEND=2:" ++ string_to_hex (ascii "S,4294967,4294967295")] ∧
      (lora_send_message example_lora_module example_serial1 LORA_MSG_STATUS
        (some (ascii "S,4294967,4294967295")) 0).2.2.rx = example_serial1.rx.tail ∧
      (string_to_hex (ascii "S,4294967,4294967295")).length
        = 2 * (ascii "S,4294967,4294967295").length ∧
      (lora_send_message example_lora_module example_serial1 LORA_MSG_STATUS
        (some (ascii "S,4294967,4294967295")) 0).1
        = (lora_send_at_command { example_lora_module with state := LORA_STATE_SENDING }
            example_serial1
            (some (ascii "AT+SEND=2:" ++ string_to_hex (ascii "S,4294967,4294967295")))
            none 5000).1 ∧
      (lora_send_message example_lora_module example_serial1 LORA_MSG_STATUS
        (some (ascii "S,4294967,4294967295")) 0).2.1.state = LORA_STATE_CONNECTED) ∧
    (string_to_hex (ascii "S,4294967,4294967295")).length = 40 ∧
    lora_send_message example_lora_module example_serial1 LORA_MSG_MOTHERBOARD_TRIGGER
        (some (ascii "MT,100,100,300,100000")) 0
      = (LORA_ERROR_SEND, { example_lora_module with state := LORA_STATE_CONNECTED },
          example_serial1) :=
  ⟨(lora_send_message_payload_limit example_lora_module example_serial1 LORA_MSG_STATUS
      (ascii "S,4294967,4294967295") 0 rfl (by decide) (by decide)).1 (by decide),
    by decide,
    (lora_send_message_payload_limit example_lora_module example_serial1
      LORA_MSG_MOTHERBOARD_TRIGGER (ascii "MT,100,100,300,100000") 0 rfl (by decide)
      (by decide)).2 (by decide)⟩

/-- C18, counterexample: the event line `+EVT:JOIN_FAILED_RX_TIMEOUT` contains
the token FAIL, yet a transaction that receives it as its first line returns
`LORA_SUCCESS`, because the success test (here: the line begins with `+` and
contains `EVT:`) is made before the error test. -/
theorem at_error_line_counterexample :
    contains_bytes (ascii "+EVT:JOIN_FAILED_RX_TIMEOUT") (ascii "FAIL") = true ∧
    (lora_send_at_command example_lora_module
        { tx := [], rx := [ascii "+EVT:JOIN_FAILED_RX_TIMEOUT\r\n"] }
        (some (ascii "AT+JOIN=1:0:10:8")) none LORA_AT_TIMEOUT).1 = LORA_SUCCESS := by
  decide

/-- C18, amended: let the first line of the response, as the code reads it
(carriage returns dropped, at most 255 bytes, cut at the first NUL, white space
trimmed), be non-empty in the buffer and contain ERROR or FAIL. If that text
neither contains OK or `EVT:` nor begins with `+`, the transaction returns
`LORA_ERROR_AT_COMMAND`; if it does contain OK or `EVT:` or begins with `+`,
the transaction returns `LORA_SUCCESS` instead. -/
theorem at_error_line_fails (m : lora_module_t) (io : serial1_t)
    (command : List Nat) (response : Option (List Nat)) (timeout : Nat)
    (raw rest : List Nat) (htime : timeout ≠ 0) (hrx : io.rx.headD [] = raw ++ 10 :: rest)
    (hraw : ∀ c ∈ raw, c ≠ 10) (hne : buffered_line raw ≠ [])
    (herr : contains_bytes (response_text raw) (ascii "ERROR") = true ∨
      contains_bytes (response_text raw) (ascii "FAIL") = true) :
    ((contains_bytes (response_text raw) (ascii "OK") = false ∧
        contains_bytes (response_text raw) (ascii "EVT:") = false ∧
        (ascii "+").isPrefixOf (response_text raw) = false) →
      (lora_send_at_command m io (some command) response timeout).1
        = LORA_ERROR_AT_COMMAND) ∧
    ((contains_bytes (response_text raw) (ascii "OK") = true ∨
        contains_bytes (response_text raw) (ascii "EVT:") = true ∨
        (ascii "+").isPrefixOf (response_text raw) = true) →
      (lora_send_at_command m io (some command) response timeout).1 = LORA_SUCCESS) := by
  have hclass : (contains_bytes (response_text raw) (ascii "ERROR") ||
      contains_bytes (response_text raw) (ascii "FAIL")) = true := by
    rcases herr with h | h <;> simp [h]
  have key := lora_send_at_command_first_line m io command response timeout raw rest
    htime hrx hraw hne (Or.inr hclass)
  constructor
  · rintro ⟨hok, hevt, hplus⟩
    have hneq : (response_text raw == ascii "OK") = false := by
      apply Bool.eq_false_iff.mpr
      intro h
      have h2 : response_text raw = ascii "OK" := by simpa using h
      rw [h2] at hok
      exact absurd hok (by decide)
    rw [key, hneq, hok, hevt, hplus]
    rfl
  · intro h
    rw [key, if_pos]
    rcases h with h | h | h <;> simp [h]

set_option maxRecDepth 1000000 in
/-- C18, the amended statement at the line `AT_PARAM_ERROR`. -/
theorem at_error_line_fails_witness :
    (lora_send_at_command example_lora_module
        { tx := [], rx := [ascii "AT_PARAM_ERROR\r\n"] }
        (some (ascii "AT+SEND=2:00")) none LORA_AT_TIMEOUT).1 = LORA_ERROR_AT_COMMAND :=
  (at_error_line_fails example_lora_module
      { tx := [], rx := [ascii "AT_PARAM_ERROR\r\n"] }
      (ascii "AT+SEND=2:00") none LORA_AT_TIMEOUT (ascii "AT_PARAM_ERROR\r") []
      (by decide) (by decide) (by decide) (by decide) (Or.inl (by decide))).1
    ⟨by decide, by decide, by decide⟩

/-- C19: what `lora_init` does on every engine, port script and time. If the
liveness command `AT` fails, it returns `LORA_ERROR_INIT` with state
`LORA_STATE_ERROR`, `lora_is_initialized` true and nothing else sent to the
modem. If `AT` succeeds and every line that the version query completes fits
the 100 bytes of `version_buffer` (as every reply shorter than 100 bytes does),
it returns `LORA_SUCCESS` with state `LORA_STATE_CONNECTED` and
`lora_is_initialized` true after sending the version query and the
network-mode command, whatever the modem answers to these two. If `AT`
succeeds and the version query completes a line that does not fit, the copy
runs past the end of `version_buffer` and `lora_init` has no defined result. -/
theorem lora_init_degraded_mode (m : lora_module_t) (io : serial1_t) (now : Nat) :
    ((lora_send_at_command m io (some (ascii "AT")) none 2000).1 ≠ LORA_SUCCESS →
      ∃ m' io', lora_init m io now = some (LORA_ERROR_INIT, m', io') ∧
        lora_is_initialized m' = true ∧ lora_get_state m' = LORA_STATE_ERROR ∧
        io'.tx = io.tx ++ [ascii "AT"]) ∧
    ((lora_send_at_command m io (some (ascii "AT")) none 2000).1 = LORA_SUCCESS →
      lora_at_read_loop_strcpy_fits 100 (io.rx.tail.headD []) (lora_clear_response_buffer m)
        = true →
      ∃ m' io', lora_init m io now = some (LORA_SUCCESS, m', io') ∧
        lora_is_initialized m' = true ∧ lora_get_state m' = LORA_STATE_CONNECTED ∧
        io'.tx = io.tx ++ [ascii "AT", ascii "AT+VER=?", ascii "AT+NWM=1"]) ∧
    ((lora_send_at_command m io (some (ascii "AT")) none 2000).1 = LORA_SUCCESS →
      lora_at_read_loop_strcpy_fits 100 (io.rx.tail.headD []) (lora_clear_response_buffer m)
        = false →
      lora_init m io now = none) ∧
    ((io.rx.tail.headD []).length < 100 →
      lora_at_read_loop_strcpy_fits 100 (io.rx.tail.headD []) (lora_clear_response_buffer m)
        = true) := by
  have hres := lora_send_at_command_result
    (lora_clear_response_buffer { m with
      state := LORA_STATE_INITIALIZING
      initialization_complete := false
      pending_message := { m.pending_message with pending := false }
      command_timeout := LORA_AT_TIMEOUT }) m io (some (ascii "AT")) none 2000
  obtain ⟨c1, c2, c3⟩ := lora_send_at_command_c_str_ascii
  have hfit : ∀ (m1 : lora_module_t),
      lora_send_at_command_strcpy_fits 100 m1 { tx := io.tx ++ [ascii "AT"], rx := io.rx.tail }
        (some (ascii "AT+VER=?")) 2000
      = lora_at_read_loop_strcpy_fits 100 (io.rx.tail.headD [])
          (lora_clear_response_buffer m) := by
    intro m1
    unfold lora_send_at_command_strcpy_fits
    simp only [show (2000 : Nat) ≠ 0 by omega, if_false]
    exact lora_at_read_loop_strcpy_fits_congr 100 _ _ _ rfl rfl
  unfold lora_init lora_is_initialized lora_get_state
  simp only []
  rw [hres]
  simp only [(lora_send_at_command_some _ _ _ _ _).1, c1, c2, c3, hfit]
  refine ⟨?_, ?_, ?_, ?_⟩
  · intro h
    rw [if_pos h]
    exact ⟨_, _, rfl, rfl, rfl, rfl⟩
  · intro h hf
    rw [if_neg (not_not.mpr h), hf]
    simp only [Bool.not_true, Bool.false_eq_true, if_false]
    refine ⟨_, _, rfl, rfl, rfl, ?_⟩
    simp only [List.append_assoc, List.singleton_append]
    rfl
  · intro h hf
    rw [if_neg (not_not.mpr h), hf]
    rfl
  · intro hs
    exact lora_at_read_loop_strcpy_fits_of_short 100 _ _ (by
      simp only [lora_clear_response_buffer, List.length_nil]
      omega)

set_option maxRecDepth 1000000 in
/-- C19 at three modems: one that never answers; one that answers `OK` to
`AT` and `AT_ERROR` to the version query and to the network-mode command; and
one that answers `OK` to `AT` and a line of 120 bytes to the version query, on
which `lora_init` has no defined result. -/
theorem lora_init_degraded_mode_witness :
    (∃ m' io', lora_init example_lora_module { tx := [], rx := [] } 600
        = some (LORA_ERROR_INIT, m', io') ∧
      lora_is_initialized m' = true ∧ lora_get_state m' = LORA_STATE_ERROR ∧
      io'.tx = [] ++ [ascii "AT"]) ∧
    (∃ m' io', lora_init example_lora_module
        { tx := [], rx := [ascii "OK\r\n", ascii "AT_ERROR\r\n", ascii "AT_ERROR\r\n"] } 600
        = some (LORA_SUCCESS, m', io') ∧
      lora_is_initialized m' = true ∧ lora_get_state m' = LORA_STATE_CONNECTED ∧
      io'.tx = [] ++ [ascii "AT", ascii "AT+VER=?", ascii "AT+NWM=1"]) ∧
    lora_init example_lora_module example_serial1_long_version 600 = none :=
  ⟨(lora_init_degraded_mode example_lora_module { tx := [], rx := [] } 600).1 (by decide),
    (lora_init_degraded_mode example_lora_module
      { tx := [], rx := [ascii "OK\r\n", ascii "AT_ERROR\r\n", ascii "AT_ERROR\r\n"] } 600).2.1
      (by decide) (by decide),
    (lora_init_degraded_mode example_lora_module example_serial1_long_version 600).2.2.1
      (by decide) (by decide)⟩

/-- C17: with no pending message `lora_process_pending_messages` changes
nothing and returns `LORA_SUCCESS`. With a pending message it makes one call of
`lora_send_message`: on success the pending flag is cleared, `retry_count` is 0
and the result is `LORA_SUCCESS`; on failure `retry_count` is incremented and,
while it stays below 3, the message stays pending (result `LORA_SUCCESS`),
otherwise the message is dropped (pending cleared, `retry_count` 0,
`messages_failed` incremented once more, result `LORA_ERROR_SEND`). A message
with `retry_count` 0 whose sends all fail is kept at the first and second call
and dropped at the third. -/
theorem pending_message_bounded_retry (m : lora_module_t) (io : serial1_t) (now : Nat) :
    (m.pending_message.pending = false →
      lora_process_pending_messages m io now = (LORA_SUCCESS, m, io)) ∧
    (m.pending_message.pending = true →
      (lora_process_pending_messages m io now).2.2
        = (lora_send_message m io m.pending_message.type (some m.pending_message.payload)
            now).2.2 ∧
      ((lora_send_message m io m.pending_message.type (some m.pending_message.payload)
          now).1 = LORA_SUCCESS →
        (lora_process_pending_messages m io now).1 = LORA_SUCCESS ∧
        (lora_process_pending_messages m io now).2.1.pending_message.pending = false ∧
        (lora_process_pending_messages m io now).2.1.pending_message.retry_count = 0 ∧
        (lora_process_pending_messages m io now).2.1.stats
          = (lora_send_message m io m.pending_message.type (some m.pending_message.payload)
              now).2.1.stats) ∧
      ((lora_send_message m io m.pending_message.type (some m.pending_message.payload)
          now).1 ≠ LORA_SUCCESS →
        ((m.pending_message.retry_count + 1) % 256 < LORA_MAX_RETRY_COUNT →
          (lora_process_pending_messages m io now).1 = LORA_SUCCESS ∧
          (lora_process_pending_messages m io now).2.1.pending_message
            = { m.pending_message with
                retry_count := (m.pending_message.retry_count + 1) % 256 } ∧
          (lora_process_pending_messages m io now).2.1.stats
            = (lora_send_message m io m.pending_message.type
                (some m.pending_message.payload) now).2.1.stats) ∧
        (LORA_MAX_RETRY_COUNT ≤ (m.pending_message.retry_count + 1) % 256 →
          (lora_process_pending_messages m io now).1 = LORA_ERROR_SEND ∧
          (lora_process_pending_messages m io now).2.1.pending_message.pending = false ∧
          (lora_process_pending_messages m io now).2.1.pending_message.retry_count = 0 ∧
          (lora_process_pending_messages m io now).2.1.stats.messages_failed
            = ((lora_send_message m io m.pending_message.type
                (some m.pending_message.payload) now).2.1.stats.messages_failed + 1)
                % 4294967296))) ∧
    (∀ (now2 now3 : Nat) (m1 m2 : lora_module_t) (io1 io2 : serial1_t),
      m.pending_message.pending = true → m.pending_message.retry_count = 0 →
      (lora_process_pending_messages m io now).2 = (m1, io1) →
      (lora_process_pending_messages m1 io1 now2).2 = (m2, io2) →
      (lora_send_message m io m.pending_message.type (some m.pending_message.payload)
          now).1 ≠ LORA_SUCCESS →
      (lora_send_message m1 io1 m.pending_message.type (some m.pending_message.payload)
          now2).1 ≠ LORA_SUCCESS →
      (lora_send_message m2 io2 m.pending_message.type (some m.pending_message.payload)
          now3).1 ≠ LORA_SUCCESS →
      (lora_process_pending_messages m io now).1 = LORA_SUCCESS ∧
      m1.pending_message = { m.pending_message with retry_count := 1 } ∧
      (lora_process_pending_messages m1 io1 now2).1 = LORA_SUCCESS ∧
      m2.pending_message = { m.pending_message with retry_count := 2 } ∧
      (lora_process_pending_messages m2 io2 now3).1 = LORA_ERROR_SEND ∧
      (lora_process_pending_messages m2 io2 now3).2.1.pending_message
        = { m.pending_message with pending := false, retry_count := 0 }) := by
  refine ⟨?_, ?_, ?_⟩
  · intro hp
    unfold lora_process_pending_messages
    rw [if_neg (by simp [hp])]
  · intro hp
    refine ⟨?_, ?_, ?_⟩
    · by_cases hs : (lora_send_message m io m.pending_message.type
          (some m.pending_message.payload) now).1 = LORA_SUCCESS
      · rw [process_pending_sent m io now hp hs]
      · by_cases hrc : (m.pending_message.retry_count + 1) % 256 < 3
        · rw [process_pending_retry m io now hp hs hrc]
        · rw [process_pending_dropped m io now hp hs (by omega)]
    · intro hs
      rw [process_pending_sent m io now hp hs]
      exact ⟨rfl, rfl, rfl, rfl⟩
    · intro hs
      constructor
      · intro hrc
        rw [process_pending_retry m io now hp hs hrc]
        exact ⟨rfl, rfl, rfl⟩
      · intro hrc
        rw [process_pending_dropped m io now hp hs hrc]
        exact ⟨rfl, rfl, rfl, rfl⟩
  · intro now2 now3 m1 m2 io1 io2 hp hrc h1 h2 hs1 hs2 hs3
    have e1 := process_pending_retry m io now hp hs1 (by rw [hrc]; decide)
    rw [e1] at h1
    have hm1 : m1.pending_message = { m.pending_message with retry_count := 1 } := by
      have := congrArg (fun p => p.1.pending_message) h1
      simp only [hrc] at this
      exact this.symm
    have hp1 : m1.pending_message.pending = true := by rw [hm1]; exact hp
    have ht1 : m1.pending_message.type = m.pending_message.type := by rw [hm1]
    have hy1 : m1.pending_message.payload = m.pending_message.payload := by rw [hm1]
    have hr1 : m1.pending_message.retry_count = 1 := by rw [hm1]
    rw [← ht1, ← hy1] at hs2
    have e2 := process_pending_retry m1 io1 now2 hp1 hs2 (by rw [hr1]; decide)
    rw [e2] at h2
    have hm2 : m2.pending_message = { m.pending_message with retry_count := 2 } := by
      have := congrArg (fun p => p.1.pending_message) h2
      simp only [hr1, hm1] at this
      exact this.symm
    have hp2 : m2.pending_message.pending = true := by rw [hm2]; exact hp
    have ht2 : m2.pending_message.type = m.pending_message.type := by rw [hm2]
    have hy2 : m2.pending_message.payload = m.pending_message.payload := by rw [hm2]
    have hr2 : m2.pending_message.retry_count = 2 := by rw [hm2]
    rw [← ht2, ← hy2] at hs3
    have e3 := process_pending_dropped m2 io2 now3 hp2 hs3 (by rw [hr2])
    rw [e1, e2, e3]
    refine ⟨rfl, hm1, rfl, hm2, rfl, ?_⟩
    simp only [hm2]

set_option maxRecDepth 1000000 in
/-- C17 at a modem that never answers: the message `D,M,87` is sent three
times, and the third call drops it. -/
theorem pending_message_bounded_retry_witness :
    (lora_process_pending_messages example_pending_module silent_serial1 100).1
      = LORA_SUCCESS ∧
    (lora_process_pending_messages
      (lora_process_pending_messages example_pending_module silent_serial1 100).2.1
      (lora_process_pending_messages example_pending_module silent_serial1 100).2.2 200).1
      = LORA_SUCCESS ∧
    (lora_process_pending_messages
      (lora_process_pending_messages
        (lora_process_pending_messages example_pending_module silent_serial1 100).2.1
        (lora_process_pending_messages example_pending_module silent_serial1 100).2.2 200).2.1
      (lora_process_pending_messages
        (lora_process_pending_messages example_pending_module silent_serial1 100).2.1
        (lora_process_pending_messages example_pending_module silent_serial1 100).2.2 200).2.2
      300).1 = LORA_ERROR_SEND ∧
    (lora_process_pending_messages
      (lora_process_pending_messages
        (lora_process_pending_messages example_pending_module silent_serial1 100).2.1
        (lora_process_pending_messages example_pending_module silent_serial1 100).2.2 200).2.1
      (lora_process_pending_messages
        (lora_process_pending_messages example_pending_module silent_serial1 100).2.1
        (lora_process_pending_messages example_pending_module silent_serial1 100).2.2 200).2.2
      300).2.2.tx
      = [ascii "AT+SEND=2:442C4D2C3837", ascii "AT+SEND=2:442C4D2C3837",
          ascii "AT+SEND=2:442C4D2C3837"] :=
  have h := (pending_message_bounded_retry example_pending_module silent_serial1 100).2.2
    200 300
    (lora_process_pending_messages example_pending_module silent_serial1 100).2.1
    (lora_process_pending_messages
      (lora_process_pending_messages example_pending_module silent_serial1 100).2.1
      (lora_process_pending_messages example_pending_module silent_serial1 100).2.2 200).2.1
    (lora_process_pending_messages example_pending_module silent_serial1 100).2.2
    (lora_process_pending_messages
      (lora_process_pending_messages example_pending_module silent_serial1 100).2.1
      (lora_process_pending_messages example_pending_module silent_serial1 100).2.2 200).2.2
    rfl rfl rfl rfl (by decide) (by decide) (by decide)
  ⟨h.1, h.2.2.1, h.2.2.2.2.1, by decide⟩

set_option maxRecDepth 1000000 in
/-- C15: of the 32 spellings of the five letters in upper and lower case,
`lora_parse_reset_command` returns true on `RESET` and `reset` only; it
returns false on the other thirty, `Reset` and `rEsEt` among them, because the
search in the plain text compares bytes exactly with these two needles. The
search for the hexadecimal form does accept a mixed spelling: the needle
`52657365` is the encoding of `Rese`, and the parser returns true on
`5265736574`, the encoding of `Reset`. -/
theorem reset_token_mixed_case_rejected :
    reset_spellings.length = 32 ∧
    ascii "Reset" ∈ reset_spellings ∧ ascii "rEsEt" ∈ reset_spellings ∧
    (∀ w ∈ reset_spellings,
      lora_parse_reset_command (some w) = (w == ascii "RESET" || w == ascii "reset")) ∧
    (reset_spellings.filter (fun w => !lora_parse_reset_command (some w))).length = 30 ∧
    lora_parse_reset_command (some (ascii "Reset")) = false ∧
    lora_parse_reset_command (some (ascii "rEsEt")) = false ∧
    string_to_hex (ascii "Rese") = ascii "52657365" ∧
    string_to_hex (ascii "Reset") = ascii "5265736574" ∧
    lora_parse_reset_command (some (string_to_hex (ascii "Reset"))) = true := by
  decide

/-- The two spellings of C15 that the parser accepts: for every downlink
payload whose text contains the five letters all in upper case (`RESET`) or
all in lower case (`reset`) as consecutive bytes, `lora_parse_reset_command`
returns true. -/
theorem reset_token_upper_or_lower (data : List Nat)
    (h : ascii "RESET" <:+: c_str data ∨ ascii "reset" <:+: c_str data) :
    lora_parse_reset_command (some data) = true :=
  (lora_parse_reset_command_iff data).mpr (h.elim Or.inl (fun h => Or.inr (Or.inl h)))

/-- The parser accepts the payload `please reset now`. -/
theorem reset_token_upper_or_lower_witness :
    lora_parse_reset_command (some (ascii "please reset now")) = true :=
  reset_token_upper_or_lower (ascii "please reset now")
    (Or.inr ⟨ascii "please ", ascii " now", by decide⟩)

/-- C16, counterexample: on the payload `RESET` the parser returns true and
`lora_process_downlink_command` ends in the restart of the processor, so it
returns no result; on the null pointer the parser returns false and
`lora_process_downlink_command` returns `LORA_ERROR_INIT`. -/
theorem downlink_returns_success_counterexample :
    (lora_parse_reset_command (some (ascii "RESET")) = true ∧
      ended_in_reset (lora_process_downlink_command 5 example_firmware
        (some (ascii "RESET")) 5000 5000) = true ∧
      returned_result (lora_process_downlink_command 5 example_firmware
        (some (ascii "RESET")) 5000 5000) = none) ∧
    (lora_parse_reset_command none = false ∧
      returned_result (lora_process_downlink_command 5 example_firmware none 5000 5000)
        = some LORA_ERROR_INIT) := by
  obtain ⟨_, _, _, h⟩ := lora_process_downlink_command_reset 0 example_firmware
    (ascii "RESET") 5000 5000 (by decide)
  refine ⟨⟨by decide, ?_, ?_⟩, rfl, rfl⟩
  · rw [h]; rfl
  · rw [h]; rfl

/-- C16, amended: `lora_parse_reset_command(data)` returns true if and only if
the text of `data` contains one of the six substrings. For a non-null command
on which the parser returns false, `lora_process_downlink_command` changes
nothing and returns `LORA_SUCCESS`. For one on which it returns true, the
remote-reset sequence runs once (one alert, one save of the configuration, one
pulse on the reset pin) and the call ends in the restart of the processor
without returning. For the null pointer it returns `LORA_ERROR_INIT` and
changes nothing. -/
theorem downlink_command_recognition (fuel : Nat) (w : firmware_t) (data : List Nat)
    (now now_sent : Nat) :
    (lora_parse_reset_command (some data) = true ↔
      (ascii "RESET" <:+: c_str data ∨ ascii "reset" <:+: c_str data ∨
        ascii "\"cmd\":\"reset\"" <:+: c_str data ∨
        ascii "\"command\":\"reset\"" <:+: c_str data ∨
        ascii "52455345" <:+: c_str data ∨ ascii "52657365" <:+: c_str data)) ∧
    (lora_parse_reset_command (some data) = false →
      lora_process_downlink_command fuel w (some data) now now_sent
        = some (downlink_exit_t.returned LORA_SUCCESS w)) ∧
    (lora_parse_reset_command (some data) = true →
      ∃ r flash, config_save_to_flash (fuel + 5) w.flash = some (r, flash) ∧
        lora_process_downlink_command (fuel + 5) w (some data) now now_sent
          = some (downlink_exit_t.system_reset
              { lora_module := (lora_send_alert w.lora_module w.Serial1
                  (some (ascii "Reset command received, executing reset")) now now_sent).2.1
                Serial1 := (lora_send_alert w.lora_module w.Serial1
                  (some (ascii "Reset command received, executing reset")) now now_sent).2.2
                flash := flash
                gpio_module := { w.gpio_module with
                  reset_control := { w.gpio_module.reset_control with
                    current_state := false, state := GPIO_STATE_OFF } }
                pins := w.pins ++ [(PIN_RESET_CONTROL, HIGH), (PIN_RESET_CONTROL, LOW)] })) ∧
    lora_process_downlink_command fuel w none now now_sent
      = some (downlink_exit_t.returned LORA_ERROR_INIT w) :=
  ⟨lora_parse_reset_command_iff data,
    lora_process_downlink_command_ignored fuel w data now now_sent,
    lora_process_downlink_command_reset fuel w data now now_sent,
    rfl⟩

set_option maxRecDepth 1000000 in
/-- C16 on a running device: the payload `hello` is ignored, the payload
`52455345` restarts the device after one alert line went to the modem and the
reset pin was raised and lowered once. -/
theorem downlink_command_recognition_witness :
    returned_result (lora_process_downlink_command 5 example_firmware
      (some (ascii "hello")) 5000 5000) = some LORA_SUCCESS ∧
    ended_in_reset (lora_process_downlink_command 5 example_firmware
      (some (ascii "52455345")) 5000 5000) = true ∧
    (state_at_reset (lora_process_downlink_command 5 example_firmware
      (some (ascii "52455345")) 5000 5000)).map (fun w => (w.Serial1.tx, w.pins))
      = some ([ascii "AT+SEND=2:412C352C526573657420636F6D6D"], [(7, true), (7, false)]) := by
  have h1 := (downlink_command_recognition 5 example_firmware (ascii "hello") 5000 5000).2.1
    (by decide)
  obtain ⟨_, _, _, h2⟩ :=
    (downlink_command_recognition 0 example_firmware (ascii "52455345") 5000 5000).2.2.1
      (by decide)
  refine ⟨?_, ?_, ?_⟩
  · rw [h1]; rfl
  · rw [h2]; rfl
  · rw [h2]
    simp only [state_at_reset, Option.map_some', Option.some.injEq, Prod.mk.injEq]
    exact ⟨by decide, by decide⟩

/-- C20: let the fan be enabled with cycle interval `C`, `1 ≤ C < 2^32`, and
initialised at time `t0`, and let `gpio_fan_process` be called once at every
millisecond from `t0 + 1` on. After the calls up to `t0 + k` with `k < C`
nothing has changed; for `C ≤ k < 2C` the output was flipped once, to on, at
`t0 + C`; for `2C ≤ k ≤ floor(2.5 C)` it was flipped exactly twice (on at
`t0 + C`, off at `t0 + 2C`), and `total_cycles = 1`, `total_on_time = C`. -/
theorem fan_timing (g : gpio_module_t) (pins : List (Nat × Bool)) (cfg : system_config_t)
    (t0 C : Nat) (hC : 1 ≤ C) (hC32 : C < 4294967296)
    (hcfg : cfg.fan_cycle_interval = C) (hen : cfg.fan_enabled ≠ 0) :
    (gpio_fan_init g pins cfg t0).2.2 = pins ++ [(PIN_FAN, LOW)] ∧
    (gpio_fan_init g pins cfg t0).2.1.fan.current_state = false ∧
    (∀ k, k < C →
      gpio_fan_process_each_ms t0 k
          ((gpio_fan_init g pins cfg t0).2.1, (gpio_fan_init g pins cfg t0).2.2)
        = ((gpio_fan_init g pins cfg t0).2.1, pins ++ [(PIN_FAN, LOW)])) ∧
    (∀ k, C ≤ k → k < 2 * C →
      (gpio_fan_process_each_ms t0 k
          ((gpio_fan_init g pins cfg t0).2.1, (gpio_fan_init g pins cfg t0).2.2)).2
        = pins ++ [(PIN_FAN, LOW), (PIN_FAN, HIGH)] ∧
      (gpio_fan_process_each_ms t0 k
          ((gpio_fan_init g pins cfg t0).2.1,
            (gpio_fan_init g pins cfg t0).2.2)).1.fan.current_state = true ∧
      (gpio_fan_process_each_ms t0 k
          ((gpio_fan_init g pins cfg t0).2.1,
            (gpio_fan_init g pins cfg t0).2.2)).1.fan.last_toggle_time
        = (t0 + C) % 4294967296 ∧
      (gpio_fan_process_each_ms t0 k
          ((gpio_fan_init g pins cfg t0).2.1,
            (gpio_fan_init g pins cfg t0).2.2)).1.fan.total_cycles = 1) ∧
    (∀ k, 2 * C ≤ k → k ≤ 5 * C / 2 →
      (gpio_fan_process_each_ms t0 k
          ((gpio_fan_init g pins cfg t0).2.1, (gpio_fan_init g pins cfg t0).2.2)).2
        = pins ++ [(PIN_FAN, LOW), (PIN_FAN, HIGH), (PIN_FAN, LOW)] ∧
      (gpio_fan_process_each_ms t0 k
          ((gpio_fan_init g pins cfg t0).2.1,
            (gpio_fan_init g pins cfg t0).2.2)).1.fan.current_state = false ∧
      (gpio_fan_process_each_ms t0 k
          ((gpio_fan_init g pins cfg t0).2.1,
            (gpio_fan_init g pins cfg t0).2.2)).1.fan.last_toggle_time
        = (t0 + 2 * C) % 4294967296 ∧
      (gpio_fan_process_each_ms t0 k
          ((gpio_fan_init g pins cfg t0).2.1,
            (gpio_fan_init g pins cfg t0).2.2)).1.fan.total_cycles = 1 ∧
      (gpio_fan_process_each_ms t0 k
          ((gpio_fan_init g pins cfg t0).2.1,
            (gpio_fan_init g pins cfg t0).2.2)).1.fan.total_on_time = C) := by
  have hp : (gpio_fan_init g pins cfg t0).2.2 = pins ++ [(PIN_FAN, LOW)] := rfl
  have key := gpio_fan_process_each_ms_eq (gpio_fan_init g pins cfg t0).2.1
    (gpio_fan_init g pins cfg t0).2.2 t0 C
    (by simp [gpio_fan_init, hen]) rfl rfl hcfg rfl rfl hC hC32
  refine ⟨rfl, rfl, ?_, ?_, ?_⟩
  · intro k hk
    rw [key k (by omega), fan_expected, if_pos hk, hp]
  · intro k h1 h2
    rw [key k (by omega), fan_expected, if_neg (by omega), if_pos h2, hp]
    refine ⟨?_, rfl, rfl, rfl⟩
    simp only [List.append_assoc, List.singleton_append]
  · intro k h1 h2
    rw [key k (by omega), fan_expected, if_neg (by omega), if_neg (by omega), hp]
    refine ⟨?_, rfl, rfl, rfl, rfl⟩
    simp only [List.append_assoc, List.singleton_append]

set_option maxRecDepth 1000000 in
/-- C20 at `C = 3`, with the fan initialised two milliseconds before the
clock wraps: after the calls at the next seven milliseconds the pin log
holds the initial low, one high and one low, with one cycle and an on-time
of 3. -/
theorem fan_timing_witness :
    (gpio_fan_process_each_ms 4294967294 7
        ((gpio_fan_init example_gpio_module []
            { DEFAULT_CONFIG with fan_cycle_interval := 3 } 4294967294).2.1,
          (gpio_fan_init example_gpio_module []
            { DEFAULT_CONFIG with fan_cycle_interval := 3 } 4294967294).2.2)).2
      = [(10, false), (10, true), (10, false)] ∧
    (gpio_fan_process_each_ms 4294967294 7
        ((gpio_fan_init example_gpio_module []
            { DEFAULT_CONFIG with fan_cycle_interval := 3 } 4294967294).2.1,
          (gpio_fan_init example_gpio_module []
            { DEFAULT_CONFIG with fan_cycle_interval := 3 } 4294967294).2.2)).1.fan.total_cycles
      = 1 ∧
    (gpio_fan_process_each_ms 4294967294 7
        ((gpio_fan_init example_gpio_module []
            { DEFAULT_CONFIG with fan_cycle_interval := 3 } 4294967294).2.1,
          (gpio_fan_init example_gpio_module []
            { DEFAULT_CONFIG with fan_cycle_interval := 3 } 4294967294).2.2)).1.fan.total_on_time
      = 3 :=
  have h := (fan_timing example_gpio_module [] { DEFAULT_CONFIG with fan_cycle_interval := 3 }
    4294967294 3 (by decide) (by decide) rfl (by decide)).2.2.2.2 7 (by decide) (by decide)
  ⟨h.1, h.2.2.2.1, h.2.2.2.2⟩

/-- C25: for every record, `config_calculate_checksum` is the left fold from 0
of `c ↦ s xor (2 s mod 2^32)`, `s = (c + b) mod 2^32`, over the first 76 of the
record's 80 bytes, the last four being the checksum field; so the result does
not depend on the checksum field, and a record whose checksum field is set to
the result passes `config_validate_checksum`. -/
theorem checksum_definition (c : system_config_t) (x : Nat) :
    (system_config_bytes c).length = 80 ∧
    (system_config_bytes c).drop 76 = word_bytes c.checksum ∧
    config_calculate_checksum c = checksum_spec ((system_config_bytes c).take 76) ∧
    config_calculate_checksum { c with checksum := x } = config_calculate_checksum c ∧
    config_validate_checksum { c with checksum := config_calculate_checksum c } = true := by
  refine ⟨rfl, rfl, ?_, config_calculate_checksum_set_checksum c x, ?_⟩
  · unfold checksum_spec
    rw [← checksum_step_eq_spec]
    rfl
  · unfold config_validate_checksum
    simp only [config_calculate_checksum_set_checksum, beq_self_eq_true]

/-- C27: if two records have the same 80 bytes except for one byte `k` of the
checksummed region (`k < 76`), `config_calculate_checksum` gives different
values for them; so when the first passes `config_validate_checksum`, the
second, which carries the same checksum field, does not. -/
theorem single_byte_corruption_detected (c c' : system_config_t) (k b : Nat) (hk : k < 76)
    (hne : b ≠ (system_config_bytes c).getD k 0)
    (hset : system_config_bytes c' = (system_config_bytes c).set k b) :
    config_calculate_checksum c' ≠ config_calculate_checksum c ∧
    (config_validate_checksum c = true → config_validate_checksum c' = false) := by
  obtain ⟨h1, h2⟩ := checksum_single_byte c c' k b hk hne hset
  refine ⟨h1, ?_⟩
  intro hv
  have hv' : config_calculate_checksum c = c.checksum := by
    simpa [config_validate_checksum] using hv
  have hl := config_calculate_checksum_lt c
  have hl' := config_calculate_checksum_lt c'
  unfold config_validate_checksum
  simp only [beq_eq_false_iff_ne, ne_eq]
  intro h
  apply h1
  rw [← hv'] at h2
  omega

set_option maxRecDepth 1000000 in
/-- C27 at the default record with its checksum, and the same record with
byte 56 (the debug level) changed from 2 to 3. -/
theorem single_byte_corruption_detected_witness :
    config_calculate_checksum { with_checksum DEFAULT_CONFIG with debug_level := 3 }
      ≠ config_calculate_checksum (with_checksum DEFAULT_CONFIG) ∧
    config_validate_checksum { with_checksum DEFAULT_CONFIG with debug_level := 3 } = false :=
  have h := single_byte_corruption_detected (with_checksum DEFAULT_CONFIG)
    { with_checksum DEFAULT_CONFIG with debug_level := 3 } 56 3 (by decide) (by decide)
    (by decide)
  ⟨h.1, h.2 (by
    unfold config_validate_checksum
    simp only [beq_iff_eq]
    exact (with_checksum_valid DEFAULT_CONFIG).symm)⟩

/-- C26: on an initialized store `flash_clear_logs` returns `FLASH_SUCCESS`;
afterwards every log slot reads back all zero, `flash_get_log_count` is 0, the
write index is 0 and the next append lands in slot 0, `total_detections` is 0
with every other field of `system_config` as before, and the configuration
region of the flash is untouched. On a store that is not initialized it
returns `FLASH_ERROR_INIT` and changes nothing. -/
theorem clear_logs (s : Store) (tmp : detection_result_t) :
    (s.flash_initialized = true →
      (flash_clear_logs s).1 = FLASH_SUCCESS ∧
      (∀ i, i < MAX_LOG_ENTRIES →
        flash_read_detection_log (flash_clear_logs s).2 i (some tmp)
          = (FLASH_SUCCESS, some ⟨0, 0, 0, 0, 0, 0, 0, 0, 0, 0⟩)) ∧
      flash_get_log_count (flash_clear_logs s).2 = 0 ∧
      (flash_clear_logs s).2.current_log_index = 0 ∧
      (∀ r : detection_result_t, r.WF →
        log_slot (flash_write_detection_log (flash_clear_logs s).2 (some r)).2.mem 0 = r) ∧
      (flash_clear_logs s).2.system_config = { s.system_config with total_detections := 0 } ∧
      (flash_clear_logs s).2.flash_initialized = true ∧
      read_words (flash_clear_logs s).2.mem FLASH_CONFIG_OFFSET 20
        = read_words s.mem FLASH_CONFIG_OFFSET 20) ∧
    (s.flash_initialized = false → flash_clear_logs s = (FLASH_ERROR_INIT, s)) := by
  constructor
  · intro hinit
    rw [flash_clear_logs_eq s hinit]
    dsimp only
    refine ⟨rfl, ?_, ?_, rfl, ?_, rfl, hinit, ?_⟩
    · intro i hi
      rw [flash_read_detection_log_eq _ i tmp (by exact hinit) hi]
      rw [log_slot_cleared s.mem i hi]
    · rw [flash_get_log_count_eq _ (by exact hinit)]
      apply leading_valid_slots_of_first_invalid
      rw [log_slot_cleared s.mem 0 (by rw [MAX_LOG_ENTRIES_eq]; omega)]
      exact Nat.zero_ne_one
    · intro r hr
      rw [flash_write_detection_log_eq _ r (by exact hinit)]
      dsimp only
      rw [if_neg (by rw [MAX_LOG_ENTRIES_eq]; omega)]
      exact log_slot_write_same _ 0 r hr
    · exact read_words_write_words_disjoint s.mem FLASH_CONFIG_OFFSET FLASH_LOG_OFFSET 20 _
        (Or.inl (by norm_num [FLASH_CONFIG_OFFSET, FLASH_LOG_OFFSET]))
  · intro hinit
    unfold flash_clear_logs
    rw [if_pos (by simp [hinit])]

set_option maxRecDepth 1000000 in
/-- C26 on the store with entries in slots 0, 1 and 3: after the clearing the
count is 0 and slot 3 reads back all zero. -/
theorem clear_logs_witness :
    (flash_clear_logs example_store_gap).1 = FLASH_SUCCESS ∧
    flash_get_log_count (flash_clear_logs example_store_gap).2 = 0 ∧
    flash_read_detection_log (flash_clear_logs example_store_gap).2 3
        (some (example_detection 1))
      = (FLASH_SUCCESS, some ⟨0, 0, 0, 0, 0, 0, 0, 0, 0, 0⟩) :=
  have h := (clear_logs example_store_gap (example_detection 1)).1 rfl
  ⟨h.1, h.2.2.1, h.2.1 3 (by decide)⟩

/-- C28: on an initialized store `flash_get_log_count` is the length of the
longest prefix of slots 0, 1, … whose valid flag is 1: it is at most
`MAX_LOG_ENTRIES`, every slot before it is valid and the slot at it, if there
is one, is not, whatever the later slots hold. `flash_get_log_stats` reports
that count as the total, and the two class counts are the numbers of LED and
motherboard entries among these slots, so their sum does not exceed it. -/
theorem log_count_is_prefix_length (s : Store) (t l m : Nat)
    (hinit : s.flash_initialized = true) :
    flash_get_log_count s = leading_valid_slots s.mem ∧
    flash_get_log_count s ≤ MAX_LOG_ENTRIES ∧
    (∀ j, j < flash_get_log_count s → (log_slot s.mem j).valid = 1) ∧
    (flash_get_log_count s < MAX_LOG_ENTRIES →
      (log_slot s.mem (flash_get_log_count s)).valid ≠ 1) ∧
    flash_get_log_stats s (some t) (some l) (some m)
      = (FLASH_SUCCESS, some (flash_get_log_count s),
          some ((List.range (flash_get_log_count s)).countP
            (fun j => (log_slot s.mem j).object_class == CLASS_LED_ON)),
          some ((List.range (flash_get_log_count s)).countP
            (fun j => (log_slot s.mem j).object_class == CLASS_MOTHERBOARD))) ∧
    (List.range (flash_get_log_count s)).countP
        (fun j => (log_slot s.mem j).object_class == CLASS_LED_ON)
      + (List.range (flash_get_log_count s)).countP
        (fun j => (log_slot s.mem j).object_class == CLASS_MOTHERBOARD)
      ≤ flash_get_log_count s := by
  have hc := flash_get_log_count_eq s hinit
  obtain ⟨h1, h2, h3⟩ := leading_valid_slots_spec s.mem
  rw [← hc] at h1 h2 h3
  have hM : MAX_LOG_ENTRIES = 117 := rfl
  refine ⟨hc, h1, h2, h3, ?_, ?_⟩
  · unfold flash_get_log_stats
    rw [if_neg (by simp [hinit])]
    simp only []
    rw [flash_get_log_stats_loop_eq s hinit _ 0 _ 0 0 0 (by omega)
      (fun j _ hj => h2 j (by omega)) (by omega) (by omega) (by omega),
      ← List.range_eq_range']
    simp only [Nat.zero_add]
  · have := countP_add_le (fun j => (log_slot s.mem j).object_class == CLASS_LED_ON)
      (fun j => (log_slot s.mem j).object_class == CLASS_MOTHERBOARD)
      (by
        intro j hj
        have h : (log_slot s.mem j).object_class = CLASS_LED_ON := by simpa using hj
        simp only [h]
        decide)
      (List.range (flash_get_log_count s))
    rw [List.length_range] at this
    exact this

set_option maxRecDepth 1000000 in
/-- C28 on the store with entries in slots 0, 1 and 3: the count is 2 although
slot 3 is valid, and the statistics are 2 in total, 1 LED and 1 motherboard. -/
theorem log_count_is_prefix_length_witness :
    flash_get_log_count example_store_gap = 2 ∧
    (log_slot example_store_gap.mem 3).valid = 1 ∧
    (log_slot example_store_gap.mem 2).valid ≠ 1 :=
  have h := log_count_is_prefix_length example_store_gap 7 8 9 rfl
  ⟨h.1.trans (by decide), by decide, by decide⟩

/-- C29: let the bytes that arrive before the timeout be the lines `lines`
followed by an unfinished line. If no line that is non-empty in the response
buffer is classified as success (contains `OK`, begins with `+`, contains
`EVT:`) or as failure (contains `ERROR` or `FAIL`), `lora_send_at_command`
returns `LORA_SUCCESS` when at least one such non-empty line was received and
`LORA_ERROR_TIMEOUT` when none was. A null command returns
`LORA_ERROR_AT_COMMAND` and leaves the engine and the port as they were. -/
theorem at_transaction_timeout (m : lora_module_t) (io : serial1_t) (command : List Nat)
    (response : Option (List Nat)) (timeout : Nat) (lines : List (List Nat)) (rest : List Nat)
    (htime : timeout ≠ 0) (hrx : io.rx.headD [] = line_bytes lines rest)
    (hlines : ∀ l ∈ lines, ∀ c ∈ l, c ≠ 10) (hrest : ∀ c ∈ rest, c ≠ 10)
    (hnone : ∀ l ∈ lines, buffered_line l ≠ [] →
      success_line (response_text l) = false ∧ failure_line (response_text l) = false) :
    (lora_send_at_command m io (some command) response timeout).1
      = (if lines.any (fun l => decide (buffered_line l ≠ [])) = true
          then LORA_SUCCESS else LORA_ERROR_TIMEOUT) ∧
    lora_send_at_command m io none response timeout
      = (LORA_ERROR_AT_COMMAND, m, io, response) := by
  refine ⟨?_, rfl⟩
  unfold lora_send_at_command
  simp only [if_neg htime, hrx]
  rw [lora_at_read_loop_unclassified rest hrest lines _ _ false rfl rfl hlines hnone,
    Bool.false_or]

set_option maxRecDepth 1000000 in
/-- C29 at a modem that echoes the command and answers `busy`, and at one that
sends only an empty line. -/
theorem at_transaction_timeout_witness :
    (lora_send_at_command example_lora_module
        { tx := [], rx := [ascii "AT+SEND=2:00\r\nbusy\r\nAT_B"] }
        (some (ascii "AT+SEND=2:00")) none LORA_AT_TIMEOUT).1 = LORA_SUCCESS ∧
    (lora_send_at_command example_lora_module { tx := [], rx := [ascii "\r\n"] }
        (some (ascii "AT+SEND=2:00")) none LORA_AT_TIMEOUT).1 = LORA_ERROR_TIMEOUT :=
  ⟨(at_transaction_timeout example_lora_module
      { tx := [], rx := [ascii "AT+SEND=2:00\r\nbusy\r\nAT_B"] } (ascii "AT+SEND=2:00") none
      LORA_AT_TIMEOUT [ascii "AT+SEND=2:00\r", ascii "busy\r"] (ascii "AT_B")
      (by decide) (by decide) (by decide) (by decide) (by decide)).1,
    (at_transaction_timeout example_lora_module { tx := [], rx := [ascii "\r\n"] }
      (ascii "AT+SEND=2:00") none LORA_AT_TIMEOUT [ascii "\r"] []
      (by decide) (by decide) (by decide) (by decide) (by decide)).1⟩

/-- C23: `gpio_status_led_set_pattern(p)` returns `GPIO_ERROR_INVALID_VALUE`
and leaves the GPIO state unchanged for `p > 5`; for `p ≤ 5` it returns
`GPIO_SUCCESS`, sets `blink_pattern` to `p`, `pattern_index` to 0 and
`last_blink_time` to the current time, and changes nothing else: not the
output, not the blink interval, not the other controls. -/
theorem status_led_set_pattern (g : gpio_module_t) (p now : Nat) :
    (5 < p → gpio_status_led_set_pattern g p now = (GPIO_ERROR_INVALID_VALUE, g)) ∧
    (p ≤ 5 →
      (gpio_status_led_set_pattern g p now).1 = GPIO_SUCCESS ∧
      (gpio_status_led_set_pattern g p now).2.status_led.blink_pattern = p ∧
      (gpio_status_led_set_pattern g p now).2.status_led.pattern_index = 0 ∧
      (gpio_status_led_set_pattern g p now).2.status_led.last_blink_time = now ∧
      (gpio_status_led_set_pattern g p now).2.status_led.current_state
        = g.status_led.current_state ∧
      (gpio_status_led_set_pattern g p now).2.status_led.blink_interval
        = g.status_led.blink_interval ∧
      (gpio_status_led_set_pattern g p now).2
        = { g with status_led := { g.status_led with
              blink_pattern := p, pattern_index := 0, last_blink_time := now } }) := by
  constructor
  · intro h
    unfold gpio_status_led_set_pattern
    rw [if_pos (by unfold LED_PATTERN_SOLID_ON; omega)]
  · intro h
    unfold gpio_status_led_set_pattern
    rw [if_neg (by unfold LED_PATTERN_SOLID_ON; omega)]
    exact ⟨rfl, rfl, rfl, rfl, rfl, rfl, rfl⟩

/-- C23 at the patterns 6 and 3. -/
theorem status_led_set_pattern_witness :
    gpio_status_led_set_pattern example_gpio_running 6 700
      = (GPIO_ERROR_INVALID_VALUE, example_gpio_running) ∧
    (gpio_status_led_set_pattern example_gpio_running 3 700).1 = GPIO_SUCCESS ∧
    (gpio_status_led_set_pattern example_gpio_running 3 700).2.status_led.blink_pattern
      = LED_PATTERN_DOUBLE_BLINK :=
  ⟨(status_led_set_pattern example_gpio_running 6 700).1 (by decide),
    ((status_led_set_pattern example_gpio_running 3 700).2 (by decide)).1,
    ((status_led_set_pattern example_gpio_running 3 700).2 (by decide)).2.1⟩

set_option maxRecDepth 1000000 in
/-- C22, counterexample: a detection with confidence 0.9 (threshold 0.6) is
recorded at time 0 on an enabled laser; `gpio_laser_process` at time 1000,
inside the timeout of 2000 ms, sets `should_blink` and switches the laser on,
because a detection time of 0 stands for "no detection yet". -/
theorem laser_detection_at_zero_counterexample :
    float_ge 0x3F666666 DEFAULT_CONFIG.motherboard_threshold = true ∧
    (gpio_laser_update_detection example_gpio_running DEFAULT_CONFIG 0x3F666666
      0).crosshair_laser.last_detection_time = 0 ∧
    (gpio_laser_process
      (gpio_laser_update_detection example_gpio_running DEFAULT_CONFIG 0x3F666666 0) []
      1000).1.crosshair_laser.should_blink = true ∧
    (gpio_laser_process
      (gpio_laser_update_detection example_gpio_running DEFAULT_CONFIG 0x3F666666 0) []
      1000).1.crosshair_laser.current_state = true ∧
    (gpio_laser_process
      (gpio_laser_update_detection example_gpio_running DEFAULT_CONFIG 0x3F666666 0) []
      1000).2 = [(PIN_CROSSHAIR_LASER, HIGH)] := by
  decide

/-- C22, amended: on an enabled laser, a detection whose confidence passes
the test against `motherboard_threshold` is recorded with its time `d`, any
other leaves the recorded time alone. If a qualifying detection was recorded
at a time `d` with `1 ≤ d ≤ now < 2^32` and `now - d ≤ detection_timeout`,
then after `gpio_laser_process` at `now` the output is off (switched off if it
was on) and `should_blink` is false. If no detection was recorded or the
recorded one lies further back than the timeout, `should_blink` is true and
the output toggles exactly when `now - last_blink_time ≥ blink_interval`. -/
theorem laser_suppression (g : gpio_module_t) (pins : List (Nat × Bool))
    (cfg : system_config_t) (conf d now : Nat)
    (hen : g.crosshair_laser.enabled = true) (hd : 1 ≤ d) (hdn : d ≤ now)
    (hnow : now < 4294967296) :
    (gpio_laser_update_detection g cfg conf d).crosshair_laser.last_detection_time
      = (if float_ge conf cfg.motherboard_threshold = true then d
          else g.crosshair_laser.last_detection_time) ∧
    (float_ge conf cfg.motherboard_threshold = true →
      now - d ≤ g.crosshair_laser.detection_timeout →
      (gpio_laser_process (gpio_laser_update_detection g cfg conf d) pins
        now).1.crosshair_laser.current_state = false ∧
      (gpio_laser_process (gpio_laser_update_detection g cfg conf d) pins
        now).1.crosshair_laser.should_blink = false ∧
      (gpio_laser_process (gpio_laser_update_detection g cfg conf d) pins now).2
        = (if g.crosshair_laser.current_state = true then pins ++ [(PIN_CROSSHAIR_LASER, LOW)]
            else pins)) ∧
    ((g.crosshair_laser.last_detection_time = 0 ∨
        g.crosshair_laser.detection_timeout
          < sub_u32 now g.crosshair_laser.last_detection_time) →
      (gpio_laser_process g pins now).1.crosshair_laser.should_blink = true ∧
      (g.crosshair_laser.blink_interval ≤ sub_u32 now g.crosshair_laser.last_blink_time →
        (gpio_laser_process g pins now).1.crosshair_laser.current_state
          = (!g.crosshair_laser.current_state) ∧
        (gpio_laser_process g pins now).1.crosshair_laser.last_blink_time = now ∧
        (gpio_laser_process g pins now).2
          = pins ++ [(PIN_CROSSHAIR_LASER, !g.crosshair_laser.current_state)]) ∧
      (sub_u32 now g.crosshair_laser.last_blink_time < g.crosshair_laser.blink_interval →
        (gpio_laser_process g pins now).1.crosshair_laser.current_state
          = g.crosshair_laser.current_state ∧
        (gpio_laser_process g pins now).2 = pins)) := by
  refine ⟨?_, ?_, ?_⟩
  · unfold gpio_laser_update_detection
    split_ifs <;> rfl
  · intro hq hwin
    have hsub : sub_u32 now d = now - d := sub_u32_of_le now d (by omega) hdn
    rw [gpio_laser_update_detection_qualifying g cfg conf d hq,
      gpio_laser_process_suppressed _ pins now (by exact hen) (by exact hd)
        (by show sub_u32 now d ≤ g.crosshair_laser.detection_timeout; omega)]
    by_cases hc : g.crosshair_laser.current_state = true
    · rw [if_pos (by exact hc), if_pos hc]
      exact ⟨rfl, rfl, rfl⟩
    · rw [if_neg (by exact hc), if_neg hc]
      exact ⟨by simpa using hc, rfl, rfl⟩
  · intro hno
    rw [gpio_laser_process_free g pins now hen hno]
    refine ⟨?_, ?_, ?_⟩
    · split_ifs <;> rfl
    · intro hint
      rw [if_pos hint]
      exact ⟨rfl, rfl, rfl⟩
    · intro hint
      rw [if_neg (by omega)]
      exact ⟨rfl, rfl⟩

set_option maxRecDepth 1000000 in
/-- C22, the amended statement for a detection at time 5000 on a laser that is
on, processed at time 6500. -/
theorem laser_suppression_witness :
    (gpio_laser_process
      (gpio_laser_update_detection
        { example_gpio_running with crosshair_laser :=
            { example_gpio_running.crosshair_laser with current_state := true } }
        DEFAULT_CONFIG 0x3F666666 5000) [] 6500).1.crosshair_laser.current_state = false ∧
    (gpio_laser_process
      (gpio_laser_update_detection
        { example_gpio_running with crosshair_laser :=
            { example_gpio_running.crosshair_laser with current_state := true } }
        DEFAULT_CONFIG 0x3F666666 5000) [] 6500).2 = [(PIN_CROSSHAIR_LASER, LOW)] :=
  have h := (laser_suppression
    { example_gpio_running with crosshair_laser :=
        { example_gpio_running.crosshair_laser with current_state := true } }
    [] DEFAULT_CONFIG 0x3F666666 5000 6500 rfl (by decide) (by decide) (by decide)).2.1
    (by decide) (by decide)
  ⟨h.1, h.2.2⟩

/-- C21: let an enabled fan be initialised at time `t0` and `gpio_fan_process`
be called at the times of a non-decreasing list, none before `t0`, and let
`now < 2^32` be not before the last call. Then `gpio_fan_get_on_time` at `now`
is the total time the fan pin has been high since `gpio_fan_init`. At an
off-transition `total_on_time` grows by the time since the preceding
on-toggle, and while the fan is on the result is `total_on_time` plus
`now - last_toggle_time`. -/
theorem fan_on_time_accounting (g : gpio_module_t) (pins : List (Nat × Bool))
    (cfg : system_config_t) (t0 now : Nat) (times : List Nat)
    (hen : cfg.fan_enabled ≠ 0) (hsorted : List.Chain (fun a b => a ≤ b) t0 times)
    (hlast : ∀ t ∈ times, t ≤ now) (ht0 : t0 ≤ now) (hnow : now < 4294967296) :
    gpio_fan_get_on_time
        (gpio_fan_process_trace times
          ((gpio_fan_init g pins cfg t0).2.1, (gpio_fan_init g pins cfg t0).2.2)).1.1 now
      = high_time t0 false
          (gpio_fan_process_trace times
            ((gpio_fan_init g pins cfg t0).2.1, (gpio_fan_init g pins cfg t0).2.2)).2 now ∧
    (∀ (g1 : gpio_module_t) (p1 : List (Nat × Bool)) (t : Nat),
      g1.fan.enabled = true → g1.fan.current_state = true →
      g1.fan.last_toggle_time ≤ t → t < 4294967296 →
      g1.fan.cycle_interval ≤ t - g1.fan.last_toggle_time →
      (gpio_fan_process g1 p1 t).1.fan.current_state = false ∧
      (gpio_fan_process g1 p1 t).1.fan.total_on_time
        = (g1.fan.total_on_time + (t - g1.fan.last_toggle_time)) % 4294967296) ∧
    (∀ g1 : gpio_module_t, g1.fan.last_toggle_time ≤ now →
      gpio_fan_get_on_time g1 now
        = (if g1.fan.current_state = true then
            (g1.fan.total_on_time + (now - g1.fan.last_toggle_time)) % 4294967296
          else g1.fan.total_on_time)) := by
  refine ⟨?_, ?_, ?_⟩
  · have h := gpio_fan_get_on_time_eq times (gpio_fan_init g pins cfg t0).2.1
      (gpio_fan_init g pins cfg t0).2.2 t0 now (by simp [gpio_fan_init, hen])
      (pin_level_write _ _ _) (le_refl _) hsorted hlast ht0 hnow
      (by show 0 + (if false = true then _ else 0) ≤ t0; simp)
    have hp : pin_level (gpio_fan_init g pins cfg t0).2.2 PIN_FAN = false :=
      pin_level_write _ _ _
    rw [h, hp]
    show 0 + (if false = true then _ else 0) + _ = _
    rw [if_neg (by decide), Nat.zero_add]
  · intro g1 p1 t hen1 hon hL ht hint
    have hsub : sub_u32 t g1.fan.last_toggle_time = t - g1.fan.last_toggle_time :=
      sub_u32_of_le t _ ht hL
    rw [gpio_fan_process_off g1 p1 t hen1 hon (by rw [hsub]; exact hint), hsub]
    exact ⟨rfl, rfl⟩
  · intro g1 hL
    have hsub : sub_u32 now g1.fan.last_toggle_time = now - g1.fan.last_toggle_time :=
      sub_u32_of_le now _ hnow hL
    unfold gpio_fan_get_on_time
    rw [hsub]

set_option maxRecDepth 1000000 in
/-- C21 for a fan with a cycle of 100 ms initialised at 1000 and processed at
1050, 1100, 1150, 1230 and 1330: it is on from 1100 to 1230 and from 1330 on,
so at 1350 the on-time is 150. -/
theorem fan_on_time_accounting_witness :
    gpio_fan_get_on_time
        (gpio_fan_process_trace [1050, 1100, 1150, 1230, 1330]
          ((gpio_fan_init example_gpio_module []
              { DEFAULT_CONFIG with fan_cycle_interval := 100 } 1000).2.1,
            (gpio_fan_init example_gpio_module []
              { DEFAULT_CONFIG with fan_cycle_interval := 100 } 1000).2.2)).1.1 1350
      = 150 :=
  ((fan_on_time_accounting example_gpio_module []
      { DEFAULT_CONFIG with fan_cycle_interval := 100 } 1000 1350
      [1050, 1100, 1150, 1230, 1330] (by decide)
      (List.Chain.cons (by decide) (List.Chain.cons (by decide) (List.Chain.cons (by decide)
        (List.Chain.cons (by decide) (List.Chain.cons (by decide) List.Chain.nil)))))
      (by decide) (by decide) (by decide)).1).trans (by decide)

/-- C30: let the double (triple) pattern be selected at time `t` on an enabled
status LED with interval `I`, `8 ≤ I < 2^32`, and `gpio_status_led_process` be
called once at every millisecond after `t`. Then `k` milliseconds into period
`n` (`k ≤ I`) the state is the one of `led_burst_expected`: the period starts
with `pattern_index` 0 and the output as it was at `t`; nothing is written
before `I / 8` has elapsed; then the output toggles once per millisecond until
`B = 4` (`6`) toggles are done; then nothing is written until `I` has elapsed,
where `pattern_index` returns to 0 and the timer restarts with the output as
at the start of the period. -/
theorem burst_led_patterns (LED : Nat) (g : gpio_module_t) (p : List (Nat × Bool))
    (pattern t I B n k : Nat) (hen : g.status_led.enabled = true)
    (hpat : (pattern = LED_PATTERN_DOUBLE_BLINK ∧ B = 4) ∨
      (pattern = LED_PATTERN_TRIPLE_BLINK ∧ B = 6))
    (hI : g.status_led.blink_interval = I) (hI8 : 8 ≤ I) (hI32 : I < 4294967296)
    (ht : t < 4294967296) (hk : k ≤ I) :
    (gpio_status_led_set_pattern g pattern t).1 = GPIO_SUCCESS ∧
    gpio_status_led_process_each_ms LED t (n * I + k)
        ((gpio_status_led_set_pattern g pattern t).2, p)
      = led_burst_expected LED (led_period_start g pattern t I n)
          (p ++ (List.replicate n (toggle_writes LED g.status_led.current_state B)).flatten)
          (t + n * I) I B k ∧
    gpio_status_led_process_each_ms LED t (n * I + I)
        ((gpio_status_led_set_pattern g pattern t).2, p)
      = (led_period_start g pattern t I (n + 1),
          p ++ (List.replicate (n + 1)
            (toggle_writes LED g.status_led.current_state B)).flatten) ∧
    (toggle_writes LED g.status_led.current_state B).length = B ∧
    (led_period_start g pattern t I n).status_led.current_state
      = g.status_led.current_state ∧
    (led_period_start g pattern t I n).status_led.pattern_index = 0 := by
  have hpat' : pattern = LED_PATTERN_DOUBLE_BLINK ∨ pattern = LED_PATTERN_TRIPLE_BLINK := by
    rcases hpat with h | h
    · exact Or.inl h.1
    · exact Or.inr h.1
  have hB : (if pattern = LED_PATTERN_DOUBLE_BLINK then 4 else 6) = B := by
    rcases hpat with h | h
    · rw [if_pos h.1, h.2]
    · rw [if_neg (by rw [h.1]; decide), h.2]
  have hset : gpio_status_led_set_pattern g pattern t
      = (GPIO_SUCCESS, led_period_start g pattern t I 0) := by
    unfold gpio_status_led_set_pattern led_period_start
    rw [if_neg (by rcases hpat' with h | h <;> rw [h] <;> decide), Nat.zero_mul, Nat.add_zero,
      Nat.mod_eq_of_lt ht]
  rw [hset]
  refine ⟨rfl, ?_, ?_, toggle_writes_length _ _ _, rfl, rfl⟩
  · rw [gpio_status_led_process_each_ms_add,
      led_burst_periods LED g p pattern t I B hen hpat hI hI8 hI32 n]
    exact led_burst_period LED (led_period_start g pattern t I n) _ (t + n * I) I B
      (by exact hen) (by exact hpat') (by exact hB) (by exact hI) hI8 hI32 rfl rfl k hk
  · have h := led_burst_periods LED g p pattern t I B hen hpat hI hI8 hI32 (n + 1)
    rw [Nat.succ_mul] at h
    exact h

set_option maxRecDepth 1000000 in
/-- C30 for the double pattern selected at time 700 with an interval of
1000 ms on pin 13: 130 ms into the second period eight writes were made (four
in the first period, four at 125 to 128 ms of the second), the output is as at
the start and the index is 4. -/
theorem burst_led_patterns_witness :
    (gpio_status_led_process_each_ms 13 700 (1 * 1000 + 130)
      ((gpio_status_led_set_pattern example_gpio_running 3 700).2, [])).2
      = [(13, true), (13, false), (13, true), (13, false),
          (13, true), (13, false), (13, true), (13, false)] ∧
    (gpio_status_led_process_each_ms 13 700 (1 * 1000 + 130)
      ((gpio_status_led_set_pattern example_gpio_running 3 700).2, [])).1.status_led.pattern_index
      = 4 :=
  have h := (burst_led_patterns 13 example_gpio_running [] 3 700 1000 4 1 130 rfl
    (Or.inl ⟨rfl, rfl⟩) rfl (by decide) (by decide) (by decide) (by decide)).2.1
  ⟨(congrArg Prod.snd h).trans (by decide),
    (congrArg (fun st => st.1.status_led.pattern_index) h).trans (by decide)⟩

/-- C24: each integer console setter accepts its value exactly when
`is_numeric_value` holds and the integer `parse_int_value` returns lies in the
declared range (threshold 1..1000, window 1..300 s, LoRa interval 5..3600 s,
fan cycle 1..3600 s, laser blink 100..5000 ms, debug level 0..5); it then
stores the value (seconds times 1000 for the window and the two intervals) in
`system_config`, the two counter setters also in the counter, and returns
`CMD_SUCCESS`. For every other value, the null pointer included, it returns
`CMD_ERROR_INVALID_VALUE` and changes nothing. -/
theorem console_setters_validate_ranges (mc : motherboard_counter_t) (cfg : system_config_t)
    (value : Option (List Nat)) :
    set_motherboard_count_threshold mc cfg value
      = (if is_numeric_value value = true ∧ 1 ≤ parse_int_value value ∧
            parse_int_value value ≤ 1000 then
          (CMD_SUCCESS, { mc with count_threshold := (parse_int_value value).toNat },
            { cfg with motherboard_count_threshold := (parse_int_value value).toNat })
        else (CMD_ERROR_INVALID_VALUE, mc, cfg)) ∧
    set_motherboard_count_window mc cfg value
      = (if is_numeric_value value = true ∧ 1 ≤ parse_int_value value ∧
            parse_int_value value ≤ 300 then
          (CMD_SUCCESS, { mc with time_window_ms := (parse_int_value value).toNat * 1000 },
            { cfg with
              motherboard_count_window_ms := (parse_int_value value).toNat * 1000 })
        else (CMD_ERROR_INVALID_VALUE, mc, cfg)) ∧
    set_lora_interval cfg value
      = (if is_numeric_value value = true ∧ 5 ≤ parse_int_value value ∧
            parse_int_value value ≤ 3600 then
          (CMD_SUCCESS,
            { cfg with lora_send_interval := (parse_int_value value).toNat * 1000 })
        else (CMD_ERROR_INVALID_VALUE, cfg)) ∧
    set_fan_cycle_interval cfg value
      = (if is_numeric_value value = true ∧ 1 ≤ parse_int_value value ∧
            parse_int_value value ≤ 3600 then
          (CMD_SUCCESS,
            { cfg with fan_cycle_interval := (parse_int_value value).toNat * 1000 })
        else (CMD_ERROR_INVALID_VALUE, cfg)) ∧
    set_laser_blink_interval cfg value
      = (if is_numeric_value value = true ∧ 100 ≤ parse_int_value value ∧
            parse_int_value value ≤ 5000 then
          (CMD_SUCCESS, { cfg with laser_blink_interval := (parse_int_value value).toNat })
        else (CMD_ERROR_INVALID_VALUE, cfg)) ∧
    set_debug_level cfg value
      = (if is_numeric_value value = true ∧ 0 ≤ parse_int_value value ∧
            parse_int_value value ≤ 5 then
          (CMD_SUCCESS, { cfg with debug_level := (parse_int_value value).toNat })
        else (CMD_ERROR_INVALID_VALUE, cfg)) := by
  refine ⟨set_motherboard_count_threshold_eq mc cfg value,
    set_motherboard_count_window_eq mc cfg value, ?_, ?_, ?_, ?_⟩
  · unfold set_lora_interval lora_set_send_interval
    by_cases hn : is_numeric_value value = true
    · rw [if_neg (by simp [hn])]
      simp only []
      by_cases hr : 5 ≤ parse_int_value value ∧ parse_int_value value ≤ 3600
      · rw [if_neg (by omega), if_pos ⟨hn, hr⟩, int_to_u32_mul_1000 _ (by omega) hr.2]
      · rw [if_pos (by omega), if_neg (fun h => hr h.2)]
    · rw [if_pos (by simpa using hn), if_neg (fun h => hn h.1)]
  · unfold set_fan_cycle_interval
    by_cases hn : is_numeric_value value = true
    · rw [if_neg (by simp [hn])]
      simp only []
      by_cases hr : 1 ≤ parse_int_value value ∧ parse_int_value value ≤ 3600
      · rw [if_neg (by omega), if_pos ⟨hn, hr⟩, int_to_u32_mul_1000 _ (by omega) hr.2]
      · rw [if_pos (by omega), if_neg (fun h => hr h.2)]
    · rw [if_pos (by simpa using hn), if_neg (fun h => hn h.1)]
  · unfold set_laser_blink_interval
    by_cases hn : is_numeric_value value = true
    · rw [if_neg (by simp [hn])]
      simp only []
      by_cases hr : 100 ≤ parse_int_value value ∧ parse_int_value value ≤ 5000
      · rw [if_neg (by omega), if_pos ⟨hn, hr⟩, int_to_u32_of_range _ (by omega) (by omega)]
      · rw [if_pos (by omega), if_neg (fun h => hr h.2)]
    · rw [if_pos (by simpa using hn), if_neg (fun h => hn h.1)]
  · unfold set_debug_level
    by_cases hn : is_numeric_value value = true
    · rw [if_neg (by simp [hn])]
      simp only []
      by_cases hr : 0 ≤ parse_int_value value ∧ parse_int_value value ≤ 5
      · rw [if_neg (by omega), if_pos ⟨hn, hr⟩,
          Int.emod_eq_of_lt hr.1 (by omega : parse_int_value value < 256)]
      · rw [if_pos (by omega), if_neg (fun h => hr h.2)]
    · rw [if_pos (by simpa using hn), if_neg (fun h => hn h.1)]

set_option maxRecDepth 1000000 in
/-- C24 at the console values `30` (accepted as LoRa interval: 30 000 ms),
`4`, `3O` with a letter, and the null pointer (all rejected). -/
theorem console_setters_validate_ranges_witness :
    set_lora_interval DEFAULT_CONFIG (some (ascii "30"))
      = (CMD_SUCCESS, { DEFAULT_CONFIG with lora_send_interval := 30000 }) ∧
    set_lora_interval DEFAULT_CONFIG (some (ascii "4"))
      = (CMD_ERROR_INVALID_VALUE, DEFAULT_CONFIG) ∧
    set_lora_interval DEFAULT_CONFIG (some (ascii "3O"))
      = (CMD_ERROR_INVALID_VALUE, DEFAULT_CONFIG) ∧
    set_lora_interval DEFAULT_CONFIG none = (CMD_ERROR_INVALID_VALUE, DEFAULT_CONFIG) :=
  ⟨(console_setters_validate_ranges example_counter DEFAULT_CONFIG
      (some (ascii "30"))).2.2.1.trans (by decide),
    (console_setters_validate_ranges example_counter DEFAULT_CONFIG
      (some (ascii "4"))).2.2.1.trans (by decide),
    (console_setters_validate_ranges example_counter DEFAULT_CONFIG
      (some (ascii "3O"))).2.2.1.trans (by decide),
    (console_setters_validate_ranges example_counter DEFAULT_CONFIG none).2.2.1.trans
      (by decide)⟩

/-- C31: the ring invariant (`buffer_index < 100`, `buffer_count ≤ 100`, an
array of 100 slots) holds after `motherboard_counter_init` and is preserved by
`add_detection`, `check_trigger`, `reset` and the three setters; under it
`motherboard_counter_get_count_in_window` reads only slots inside the array
and returns a value `≤ buffer_count ≤ 100`. -/
theorem ring_buffer_invariant (mc : motherboard_counter_t) (cfg : system_config_t)
    (t now v s : Nat) (en : Bool) :
    ring_invariant (motherboard_counter_init cfg) ∧
    (ring_invariant mc →
      ring_invariant (motherboard_counter_add_detection mc t) ∧
      ring_invariant (motherboard_counter_check_trigger mc cfg now).2.1 ∧
      ring_invariant (motherboard_counter_reset mc cfg).1 ∧
      ring_invariant (motherboard_counter_set_enabled mc cfg en).2.1 ∧
      ring_invariant (motherboard_counter_set_threshold mc cfg v).2.1 ∧
      ring_invariant (motherboard_counter_set_window mc cfg s).2.1 ∧
      (∀ i ∈ List.range mc.buffer_count, i < mc.detection_timestamps.length) ∧
      motherboard_counter_get_count_in_window mc now ≤ mc.buffer_count ∧
      mc.buffer_count ≤ 100) := by
  refine ⟨⟨by show (0 : Nat) < 100; omega, by show (0 : Nat) ≤ 100; omega,
    by simp [motherboard_counter_init]⟩, ?_⟩
  intro h
  refine ⟨ring_invariant_add_detection mc t h, ring_invariant_check_trigger mc cfg now h,
    ⟨by show (0 : Nat) < 100; omega, by show (0 : Nat) ≤ 100; omega,
      by simp [motherboard_counter_reset]⟩, h, ?_, ?_, ?_,
    get_count_in_window_le mc now, h.2.1⟩
  · rw [set_threshold_eq]
    split_ifs <;> exact h
  · rw [set_window_eq]
    split_ifs <;> exact h
  · intro i hi
    rw [List.mem_range] at hi
    rw [h.2.2]
    exact lt_of_lt_of_le hi h.2.1

set_option maxRecDepth 1000000 in
/-- C31 on a counter that has wrapped: after 105 detections the invariant
holds and the window count is at most 100. -/
theorem ring_buffer_invariant_witness :
    ring_invariant
      (motherboard_counter_add_detection
        (example_long_history.foldl motherboard_counter_add_detection example_counter) 2000) ∧
    motherboard_counter_get_count_in_window
        (example_long_history.foldl motherboard_counter_add_detection example_counter) 2000
      ≤ 100 :=
  have h := (ring_buffer_invariant
    (example_long_history.foldl motherboard_counter_add_detection example_counter)
    DEFAULT_CONFIG 2000 2000 1 1 true).2 (by decide)
  ⟨h.1, le_trans h.2.2.2.2.2.2.2.1 h.2.2.2.2.2.2.2.2⟩

/-- C32: on a counter that satisfies the ring invariant and whose
`count_threshold` is greater than 100, `motherboard_counter_check_trigger`
returns false and changes nothing at every time, also after every sequence of
detections and checks; `motherboard_counter_set_threshold` accepts such
thresholds up to 1000. -/
theorem threshold_above_capacity_never_fires (mc : motherboard_counter_t)
    (cfg : system_config_t) (events : List counter_event) (v : Nat)
    (hinv : ring_invariant mc) (hthr : 100 < mc.count_threshold) :
    (∀ now, motherboard_counter_check_trigger mc cfg now = (false, mc, cfg)) ∧
    (∀ b ∈ (run_counter_events (mc, cfg) events).1, b = false) ∧
    (run_counter_events (mc, cfg) events).2
      = ((event_detections events).foldl motherboard_counter_add_detection mc, cfg) ∧
    (100 < v → v ≤ 1000 →
      (motherboard_counter_set_threshold mc cfg v).1 = true ∧
      (motherboard_counter_set_threshold mc cfg v).2.1.count_threshold = v ∧
      ring_invariant (motherboard_counter_set_threshold mc cfg v).2.1) := by
  have hcheck : ∀ (m : motherboard_counter_t) (c : system_config_t) (now : Nat),
      (ring_invariant m ∧ 100 < m.count_threshold) → True →
      (motherboard_counter_check_trigger m c now).1 = false := by
    intro m c now hI _
    by_contra hne
    have ht : (motherboard_counter_check_trigger m c now).1 = true := by simpa using hne
    obtain ⟨_, h2, _⟩ := (check_trigger_true_iff m c now).mp ht
    have h3 := get_count_in_window_le m now
    have h4 : m.buffer_count ≤ 100 := hI.1.2.1
    omega
  have hrun := run_counter_events_all_false
    (fun m => ring_invariant m ∧ 100 < m.count_threshold) (fun _ => True)
    (fun m t hI => ⟨ring_invariant_add_detection m t hI.1, by
      show 100 < (motherboard_counter_add_detection m t).count_threshold
      rw [(add_detection_settings m t).2.1]; exact hI.2⟩)
    hcheck events (mc, cfg) ⟨hinv, hthr⟩ (fun _ _ => trivial)
  refine ⟨fun now => check_trigger_of_false mc cfg now (hcheck mc cfg now ⟨hinv, hthr⟩ trivial),
    hrun.1, hrun.2, ?_⟩
  intro h1 h2
  rw [set_threshold_eq, if_pos ⟨by omega, h2⟩]
  exact ⟨rfl, rfl, hinv⟩

set_option maxRecDepth 1000000 in
/-- C32 with the threshold 150: 105 detections within two seconds and a check
right after them give no trigger. -/
theorem threshold_above_capacity_never_fires_witness :
    (motherboard_counter_set_threshold example_counter DEFAULT_CONFIG 150).1 = true ∧
    ∀ b ∈ (run_counter_events
        ((motherboard_counter_set_threshold example_counter DEFAULT_CONFIG 150).2.1,
          DEFAULT_CONFIG)
        (example_long_history.map counter_event.detection ++ [counter_event.check 40000])).1,
      b = false :=
  ⟨by decide,
    (threshold_above_capacity_never_fires
      (motherboard_counter_set_threshold example_counter DEFAULT_CONFIG 150).2.1
      DEFAULT_CONFIG
      (example_long_history.map counter_event.detection ++ [counter_event.check 40000]) 150
      (by decide) (by decide)).2.1⟩

/-- C33: `motherboard_counter_init` and `motherboard_counter_reset` leave
`last_lora_trigger_time` at 0, and on a counter in which it is 0 every
`motherboard_counter_check_trigger` at a time `now ≤ 30 000` returns false and
changes nothing, whatever the threshold, the window and the detections and
earlier checks before it. -/
theorem no_trigger_in_first_30s (mc mc0 : motherboard_counter_t) (cfg : system_config_t)
    (events : List counter_event) (hlast : mc.last_lora_trigger_time = 0)
    (hearly : ∀ now, counter_event.check now ∈ events → now ≤ 30000) :
    (motherboard_counter_init cfg).last_lora_trigger_time = 0 ∧
    (motherboard_counter_reset mc0 cfg).1.last_lora_trigger_time = 0 ∧
    (∀ now, now ≤ 30000 → motherboard_counter_check_trigger mc cfg now = (false, mc, cfg)) ∧
    (∀ b ∈ (run_counter_events (mc, cfg) events).1, b = false) ∧
    (run_counter_events (mc, cfg) events).2
      = ((event_detections events).foldl motherboard_counter_add_detection mc, cfg) := by
  have hcheck : ∀ (m : motherboard_counter_t) (c : system_config_t) (now : Nat),
      m.last_lora_trigger_time = 0 → now ≤ 30000 →
      (motherboard_counter_check_trigger m c now).1 = false := by
    intro m c now hI hn
    by_contra hne
    have ht : (motherboard_counter_check_trigger m c now).1 = true := by simpa using hne
    obtain ⟨_, _, h3⟩ := (check_trigger_true_iff m c now).mp ht
    rw [hI, sub_u32_of_le now 0 (by omega) (Nat.zero_le _)] at h3
    omega
  have hrun := run_counter_events_all_false
    (fun m => m.last_lora_trigger_time = 0) (fun now => now ≤ 30000)
    (fun m t hI => by
      show (motherboard_counter_add_detection m t).last_lora_trigger_time = 0
      rw [(add_detection_settings m t).2.2.2.1]; exact hI)
    hcheck events (mc, cfg) hlast hearly
  exact ⟨rfl, rfl,
    fun now hn => check_trigger_of_false mc cfg now (hcheck mc cfg now hlast hn),
    hrun.1, hrun.2⟩

set_option maxRecDepth 1000000 in
/-- C33 on a fresh counter with threshold 1: detections at 100 ms and 29 s,
each followed by a check, the last check at exactly 30 000 ms, fire nothing. -/
theorem no_trigger_in_first_30s_witness :
    motherboard_counter_check_trigger example_counter_threshold_1 DEFAULT_CONFIG 30000
      = (false, example_counter_threshold_1, DEFAULT_CONFIG) ∧
    (run_counter_events (example_counter_threshold_1, DEFAULT_CONFIG)
      [counter_event.detection 100, counter_event.check 100, counter_event.detection 29000,
        counter_event.check 29000, counter_event.check 30000]).2
      = ((event_detections
          [counter_event.detection 100, counter_event.check 100,
            counter_event.detection 29000, counter_event.check 29000,
            counter_event.check 30000]).foldl
          motherboard_counter_add_detection example_counter_threshold_1, DEFAULT_CONFIG) :=
  ⟨(no_trigger_in_first_30s example_counter_threshold_1 example_counter
      DEFAULT_CONFIG
      [counter_event.detection 100, counter_event.check 100, counter_event.detection 29000,
        counter_event.check 29000, counter_event.check 30000] (by decide)
      (by intro now h; simp at h; omega)).2.2.1 30000 (by omega),
    (no_trigger_in_first_30s example_counter_threshold_1 example_counter
      DEFAULT_CONFIG
      [counter_event.detection 100, counter_event.check 100, counter_event.detection 29000,
        counter_event.check 29000, counter_event.check 30000] (by decide)
      (by intro now h; simp at h; omega)).2.2.2.2⟩

/-- C37: on an initialized store with a flash that returns what was written,
for every flash content and every configuration in memory,
`config_load_from_flash` comes back within a call depth of 4 (one nested
reset to defaults at most) and returns `FLASH_SUCCESS`; afterwards
`system_config` is the stored record or the default record, its version is
`CONFIG_VERSION` and its checksum validates. `config_reset_to_defaults` and
`config_save_to_flash` come back as well, within depths 3 and 5. -/
theorem load_always_succeeds (fuel : Nat) (s : Store) (hinit : s.flash_initialized = true) :
    (∃ s', config_load_from_flash (fuel + 4) s = some (FLASH_SUCCESS, s') ∧
      s'.flash_initialized = true ∧
      s'.system_config.config_version = CONFIG_VERSION ∧
      config_validate_checksum s'.system_config = true ∧
      (s'.system_config = stored_config s ∨
        s'.system_config = with_checksum DEFAULT_CONFIG)) ∧
    config_reset_to_defaults (fuel + 3) s
      = some (FLASH_SUCCESS, store_with_config s (with_checksum DEFAULT_CONFIG)) ∧
    (∃ r s', config_save_to_flash (fuel + 5) s = some (r, s')) := by
  refine ⟨?_, config_reset_valid fuel s hinit, config_save_to_flash_returns fuel s⟩
  by_cases hbad : (stored_config s).config_version ≠ CONFIG_VERSION ∨
      config_validate_checksum (stored_config s) = false
  · refine ⟨_, config_load_invalid fuel s hinit hbad, hinit, rfl, ?_, Or.inr rfl⟩
    unfold config_validate_checksum
    simp only [beq_iff_eq]
    exact (with_checksum_valid DEFAULT_CONFIG).symm
  · rw [not_or] at hbad
    obtain ⟨hv, hc⟩ := hbad
    have hv' : (stored_config s).config_version = CONFIG_VERSION := not_not.mp hv
    have hc' : config_validate_checksum (stored_config s) = true := by simpa using hc
    refine ⟨{ s with system_config := stored_config s }, ?_, hinit, hv', hc', Or.inl rfl⟩
    unfold stored_config at hv hc
    have h20 : (sizeof_system_config_t + 3) / 4 = 20 := rfl
    rw [config_load_from_flash, if_neg (by simp [hinit])]
    simp only [h20]
    rw [if_neg hv, if_neg (by simpa using hc)]
    rfl

set_option maxRecDepth 1000000 in
/-- C37 on a store whose flash is blank: the load returns `FLASH_SUCCESS` and
leaves the default record with its checksum. -/
theorem load_always_succeeds_witness :
    ∃ s', config_load_from_flash 4 example_store = some (FLASH_SUCCESS, s') ∧
      s'.system_config.config_version = CONFIG_VERSION ∧
      config_validate_checksum s'.system_config = true :=
  match (load_always_succeeds 0 example_store rfl).1 with
  | ⟨s', h1, _, h3, h4, _⟩ => ⟨s', h1, h3, h4⟩

/-- C38: on an initialized engine in any state other than Sending, the state
`LORA_STATE_ERROR` of degraded mode included, `lora_send_message` with a
non-null payload returns with the state `LORA_STATE_CONNECTED`, whatever the
payload and the result of the transaction. -/
theorem send_leaves_degraded_mode (m : lora_module_t) (io : serial1_t)
    (ty : lora_message_type_t) (payload : List Nat) (now : Nat)
    (hinit : m.initialization_complete = true) (hstate : m.state ≠ LORA_STATE_SENDING) :
    (lora_send_message m io ty (some payload) now).2.1.state = LORA_STATE_CONNECTED ∧
    lora_get_state (lora_send_message m io ty (some payload) now).2.1 ≠ LORA_STATE_SENDING ∧
    lora_is_initialized (lora_send_message m io ty (some payload) now).2.1 = true := by
  have h1 : (!lora_is_initialized m) = false := by simp [lora_is_initialized, hinit]
  have hf := (lora_send_at_command_some { m with state := LORA_STATE_SENDING } io
    (snprintf 100 (ascii "AT+SEND=2:" ++ string_to_hex payload)) none 5000).2.2.2.2.2.2.1
  have key : (lora_send_message m io ty (some payload) now).2.1.state = LORA_STATE_CONNECTED ∧
      (lora_send_message m io ty (some payload) now).2.1.initialization_complete = true := by
    unfold lora_send_message
    simp only [h1, Bool.false_eq_true, if_false, if_neg hstate]
    split_ifs <;> first | exact ⟨rfl, hinit⟩ | exact ⟨rfl, hf.trans hinit⟩
  refine ⟨key.1, ?_, key.2⟩
  unfold lora_get_state
  rw [key.1]
  decide

set_option maxRecDepth 1000000 in
/-- C38 on an engine in degraded mode: a send that times out and a payload
that is too long both leave the state Connected. -/
theorem send_leaves_degraded_mode_witness :
    (lora_send_message { example_lora_module with state := LORA_STATE_ERROR } silent_serial1
      LORA_MSG_STATUS (some (ascii "S,1,2")) 500).2.1.state = LORA_STATE_CONNECTED ∧
    (lora_send_message { example_lora_module with state := LORA_STATE_ERROR } silent_serial1
      LORA_MSG_STATUS (some (ascii "MT,100,100,300,100000")) 500).2.1.state
      = LORA_STATE_CONNECTED :=
  ⟨(send_leaves_degraded_mode { example_lora_module with state := LORA_STATE_ERROR }
      silent_serial1 LORA_MSG_STATUS (ascii "S,1,2") 500 rfl (by decide)).1,
    (send_leaves_degraded_mode { example_lora_module with state := LORA_STATE_ERROR }
      silent_serial1 LORA_MSG_STATUS (ascii "MT,100,100,300,100000") 500 rfl (by decide)).1⟩

set_option maxRecDepth 1000000 in
/-- C34: the counter setters accept threshold 100 and window 300 s; with 100
detections in the window at an uptime of 100 000 s, the message built by
`send_motherboard_trigger_lora` is `MT,100,100,300,100000`, 21 bytes long,
so on an initialized engine `lora_send_message` returns `LORA_ERROR_SEND`
and nothing is written to the serial port. -/
theorem trigger_message_exceeds_payload_limit :
    (motherboard_counter_set_threshold example_counter DEFAULT_CONFIG 100).1 = true ∧
    (motherboard_counter_set_window
      (motherboard_counter_set_threshold example_counter DEFAULT_CONFIG 100).2.1
      (motherboard_counter_set_threshold example_counter DEFAULT_CONFIG 100).2.2 300).1 = true ∧
    example_trigger_counter.count_threshold = 100 ∧
    example_trigger_counter.time_window_ms = 300000 ∧
    motherboard_counter_get_count_in_window example_trigger_counter 100000000 = 100 ∧
    strlen (ascii "MT,100,100,300,100000") = 21 ∧
    (∀ (m : lora_module_t) (io : serial1_t) (now_sent : Nat),
      lora_is_initialized m = true →
      send_motherboard_trigger_lora example_trigger_counter m io 100000000 now_sent
        = (some (lora_send_message m io LORA_MSG_MOTHERBOARD_TRIGGER
              (some (ascii "MT,100,100,300,100000")) now_sent).1,
            (lora_send_message m io LORA_MSG_MOTHERBOARD_TRIGGER
              (some (ascii "MT,100,100,300,100000")) now_sent).2.1,
            (lora_send_message m io LORA_MSG_MOTHERBOARD_TRIGGER
              (some (ascii "MT,100,100,300,100000")) now_sent).2.2)) ∧
    (∀ (m : lora_module_t) (io : serial1_t) (now_sent : Nat),
      lora_is_initialized m = true → m.state ≠ LORA_STATE_SENDING →
      send_motherboard_trigger_lora example_trigger_counter m io 100000000 now_sent
        = (some LORA_ERROR_SEND, { m with state := LORA_STATE_CONNECTED }, io)) := by
  have hthr : example_trigger_counter.count_threshold = 100 := by decide
  have hwin : example_trigger_counter.time_window_ms = 300000 := by decide
  have hcount :
      motherboard_counter_get_count_in_window example_trigger_counter 100000000 = 100 := by
    decide
  have hlen : strlen (ascii "MT,100,100,300,100000") = 21 := by decide
  have hp : snprintf 200
      (ascii "MT," ++ format_lu 100 ++ ascii "," ++ format_lu 100 ++
        ascii "," ++ format_lu (300000 / 1000) ++ ascii "," ++ format_lu (100000000 / 1000))
      = ascii "MT,100,100,300,100000" := by decide
  have hsend : ∀ (m : lora_module_t) (io : serial1_t) (now_sent : Nat),
      lora_is_initialized m = true →
      send_motherboard_trigger_lora example_trigger_counter m io 100000000 now_sent
        = (some (lora_send_message m io LORA_MSG_MOTHERBOARD_TRIGGER
              (some (ascii "MT,100,100,300,100000")) now_sent).1,
            (lora_send_message m io LORA_MSG_MOTHERBOARD_TRIGGER
              (some (ascii "MT,100,100,300,100000")) now_sent).2.1,
            (lora_send_message m io LORA_MSG_MOTHERBOARD_TRIGGER
              (some (ascii "MT,100,100,300,100000")) now_sent).2.2) := by
    intro m io now_sent hinit
    unfold send_motherboard_trigger_lora
    simp only [hinit, Bool.not_true, Bool.false_eq_true, if_false, hcount, hthr, hwin, hp]
  refine ⟨by decide, by decide, hthr, hwin, hcount, hlen, hsend, ?_⟩
  intro m io now_sent hinit hstate
  rw [hsend m io now_sent hinit,
    lora_send_message_too_long m io _ _ now_sent (by simpa [lora_is_initialized] using hinit)
      hstate (by rw [hlen]; omega)]

/-- C35: for every 32-bit uptime in milliseconds, every total, every engine
state and every alert text, the status, heartbeat and alert payloads are
free of NUL bytes and at most 20 bytes long; the three senders build exactly
these payloads, and on an initialized engine that is not sending each of
them passes the length checks of `lora_send_message` and writes its
`AT+SEND` line to the serial port. -/
theorem status_heartbeat_alert_payloads_fit (m : lora_module_t) (io : serial1_t)
    (system_config : system_config_t) (text : List Nat) (now now_beat now_sent : Nat)
    (hnow : now < 4294967296)
    (hinit : m.initialization_complete = true) (hstate : m.state ≠ LORA_STATE_SENDING) :
    (strlen (status_payload now system_config.total_detections) ≤ 20 ∧
      strlen (heartbeat_payload now m.state) ≤ 20 ∧
      strlen (alert_payload now text) ≤ 20) ∧
    (lora_format_status_message system_config (some []) LORA_MAX_PAYLOAD_SIZE now
        = (LORA_SUCCESS, some (status_payload now system_config.total_detections)) ∧
      lora_format_heartbeat_message m (some []) LORA_MAX_PAYLOAD_SIZE now
        = (LORA_SUCCESS, some (heartbeat_payload now m.state))) ∧
    ((lora_send_status_update m io system_config now now_sent).2.2
        = { tx := io.tx ++ [ascii "AT+SEND=2:" ++
              string_to_hex (status_payload now system_config.total_detections)],
            rx := io.rx.tail } ∧
      (lora_send_heartbeat m io now now_beat now_sent).2.2
        = { tx := io.tx ++ [ascii "AT+SEND=2:" ++
              string_to_hex (heartbeat_payload now m.state)],
            rx := io.rx.tail } ∧
      (lora_send_alert m io (some text) now now_sent).2.2
        = { tx := io.tx ++ [ascii "AT+SEND=2:" ++ string_to_hex (alert_payload now text)],
            rx := io.rx.tail }) := by
  obtain ⟨hs1, hs2⟩ := status_payload_fits now system_config.total_detections hnow
  obtain ⟨hh1, hh2⟩ := heartbeat_payload_fits now m.state hnow
  obtain ⟨ha1, ha2⟩ := alert_payload_fits now text hnow
  have h200 : LORA_MAX_PAYLOAD_SIZE = 200 := rfl
  refine ⟨⟨?_, ?_, ?_⟩, ⟨?_, ?_⟩, ?_, ?_, ?_⟩
  · rw [strlen_of_nul_free _ hs2]
    exact hs1
  · rw [strlen_of_nul_free _ hh2]
    omega
  · rw [strlen_of_nul_free _ ha2]
    exact ha1
  · have hs := snprintf_of_short LORA_MAX_PAYLOAD_SIZE
      (status_payload now system_config.total_detections) (by rw [h200]; omega)
    unfold status_payload at hs
    unfold lora_format_status_message
    simp only [hs]
    rfl
  · have hs := snprintf_of_short LORA_MAX_PAYLOAD_SIZE (heartbeat_payload now m.state)
      (by rw [h200]; omega)
    unfold heartbeat_payload at hs
    unfold lora_format_heartbeat_message
    simp only [hs]
    rfl
  · rw [lora_send_status_update_eq m io system_config now now_sent hnow]
    exact (lora_send_message_accepted m io _ _ now_sent hinit hstate hs2 hs1).2.1
  · rw [lora_send_heartbeat_eq m io now now_beat now_sent hnow]
    exact (lora_send_message_accepted { m with last_heartbeat := now_beat } io _ _ now_sent
      hinit hstate hh2 (by omega)).2.1
  · rw [lora_send_alert_eq m io text now now_sent hnow]
    exact (lora_send_message_accepted m io _ _ now_sent hinit hstate ha2 ha1).2.1

set_option maxRecDepth 1000000 in
/-- C35 at the largest 32-bit uptime and total: the status payload
`S,4294967,4294967295` has exactly 20 bytes and is sent. -/
theorem status_heartbeat_alert_payloads_fit_witness :
    status_payload 4294967295 4294967295 = ascii "S,4294967,4294967295" ∧
    strlen (status_payload 4294967295 4294967295) = 20 ∧
    (lora_send_status_update example_lora_module example_serial1
        { DEFAULT_CONFIG with total_detections := 4294967295 } 4294967295 7).2.2.tx
      = [ascii "AT+SEND=2:" ++ string_to_hex (ascii "S,4294967,4294967295")] :=
  have h := status_heartbeat_alert_payloads_fit example_lora_module example_serial1
    { DEFAULT_CONFIG with total_detections := 4294967295 } (ascii "Motherboard detected")
    4294967295 0 7 (by decide) rfl (by decide)
  ⟨by decide, by decide, by rw [h.2.2.1]; decide⟩

/-- C36: the console setters `set_fan_cycle_interval` and
`set_laser_blink_interval` change at most the field `fan_cycle_interval`,
respectively `laser_blink_interval`, of `system_config`, and write nothing
else: the GPIO module is no part of what they read or write. A module that
was initialized from the configuration `cfg` therefore keeps the intervals
of `cfg`: `gpio_fan_process` and `gpio_laser_process` toggle their pin
exactly when the interval of `cfg` has elapsed, whatever the console has
stored since, and only `gpio_fan_init` / `gpio_laser_init` run on the new
configuration bring the new interval into the module. The setters of the
GPIO module, `gpio_fan_set_cycle_interval` and
`gpio_laser_set_blink_interval`, write both copies. -/
theorem console_interval_changes_do_not_reach_actuators
    (g0 : gpio_module_t) (pins0 pins : List (Nat × Bool)) (cfg : system_config_t)
    (fan_value laser_value : Option (List Nat)) (t0 t1 now v : Nat)
    (hfan : cfg.fan_enabled ≠ 0) (hlaser : cfg.crosshair_enabled ≠ 0) :
    ((set_fan_cycle_interval cfg fan_value).2
        = { cfg with
            fan_cycle_interval := (set_fan_cycle_interval cfg fan_value).2.fan_cycle_interval } ∧
      (set_laser_blink_interval cfg laser_value).2
        = { cfg with
            laser_blink_interval :=
              (set_laser_blink_interval cfg laser_value).2.laser_blink_interval }) ∧
    ((gpio_fan_init g0 pins0 cfg t0).2.1.fan.cycle_interval = cfg.fan_cycle_interval ∧
      (gpio_fan_process (gpio_fan_init g0 pins0 cfg t0).2.1 pins now).2
        = (if cfg.fan_cycle_interval ≤ sub_u32 now t0 then pins ++ [(PIN_FAN, HIGH)]
           else pins) ∧
      (gpio_fan_init (gpio_fan_init g0 pins0 cfg t0).2.1 pins
          (set_fan_cycle_interval cfg fan_value).2 t1).2.1.fan.cycle_interval
        = (set_fan_cycle_interval cfg fan_value).2.fan_cycle_interval) ∧
    ((gpio_laser_init g0 pins0 cfg t0).2.1.crosshair_laser.blink_interval
        = cfg.laser_blink_interval ∧
      (gpio_laser_process (gpio_laser_init g0 pins0 cfg t0).2.1 pins now).2
        = (if cfg.laser_blink_interval ≤ sub_u32 now t0
           then pins ++ [(PIN_CROSSHAIR_LASER, HIGH)] else pins) ∧
      (gpio_laser_init (gpio_laser_init g0 pins0 cfg t0).2.1 pins
          (set_laser_blink_interval cfg laser_value).2 t1).2.1.crosshair_laser.blink_interval
        = (set_laser_blink_interval cfg laser_value).2.laser_blink_interval) ∧
    ((gpio_fan_set_cycle_interval g0 cfg v).2.1.fan.cycle_interval = v ∧
      (gpio_fan_set_cycle_interval g0 cfg v).2.2.fan_cycle_interval = v ∧
      (gpio_laser_set_blink_interval g0 cfg v).2.1.crosshair_laser.blink_interval = v ∧
      (gpio_laser_set_blink_interval g0 cfg v).2.2.laser_blink_interval = v) := by
  refine ⟨⟨?_, ?_⟩, ⟨rfl, ?_, rfl⟩, ⟨rfl, ?_, rfl⟩, rfl, rfl, rfl, rfl⟩
  · unfold set_fan_cycle_interval
    dsimp only
    split_ifs <;> rfl
  · unfold set_laser_blink_interval
    dsimp only
    split_ifs <;> rfl
  · have hen : (gpio_fan_init g0 pins0 cfg t0).2.1.fan.enabled = true := by
      simp [gpio_fan_init, hfan]
    by_cases h : cfg.fan_cycle_interval ≤ sub_u32 now t0
    · rw [if_pos h, gpio_fan_process_on _ pins now hen rfl h]
    · rw [if_neg h, gpio_fan_process_idle _ pins now hen (not_le.mp h)]
  · have hen : (gpio_laser_init g0 pins0 cfg t0).2.1.crosshair_laser.enabled = true := by
      simp [gpio_laser_init, hlaser]
    rw [gpio_laser_process_free _ pins now hen (Or.inl rfl)]
    by_cases h : cfg.laser_blink_interval ≤ sub_u32 now t0
    · have h' : (gpio_laser_init g0 pins0 cfg t0).2.1.crosshair_laser.blink_interval
          ≤ sub_u32 now (gpio_laser_init g0 pins0 cfg t0).2.1.crosshair_laser.last_blink_time := h
      rw [if_pos h, if_pos h']
      rfl
    · have h' : ¬ (gpio_laser_init g0 pins0 cfg t0).2.1.crosshair_laser.blink_interval
          ≤ sub_u32 now (gpio_laser_init g0 pins0 cfg t0).2.1.crosshair_laser.last_blink_time := h
      rw [if_neg h, if_neg h']

set_option maxRecDepth 1000000 in
/-- C36 on the default configuration: after the console has stored a fan
cycle of 60 s and a laser blink interval of 1000 ms, a fan and a laser
initialized at time 0 do nothing at 60 000 ms and at 1000 ms, and toggle at
180 000 ms and at 500 ms, the intervals of the default configuration. -/
theorem console_interval_changes_do_not_reach_actuators_witness :
    (set_fan_cycle_interval DEFAULT_CONFIG (some (ascii "60"))).1 = CMD_SUCCESS ∧
    (set_fan_cycle_interval DEFAULT_CONFIG (some (ascii "60"))).2.fan_cycle_interval = 60000 ∧
    (set_laser_blink_interval DEFAULT_CONFIG (some (ascii "1000"))).2.laser_blink_interval
      = 1000 ∧
    (gpio_fan_process (gpio_fan_init example_gpio_module [] DEFAULT_CONFIG 0).2.1 [] 60000).2
      = [] ∧
    (gpio_fan_process (gpio_fan_init example_gpio_module [] DEFAULT_CONFIG 0).2.1 [] 180000).2
      = [(PIN_FAN, HIGH)] ∧
    (gpio_laser_process (gpio_laser_init example_gpio_module [] DEFAULT_CONFIG 0).2.1 []
        500).2 = [(PIN_CROSSHAIR_LASER, HIGH)] ∧
    (gpio_fan_init (gpio_fan_init example_gpio_module [] DEFAULT_CONFIG 0).2.1 []
        (set_fan_cycle_interval DEFAULT_CONFIG (some (ascii "60"))).2
        7).2.1.fan.cycle_interval = 60000 :=
  have h := console_interval_changes_do_not_reach_actuators example_gpio_module [] []
    DEFAULT_CONFIG (some (ascii "60")) (some (ascii "1000")) 0 7 60000 0
    (by decide) (by decide)
  have h2 := console_interval_changes_do_not_reach_actuators example_gpio_module [] []
    DEFAULT_CONFIG (some (ascii "60")) (some (ascii "1000")) 0 7 180000 0
    (by decide) (by decide)
  have h3 := console_interval_changes_do_not_reach_actuators example_gpio_module [] []
    DEFAULT_CONFIG (some (ascii "60")) (some (ascii "1000")) 0 7 500 0
    (by decide) (by decide)
  ⟨by decide, by decide, by decide, by rw [h.2.1.2.1]; decide, by rw [h2.2.1.2.1]; decide,
    by rw [h3.2.2.1.2.1]; decide, by rw [h.2.1.2.2]; decide⟩

end AMB82
